import Mathlib

/-!
# DigitalBanner: the command synchronisation core

A shallow embedding of the control-block protocol of `digitalbanner.cpp`:
the shared `TDATA` blocks, the console and web wire adapters (`CLImain`,
`DoReceiveRequests`) and the coordinator loop of `main`.

Conventions of the embedding.

* A C `char` is an `Int` in `-128 .. 127` (the target compiler's `char` is
  signed); `toChar` is the conversion of an `int` to `char`.
* `char data[256]` is a `List Int`; an access whose index is a constant of
  the program is written with `peek` / `List.set`, an access whose index is
  computed from data is checked and yields `none` outside the array.
* `*((int*)(data + 4))` is the little-endian 32-bit integer held in the
  four bytes `data[4..7]`.
* A C string is the list of its characters without the terminator.
* `none` stands for an execution that leaves defined behaviour (a read or
  write outside an object, a conversion specification without argument) or
  that ends in the runtime's invalid-parameter handler.
-/

namespace DigitalBanner

/-! ## Constants (`#define`s) -/

def D_COLOR1 : Nat := 0
def D_COLOR2 : Nat := 1
def D_COLOR3 : Nat := 2
def D_FLAGS : Nat := 3

def F_SLIDESHOW_MODE : Int := 0x01
def F_AUTOSTART : Int := 0x02
def F_BASELIGHT : Int := 0x04
def F_METAPOSTS : Int := 0x08

def C_BLACK : Int := 0
def C_RED : Int := 1
def C_GREEN : Int := 2
def C_BLUE : Int := 3
def C_CYAN : Int := 4
def C_MAGENTA : Int := 5
def C_YELLOW : Int := 6
def C_WHITE : Int := 7

def D_DOWNBEAT : Nat := 4
def D_VENUENAME : Nat := 8
def D_NAMESIZE : Nat := 248

def T_ERROR : Int := -1
def T_LOADING : Int := 0
def T_RUNNING : Int := 1
def T_WAITING : Int := 2
def T_STOPPING : Int := 3
def T_STOPPED : Int := 4

/-! ## Machine values -/

/-- Conversion of an `int` value to (signed, 8-bit) `char`. -/
def toChar (v : Int) : Int := (v + 128) % 256 - 128

/-- The bit pattern of a `char`, as a number in `0 .. 255`. -/
def ubyte (c : Int) : Nat := (c % 256).toNat

/-- The struct `threadData`: `int status; char data[256];`. -/
structure TDATA where
  status : Int
  data : List Int
deriving DecidableEq, Repr

/-- Read of `data[i]` for an index inside the array. -/
def peek (d : List Int) (i : Nat) : Int := d.getD i 0

/-- The assignment `data[idx] = v` for an index computed at run time: defined
only when the index lies inside the array. -/
def pokeChecked (d : List Int) (idx : Int) (v : Int) : Option (List Int) :=
  if 0 ≤ idx ∧ idx < (d.length : Int) then some (d.set idx.toNat v) else none

/-- The load `*((int*)(data + off))`: four bytes, little endian, two's complement. -/
def readInt32 (d : List Int) (off : Nat) : Int :=
  let u : Int := (ubyte (peek d off) : Int) + 256 * (ubyte (peek d (off + 1)) : Int)
    + 65536 * (ubyte (peek d (off + 2)) : Int) + 16777216 * (ubyte (peek d (off + 3)) : Int)
  if u < 2147483648 then u else u - 4294967296

/-- The store `*((int*)(data + off)) = v`. -/
def writeInt32 (d : List Int) (off : Nat) (v : Int) : List Int :=
  (((d.set off (toChar v)).set (off + 1) (toChar (v / 256))).set (off + 2)
    (toChar (v / 65536))).set (off + 3) (toChar (v / 16777216))

/-- The C string that starts at `data + off`: the bytes up to the first NUL;
`none` when the array holds no NUL from `off` on. -/
def cstrAt (d : List Int) (off : Nat) : Option (List Int) :=
  if (0 : Int) ∈ d.drop off then some ((d.drop off).takeWhile (fun b => b != 0)) else none

/-- Consecutive byte stores `data[off] = b0; data[off+1] = b1; ...`. -/
def writeBytes (d : List Int) (off : Nat) : List Int → List Int
  | [] => d
  | b :: bs => writeBytes (d.set off b) (off + 1) bs

/-- The library call `sprintf_s(data + off, size, ...)` once the text to print is known:
the text and its terminator are stored when they fit in `size` bytes; otherwise the
runtime's invalid-parameter handler is invoked, which ends the process. -/
def sprintf_s (d : List Int) (off size : Nat) (text : List Int) : Option (List Int) :=
  if text.length < size then some (writeBytes d off (text ++ [0])) else none

/-- The text produced by a format string that is printed with no further argument:
ordinary characters are copied, `%%` prints one `%`, and any other conversion
specification has no argument to take. -/
def formatNoArgs : List Int → Option (List Int)
  | [] => some []
  | 37 :: 37 :: rest => (formatNoArgs rest).map (fun t => 37 :: t)
  | 37 :: _ => none
  | c :: rest => (formatNoArgs rest).map (fun t => c :: t)

/-- The loop `for (int i = 0; i < n; i++) dst[i] = src[i];`. -/
def copyPrefix : Nat → List Int → List Int → List Int
  | 0, dst, _ => dst
  | n + 1, dst, src => (copyPrefix n dst src).set n (peek src n)

/-! ## `readFlags`, `writeFlags` -/

/-- The function `readFlags`: `return ((*elByte) & mask);`. -/
def readFlags (elByte mask : Int) : Int :=
  toChar ((ubyte elByte &&& ubyte mask : Nat) : Int)

/-- The function `writeFlags`: the new value of `*elByte`,
`((~mask & *elByte) | (mask & content))`. -/
def writeFlags (elByte mask content : Int) : Int :=
  toChar ((((255 ^^^ ubyte mask) &&& ubyte elByte) ||| (ubyte mask &&& ubyte content) : Nat) : Int)

/-! ## `streq` -/

/-- Read of `s[i]` in a NUL-terminated string: defined up to the terminator. -/
def cstrGet (s : List Int) (i : Nat) : Option Int :=
  if i ≤ s.length then some (s.getD i 0) else none

/-- The case fold of `streq`: `if (aa >= 'a' && aa <= 'z') aa -= 0x20;`. -/
def foldUpper (aa : Int) : Int :=
  if aa ≥ 97 ∧ aa ≤ 122 then toChar (aa - 0x20) else aa

/-- The `for` loop of `streq`, with `n` iterations left and loop variable `i`. -/
def streqLoop (a b : List Int) : Nat → Nat → Option Int
  | 0, _ => some 1
  | n + 1, i =>
    match cstrGet a i, cstrGet b i with
    | some aa, some bb =>
      if foldUpper aa ≠ foldUpper bb then some 0
      else if foldUpper aa = 0 then some 1
      else streqLoop a b n (i + 1)
    | _, _ => none

/-- The function `streq(a, b, start, stop)`. -/
def streq (a b : List Int) (start stop : Nat) : Option Int :=
  streqLoop a b (stop - start) start

/-! ## The coordinator: the loop of `main` -/

/-- The `switch` on `httpData->data[0]`: the new bytes of `glData->data`. -/
def main_httpSwitch (gl http : List Int) : Option (List Int) :=
  let op := peek http 0
  if op = -1 then some gl
  else if op = (D_FLAGS : Int) then
    some (gl.set D_FLAGS (writeFlags (peek gl D_FLAGS) (peek http 1) (peek http 2)))
  else if op = (D_DOWNBEAT : Int) then
    some (writeInt32 gl D_DOWNBEAT (readInt32 http 4))
  else if op = (D_VENUENAME : Int) then
    (cstrAt http 1).bind (fun s => sprintf_s gl D_VENUENAME D_NAMESIZE s)
  else pokeChecked gl op (peek http 1)

/-- The body of `if (httpData->status == T_WAITING)`: apply the command, copy the
snapshot `for (i < 255) httpData->data[i] = glData->data[i]`, release the peer. -/
def main_httpDispatch (gl http : TDATA) : Option (TDATA × TDATA) :=
  (main_httpSwitch gl.data http.data).map (fun g =>
    ({ gl with data := g }, { status := T_RUNNING, data := copyPrefix 255 http.data g }))

/-- The `switch` on `cliData->data[0]`: the new bytes of `glData->data` and of
`cliData->data`. -/
def main_cliSwitch (gl cli : List Int) : Option (List Int × List Int) :=
  let op := peek cli 0
  if op = 99 then -- 'c'
    (pokeChecked gl (peek cli 1) (peek cli 2)).map (fun g => (g, cli))
  else if op = 114 then -- 'r'
    some (gl, copyPrefix 3 cli gl)
  else if op = 115 then -- 's'
    some (gl.set D_FLAGS (writeFlags (peek gl D_FLAGS) F_SLIDESHOW_MODE
      (toChar (-(if peek cli 1 ≠ 0 then 1 else 0)))), cli)
  else if op = 116 then -- 't'
    some (writeInt32 gl D_DOWNBEAT (readInt32 cli 4), cli)
  else if op = 118 then -- 'v'
    ((cstrAt cli 1).bind formatNoArgs).bind (fun s =>
      (sprintf_s gl D_VENUENAME D_NAMESIZE s).map (fun g => (g, cli)))
  else if op = 97 then -- 'a'
    let g := gl.set D_FLAGS (writeFlags (peek gl D_FLAGS) F_AUTOSTART
      (toChar (-(if readFlags (peek gl D_FLAGS) F_AUTOSTART ≠ 0 then 0 else 1))))
    some (g, cli.set 1 (if readFlags (peek g D_FLAGS) F_AUTOSTART ≠ 0 then 1 else 0))
  else some (gl, cli)

/-- The body of `if (cliData->status == T_WAITING)`. -/
def main_cliDispatch (gl cli : TDATA) : Option (TDATA × TDATA) :=
  (main_cliSwitch gl.data cli.data).map (fun p =>
    ({ gl with data := p.1 }, { status := T_RUNNING, data := p.2 }))

/-- The state the coordinator works on: the three control blocks of `main`. -/
structure Blocks where
  gl : TDATA
  http : TDATA
  cli : TDATA
deriving DecidableEq, Repr

/-- One iteration of the `while` loop of `main`: the web block is examined first,
the console block second. -/
def main_loopBody (s : Blocks) : Option Blocks :=
  (if s.http.status = T_WAITING then main_httpDispatch s.gl s.http else some (s.gl, s.http)).bind
    (fun p =>
      (if s.cli.status = T_WAITING then main_cliDispatch p.1 s.cli else some (p.1, s.cli)).map
        (fun r => { gl := r.1, http := p.2, cli := r.2 }))

/-! ## The console adapter: the handlers of `CLImain` -/

/-- The lines a console handler prints before it returns to the prompt or waits. -/
inductive Msg where
  | timeUsage
  | invalidColor
  | invalidColorId
  | colorSwitched (id tg : Int)
deriving DecidableEq, Repr

/-- How a console handler leaves the control block.
`again`: the handler ran `continue`, nothing was written and `command` still holds
the token read last. `done`: nothing was written, the handler fell through to the
prompt. `submit`: opcode and arguments were written and `status` set to `T_WAITING`. -/
inductive CliOutcome where
  | again (out : List Msg)
  | done (out : List Msg)
  | submit (td : TDATA) (out : List Msg)
deriving DecidableEq, Repr

/-- The branch `DOWNBEAT` of `CLImain`, after `std::cin >> command` has read the
argument token `command`. -/
def CLImain_downbeat (td : TDATA) (command : List Int) : CliOutcome :=
  if command.length ≠ 4 then CliOutcome.again [Msg.timeUsage]
  else
    let minutes : Int := 0 + (command.getD 0 0 - 48) * 600 + (command.getD 1 0 - 48) * 60
    if minutes > 60 * 23 then CliOutcome.again [Msg.timeUsage]
    else
      let minutes : Int := minutes + (command.getD 2 0 - 48) * 10 + (command.getD 3 0 - 48)
      CliOutcome.submit
        { status := T_WAITING, data := (writeInt32 td.data 4 minutes).set 0 116 }
        (if minutes ≥ 60 * 24 then [Msg.timeUsage] else [])

/-- The palette names tested by the branch `COLOR`, in the order of the tests,
each with the `stop` argument of its `streq` call. -/
def colorTests : List (List Int × Nat) :=
  [ ([66, 76, 65, 67, 75], 6),            -- "BLACK"
    ([82, 69, 68], 4),                    -- "RED"
    ([71, 82, 69, 69, 78], 6),            -- "GREEN"
    ([66, 76, 85, 69], 5),                -- "BLUE"
    ([67, 89, 65, 78], 5),                -- "CYAN"
    ([77, 65, 71, 69, 78, 84, 65], 8),    -- "MAGENTA"
    ([89, 69, 76, 76, 79, 87], 7),        -- "YELLOW"
    ([87, 72, 73, 84, 69], 6) ]           -- "WHITE"

/-- The chain `if (streq(command, "BLACK", 0, 6)) tg = 0; else if ... else tg = -1;`,
from the test of index `tg` on. -/
def colorChain (command : List Int) : List (List Int × Nat) → Int → Option Int
  | [], _ => some (-1)
  | (name, stop) :: rest, tg =>
    match streq command name 0 stop with
    | none => none
    | some r => if r ≠ 0 then some tg else colorChain command rest (tg + 1)

/-- The branch `COLOR` of `CLImain`: `id` is the character read by `std::cin >> id`,
`command` the token read next when the id is accepted. -/
def CLImain_color (td : TDATA) (id : Int) (command : List Int) : Option CliOutcome :=
  if id ≥ 49 ∧ id ≤ 51 then
    let id : Int := toChar (id - 49)
    (colorChain command colorTests 0).map (fun tg =>
      if tg ≠ -1 then
        CliOutcome.submit
          { status := T_WAITING, data := ((td.data.set 0 99).set 1 id).set 2 tg }
          [Msg.colorSwitched id tg]
      else CliOutcome.done [Msg.invalidColor])
  else some (CliOutcome.done [Msg.invalidColorId])

/-- The branch `VENUE` of `CLImain`: `venue` is the rest of the line read by
`std::getline`, and `venue.c_str()+1` is passed to `sprintf_s` as the format. -/
def CLImain_venue (td : TDATA) (venue : List Int) : Option CliOutcome :=
  if venue = [] then none
  else
    ((formatNoArgs venue.tail).bind (fun text => sprintf_s td.data 1 D_NAMESIZE text)).map
      (fun d => CliOutcome.submit { status := T_WAITING, data := d.set 0 118 } [])

/-! ## The web adapter: the query decoding of `DoReceiveRequests` -/

/-- Read of `query[i]` in the NUL-terminated wide string `query`. -/
def wget (q : List Nat) (i : Nat) : Option Nat :=
  if i ≤ q.length then some (q.getD i 0) else none

/-- The value added to `newc` for the first character `x` of an escape. -/
def hexHigh (x : Nat) : Int :=
  if x ≥ 48 ∨ x ≤ 57 then ((x : Int) - 48) * 16
  else (((x &&& 0xdf : Nat) : Int) - 65 + 10) * 16

/-- The value added to `newc` for the second character `x` of an escape. -/
def hexLow (x : Nat) : Int :=
  if x ≥ 48 ∨ x ≤ 57 then (x : Int) - 48
  else ((x &&& 0xdf : Nat) : Int) - 65 + 10

/-- The test `query[c] == '%' && query[c+1] != '\0' && query[c+2] != '\0'`, evaluated
left to right; on success the two characters after the `%`. -/
def escapeAt (q : List Nat) (c qc : Nat) : Option (Option (Nat × Nat)) :=
  if qc = 37 then
    (wget q (c + 1)).bind (fun q1 =>
      if q1 ≠ 0 then
        (wget q (c + 2)).map (fun q2 => if q2 ≠ 0 then some (q1, q2) else none)
      else some none)
  else some none

/-- The loop `for (int c = 2; query[c - 1] != '\0' && c < D_NAMESIZE; c++)` of case `v`,
with loop variables `c` and `i`; the first argument bounds the number of tests of the
loop condition. -/
def venueLoop (q : List Nat) : Nat → Nat → Nat → List Int → Option (List Int)
  | 0, _, _, _ => none
  | fuel + 1, c, i, data =>
    (wget q (c - 1)).bind (fun prev =>
      if prev ≠ 0 ∧ c < D_NAMESIZE then
        (wget q c).bind (fun qc =>
          (escapeAt q c qc).bind (fun esc =>
            match esc with
            | some (q1, q2) =>
              venueLoop q fuel (c + 2 + 1) (i + 1)
                ((data.set i (toChar (qc : Int))).set i
                  (toChar (toChar (0 + hexHigh q1) + hexLow q2)))
            | none => venueLoop q fuel (c + 1) (i + 1) (data.set i (toChar (qc : Int)))))
      else some data)

/-- The `switch (query[1])` of the `update.json` handler: the new payload bytes. -/
def DoReceiveRequests_switch (data : List Int) (q : List Nat) : Option (List Int) :=
  let q1 := q.getD 1 0
  if q1 = 118 then -- 'v'
    (venueLoop q D_NAMESIZE 2 1 data).map (fun d => d.set 0 (D_VENUENAME : Int))
  else if q1 = 116 then -- 't'
    if q.length < 6 ∨ q.getD 2 0 < 48 ∨ q.getD 2 0 > 50 ∨ q.getD 3 0 < 48 ∨ q.getD 3 0 > 57
        ∨ q.getD 4 0 < 48 ∨ q.getD 4 0 > 53 ∨ q.getD 5 0 < 48 ∨ q.getD 5 0 > 57 then
      some (data.set 0 (-1))
    else
      let t : Int := (q.getD 2 0 : Int) * 600 + (q.getD 3 0 : Int) * 60 + (q.getD 4 0 : Int) * 10
        + (q.getD 5 0 : Int) - 48 * 671
      some (writeInt32 (data.set 0 (D_DOWNBEAT : Int)) D_DOWNBEAT t)
  else if q1 = 99 then -- 'c'
    if q.length < 4 ∨ q.getD 2 0 < 48 ∨ q.getD 2 0 > 50 ∨ q.getD 3 0 < 48 ∨ q.getD 3 0 > 55 then
      some (data.set 0 (-1))
    else
      some ((data.set 0 (toChar ((q.getD 2 0 : Int) - 48))).set 1 (toChar ((q.getD 3 0 : Int) - 48)))
  else
    if q1 < 48 ∨ q1 > 51 ∨ (q.getD 2 0 ≠ 48 ∧ q.getD 2 0 ≠ 49) then
      some (data.set 0 (-1))
    else
      some (((data.set 0 (D_FLAGS : Int)).set 1 (toChar ((1 <<< (q1 - 48) : Nat) : Int))).set 2
        (toChar (-(if (q.getD 2 0 : Int) - 48 ≠ 0 then 1 else 0))))

/-- The `update.json` handler of `DoReceiveRequests` up to `status = T_WAITING`:
`query` is `request->CookedUrl.pQueryString` (`none` for `NULL`), whose first
character is the question mark. -/
def DoReceiveRequests_query (td : TDATA) (query : Option (List Nat)) : Option TDATA :=
  match query with
  | some q =>
    if q.length ≥ 3 then
      (DoReceiveRequests_switch td.data q).map (fun d => { status := T_WAITING, data := d })
    else some { status := T_WAITING, data := td.data.set 0 (-1) }
  | none => some { status := T_WAITING, data := td.data.set 0 (-1) }

/-- The `p`-th palette name of the console grammar (`p` in `0 .. 7`). -/
def paletteName (p : Nat) : List Int := (colorTests.getD p ([], 0)).1

/-- A control block as `HeapAlloc(..., HEAP_ZERO_MEMORY, sizeof(TDATA))` returns it. -/
def zeroBlock : TDATA := { status := 0, data := List.replicate 256 0 }

/-! ## The render state, as read from `glData->data` -/

/-- The colour of slot `k` (1, 2 or 3): `data[D_COLOR1 + k - 1]`. -/
def colorSlot (gl : List Int) (k : Nat) : Int := peek gl (k - 1)

/-- The byte of behaviour flags. -/
def behaviorFlags (gl : List Int) : Int := peek gl D_FLAGS

/-- The value of `*SHOWTIME`. -/
def downbeatMinutes (gl : List Int) : Int := readInt32 gl D_DOWNBEAT

/-- The string at `VENUE_NAME`. -/
def venueName (gl : List Int) : Option (List Int) := cstrAt gl D_VENUENAME

/-- The fields of the render state. -/
inductive Field where
  | slot1
  | slot2
  | slot3
  | flags
  | downbeat
  | venue
deriving DecidableEq, Repr

/-- The content of a field of the render state held in `glData->data`: the byte of a
colour slot or of the flags, the integer `*SHOWTIME`, the string at `VENUE_NAME`. -/
def fieldOf : Field → List Int → Option (List Int)
  | Field.slot1, g => some [peek g D_COLOR1]
  | Field.slot2, g => some [peek g D_COLOR2]
  | Field.slot3, g => some [peek g D_COLOR3]
  | Field.flags, g => some [peek g D_FLAGS]
  | Field.downbeat, g => some [readInt32 g D_DOWNBEAT]
  | Field.venue, g => cstrAt g D_VENUENAME

/-- The field that the `switch` on `httpData->data[0]` writes for the command in the
web payload `hd`: the slot ids 0, 1, 2 go to the `default` case, `D_FLAGS`, `D_DOWNBEAT`
and `D_VENUENAME` to their own cases. -/
def webTarget (hd : List Int) : Option Field :=
  if peek hd 0 = 0 then some Field.slot1
  else if peek hd 0 = 1 then some Field.slot2
  else if peek hd 0 = 2 then some Field.slot3
  else if peek hd 0 = (D_FLAGS : Int) then some Field.flags
  else if peek hd 0 = (D_DOWNBEAT : Int) then some Field.downbeat
  else if peek hd 0 = (D_VENUENAME : Int) then some Field.venue
  else none

/-- The field that the `switch` on `cliData->data[0]` writes for the command in the
console payload `cd`: `'c'` with slot id 0, 1 or 2, `'s'` and `'a'` (flags), `'t'`, `'v'`. -/
def cliTarget (cd : List Int) : Option Field :=
  if peek cd 0 = 99 then
    (if peek cd 1 = 0 then some Field.slot1
     else if peek cd 1 = 1 then some Field.slot2
     else if peek cd 1 = 2 then some Field.slot3
     else none)
  else if peek cd 0 = 115 ∨ peek cd 0 = 97 then some Field.flags
  else if peek cd 0 = 116 then some Field.downbeat
  else if peek cd 0 = 118 then some Field.venue
  else none

/-- A state of the three blocks in which both peers are Waiting: the web payload holds
SetColorSlot(2, Green) (`data[0] = 1`, `data[1] = C_GREEN`), the console payload holds
SetColorSlot(1, Blue) (`data[0] = 'c'`, `data[1] = 0`, `data[2] = C_BLUE`). -/
def bothWaiting : Blocks :=
  { gl := zeroBlock,
    http := { status := T_WAITING, data := (zeroBlock.data.set 0 1).set 1 C_GREEN },
    cli := { status := T_WAITING, data := (zeroBlock.data.set 0 99).set 2 C_BLUE } }

/-! ## The console adapter: the handlers without argument -/

/-- The branch `AUTOSTART` of `CLImain` up to `status = T_WAITING`. -/
def CLImain_autostart (td : TDATA) : TDATA :=
  { status := T_WAITING, data := td.data.set 0 97 }

/-- The branch `COLORS` of `CLImain` up to `status = T_WAITING`. -/
def CLImain_colors (td : TDATA) : TDATA :=
  { status := T_WAITING, data := td.data.set 0 114 }

/-- The branch `SLIDESHOW` of `CLImain` up to `status = T_WAITING`:
`data[0] = 's'; data[1] = true;`. -/
def CLImain_slideshow (td : TDATA) : TDATA :=
  { status := T_WAITING, data := (td.data.set 0 115).set 1 1 }

/-- The branch `BANNER` of `CLImain` up to `status = T_WAITING`:
`data[0] = 's'; data[1] = false;`. -/
def CLImain_banner (td : TDATA) : TDATA :=
  { status := T_WAITING, data := (td.data.set 0 115).set 1 0 }

/-- The values the `update.json` handler prints into the response after the wait. -/
structure StatusDoc where
  red : Int
  green : Int
  blue : Int
  slideshow : Bool
  autostart : Bool
  baselight : Bool
  metaposts : Bool
  downbeat : Int
  name : Option (List Int)
deriving DecidableEq, Repr

/-- The arguments of the `sprintf_s(fileContents, 512, ...)` call of `DoReceiveRequests`,
read from the payload after the coordinator has released the peer. -/
def DoReceiveRequests_response (data : List Int) : StatusDoc :=
  { red := peek data D_COLOR1,
    green := peek data D_COLOR2,
    blue := peek data D_COLOR3,
    slideshow := decide (readFlags (peek data D_FLAGS) F_SLIDESHOW_MODE ≠ 0),
    autostart := decide (readFlags (peek data D_FLAGS) F_AUTOSTART ≠ 0),
    baselight := decide (readFlags (peek data D_FLAGS) F_BASELIGHT ≠ 0),
    metaposts := decide (readFlags (peek data D_FLAGS) F_METAPOSTS ≠ 0),
    downbeat := readInt32 data D_DOWNBEAT,
    name := cstrAt data D_VENUENAME }

/-- The flags byte that case `'a'` of the coordinator writes for the old byte `e`:
`writeFlags(&flags, F_AUTOSTART, -!readFlags(&flags, F_AUTOSTART))`. -/
def autostartToggled (e : Int) : Int :=
  writeFlags e F_AUTOSTART (toChar (-(if readFlags e F_AUTOSTART ≠ 0 then 0 else 1)))

/-- The rounds of the console command COLORS, `n` times in a row: the handler submits
`'r'`, the coordinator dispatches it and releases the peer. -/
def colorsRounds (gl : TDATA) : Nat → TDATA → Option (TDATA × TDATA)
  | 0, cli => some (gl, cli)
  | n + 1, cli => (main_cliDispatch gl (CLImain_colors cli)).bind (fun p => colorsRounds p.1 n p.2)

/-- The queries that the web adapter's shape tests refuse - follows §4.4 of the
specification: the query is absent, or shorter than three characters, or fails the
shape of the family its second character selects. For `t` the shape is four digits in
the ranges `0..2`, `0..9`, `0..5`, `0..9`; for `c` a slot digit `0..2` and a palette digit
`0..7`; for every other selector except `v` a digit `0..3` followed by `0` or `1`. -/
def queryRejected : Option (List Nat) → Prop
  | none => True
  | some q =>
    q.length < 3
    ∨ (q.getD 1 0 = 116 ∧ ¬ (6 ≤ q.length ∧ (48 ≤ q.getD 2 0 ∧ q.getD 2 0 ≤ 50)
        ∧ (48 ≤ q.getD 3 0 ∧ q.getD 3 0 ≤ 57) ∧ (48 ≤ q.getD 4 0 ∧ q.getD 4 0 ≤ 53)
        ∧ (48 ≤ q.getD 5 0 ∧ q.getD 5 0 ≤ 57)))
    ∨ (q.getD 1 0 = 99 ∧ ¬ (4 ≤ q.length ∧ (48 ≤ q.getD 2 0 ∧ q.getD 2 0 ≤ 50)
        ∧ (48 ≤ q.getD 3 0 ∧ q.getD 3 0 ≤ 55)))
    ∨ (q.getD 1 0 ≠ 118 ∧ q.getD 1 0 ≠ 116 ∧ q.getD 1 0 ≠ 99
        ∧ ¬ ((48 ≤ q.getD 1 0 ∧ q.getD 1 0 ≤ 51) ∧ (q.getD 2 0 = 48 ∨ q.getD 2 0 = 49)))

/-! ## The console thread: the loop of `CLImain` -/

/-- The white space that `std::cin >>` skips and stops at (`isspace` of the "C" locale). -/
def isSpace (c : Int) : Bool := decide (c = 32 ∨ (9 ≤ c ∧ c ≤ 13))

/-- The extraction `std::cin >> command` on the pending console input: leading white
space is skipped, the token runs up to the next white space; `none` while no token is
pending. -/
def readToken (input : List Int) : Option (List Int × List Int) :=
  match input.dropWhile isSpace with
  | [] => none
  | c :: rest =>
    some ((c :: rest).takeWhile (fun x => !isSpace x), (c :: rest).dropWhile (fun x => !isSpace x))

/-- The extraction `std::cin >> id` of one `char`; `none` while none is pending. -/
def readChar (input : List Int) : Option (Int × List Int) :=
  match input.dropWhile isSpace with
  | [] => none
  | c :: rest => some (c, rest)

/-- The call `std::getline(std::cin, venue)`: the characters up to the next newline, which
is consumed; `none` while no complete line is pending. -/
def readLine (input : List Int) : Option (List Int × List Int) :=
  if (10 : Int) ∈ input then
    some (input.takeWhile (fun x => x != 10), (input.dropWhile (fun x => x != 10)).tail)
  else none

/-- The verbs tested by the loop of `CLImain`, in the order of the tests: the `while`
condition (`EXIT`) first, then the `if` chain. Each is compared by
`streq(command, verb, 0, strlen(verb) + 1)`. -/
def verbTests : List (List Int) :=
  [ [69, 88, 73, 84],                         -- "EXIT"
    [72, 69, 76, 80],                         -- "HELP"
    [65, 85, 84, 79, 83, 84, 65, 82, 84],     -- "AUTOSTART"
    [86, 69, 78, 85, 69],                     -- "VENUE"
    [68, 79, 87, 78, 66, 69, 65, 84],         -- "DOWNBEAT"
    [65, 68, 68, 82, 69, 83, 83],             -- "ADDRESS"
    [67, 79, 76, 79, 82, 83],                 -- "COLORS"
    [67, 79, 76, 79, 82],                     -- "COLOR"
    [83, 76, 73, 68, 69, 83, 72, 79, 87],     -- "SLIDESHOW"
    [66, 65, 78, 78, 69, 82] ]                -- "BANNER"

/-- The index in `verbTests` of the first test that `command` passes, counted from `i`;
the length of the table when it passes none (the final `else`). -/
def verbChain (command : List Int) : List (List Int) → Nat → Option Nat
  | [], i => some i
  | verb :: rest, i =>
    match streq command verb 0 (verb.length + 1) with
    | none => none
    | some r => if r ≠ 0 then some i else verbChain command rest (i + 1)

/-- Where the console thread stands. `test`: at the `while` condition, `command` holds the
token to dispatch. `spin`: inside the `while (threadData->status == T_WAITING) {}` of a
handler. `read`: at the `std::cin >> command` that ends the loop body. `stopped`: after
the loop. -/
inductive CliPc where
  | test
  | spin
  | read
  | stopped
deriving DecidableEq, Repr

/-- The local state of the console thread: program point, the buffer `command`, and
the console input not yet consumed. -/
structure CliThread where
  pc : CliPc
  command : List Int
  input : List Int
deriving DecidableEq, Repr

/-- The loop body of `CLImain` from the `while` condition to the point where the
handler of `command` waits, reads the next command, or runs `continue`. A handler that
needs input which is not pending leaves the state as it is; `none` is an access outside
`command[256]` or a fault of a handler. -/
def CLImain_dispatch (td : TDATA) (t : CliThread) : Option (TDATA × CliThread) :=
  match verbChain t.command verbTests 0 with
  | none => none
  | some 0 => some ({ td with status := T_STOPPED }, { t with pc := CliPc.stopped })
  | some 2 => some (CLImain_autostart td, { t with pc := CliPc.spin })
  | some 3 =>
    match readLine t.input with
    | none => some (td, t)
    | some (venue, rest) =>
      match CLImain_venue td venue with
      | some (CliOutcome.submit td1 _) => some (td1, { t with pc := CliPc.spin, input := rest })
      | _ => none
  | some 4 =>
    match readToken t.input with
    | none => some (td, t)
    | some (arg, rest) =>
      if arg.length > 255 then none
      else
        match CLImain_downbeat td arg with
        | CliOutcome.again _ => some (td, { pc := CliPc.test, command := arg, input := rest })
        | CliOutcome.submit td1 _ =>
          some (td1, { pc := CliPc.spin, command := arg, input := rest })
        | CliOutcome.done _ => some (td, { pc := CliPc.read, command := arg, input := rest })
  | some 6 => some (CLImain_colors td, { t with pc := CliPc.spin })
  | some 7 =>
    match readChar t.input with
    | none => some (td, t)
    | some (id, rest) =>
      if id ≥ 49 ∧ id ≤ 51 then
        match readToken rest with
        | none => some (td, t)
        | some (name, rest2) =>
          if name.length > 255 then none
          else
            match CLImain_color td id name with
            | some (CliOutcome.submit td1 _) =>
              some (td1, { pc := CliPc.read, command := name, input := rest2 })
            | some _ => some (td, { pc := CliPc.read, command := name, input := rest2 })
            | none => none
      else some (td, { t with pc := CliPc.read, input := rest })
  | some 8 => some (CLImain_slideshow td, { t with pc := CliPc.spin })
  | some 9 => some (CLImain_banner td, { t with pc := CliPc.spin })
  | some _ => some (td, { t with pc := CliPc.read })

/-- One step of the console thread on its control block. -/
def CLImain_step (td : TDATA) (t : CliThread) : Option (TDATA × CliThread) :=
  match t.pc with
  | CliPc.test => CLImain_dispatch td t
  | CliPc.spin =>
    if td.status = T_WAITING then some (td, t) else some (td, { t with pc := CliPc.read })
  | CliPc.read =>
    match readToken t.input with
    | none => some (td, t)
    | some (tok, rest) =>
      if tok.length > 255 then none
      else some (td, { pc := CliPc.test, command := tok, input := rest })
  | CliPc.stopped => some (td, t)

/-- The console thread runs `n` steps in a row, the coordinator taking no step in between. -/
def CLImain_run : Nat → TDATA → CliThread → Option (TDATA × CliThread)
  | 0, td, t => some (td, t)
  | n + 1, td, t => (CLImain_step td t).bind (fun p => CLImain_run n p.1 p.2)

/-! ## The start of `main`: the initial render state -/

/-- The string literal `"Your Venue Name Here"` of `main`. -/
def venueDefault : List Int :=
  [89, 111, 117, 114, 32, 86, 101, 110, 117, 101, 32, 78, 97, 109, 101, 32, 72, 101, 114, 101]

/-- The first statements of `main`: the block `glData` as `HeapAlloc` returns it, then
`data[D_COLOR1] = 1; data[D_COLOR2] = 2; data[D_COLOR3] = 3;
data[D_FLAGS] = F_AUTOSTART | F_BASELIGHT | F_METAPOSTS; *showtime_pointer = 1200;
sprintf_s(data + D_VENUENAME, D_NAMESIZE, "Your Venue Name Here"); data[255] = 0;`. -/
def main_init : Option TDATA :=
  let d := zeroBlock.data.set D_COLOR1 1
  let d := d.set D_COLOR2 2
  let d := d.set D_COLOR3 3
  let d := d.set D_FLAGS
    (toChar ((ubyte F_AUTOSTART ||| ubyte F_BASELIGHT ||| ubyte F_METAPOSTS : Nat) : Int))
  let d := writeInt32 d 4 1200
  ((formatNoArgs venueDefault).bind (fun text => sprintf_s d D_VENUENAME D_NAMESIZE text)).map
    (fun d => { status := zeroBlock.status, data := d.set 255 0 })

/-! ## The render thread: one iteration of the loop of `GLmain` -/

/-- The row that `colors[slot]` selects in the table `float colors[8][3]`: defined for an
index inside the table only. -/
def colorsRow (slot : Int) : Option Nat :=
  if 0 ≤ slot ∧ slot < 8 then some slot.toNat else none

/-- What one iteration of the render loop of `GLmain` does to `threadData->data`, when
`localtime_s` reports the time `tm_hour`:`tm_min`. In banner mode
(`readFlags(FLAGS, F_SLIDESHOW_MODE) == 0`) the frame reads `colors[*COLOR1]`,
`colors[*COLOR2]`, `colors[*COLOR3]` and writes nothing. In slideshow mode it runs
`hr = *SHOWTIME / 60; mn = *SHOWTIME % 60;
if (readFlags(FLAGS, F_AUTOSTART) && hr == t.tm_hour && mn == t.tm_min)
writeFlags(FLAGS, F_SLIDESHOW_MODE, 0);` and then reads the string at `VENUE_NAME`
(`drawText`). The division and the remainder are those of C, towards zero. -/
def GLmain_frame (data : List Int) (tm_hour tm_min : Int) : Option (List Int) :=
  if readFlags (peek data D_FLAGS) F_SLIDESHOW_MODE = 0 then
    ((colorsRow (peek data D_COLOR1)).bind (fun _ =>
      (colorsRow (peek data D_COLOR2)).bind (fun _ => colorsRow (peek data D_COLOR3)))).map
      (fun _ => data)
  else
    let hr := (readInt32 data D_DOWNBEAT).tdiv 60
    let mn := (readInt32 data D_DOWNBEAT).tmod 60
    let data1 :=
      if readFlags (peek data D_FLAGS) F_AUTOSTART ≠ 0 ∧ hr = tm_hour ∧ mn = tm_min then
        data.set D_FLAGS (writeFlags (peek data D_FLAGS) F_SLIDESHOW_MODE 0)
      else data
    (cstrAt data1 D_VENUENAME).map (fun _ => data1)

/-! ## The text that the venue loop of the web adapter produces -/

/-- The bytes that the loop of case `v` stores for the query characters from `query[c]`
on (the list given), when the loop is not cut short by `c < D_NAMESIZE`: a `%` that two
further characters follow is stored as `newc`, computed by `hexHigh` and `hexLow` from
these two characters, which are skipped (the first argument counts the characters still
to skip); every other character is stored as it is. -/
def venueDecoded : Nat → List Nat → List Int
  | _, [] => []
  | skip + 1, _ :: rest => venueDecoded skip rest
  | 0, qc :: rest =>
    if qc = 37 then
      match rest with
      | q1 :: q2 :: _ => toChar (toChar (0 + hexHigh q1) + hexLow q2) :: venueDecoded 2 rest
      | _ => toChar (qc : Int) :: venueDecoded 0 rest
    else toChar (qc : Int) :: venueDecoded 0 rest

/-- The value of a hexadecimal digit `0-9`, `A-F`, `a-f` - follows the wording of the
specification (§4.4, percent-decoding with two hexadecimal digits). -/
def hexval (x : Nat) : Option Nat :=
  if 48 ≤ x ∧ x ≤ 57 then some (x - 48)
  else if 65 ≤ x ∧ x ≤ 70 then some (x - 55)
  else if 97 ≤ x ∧ x ≤ 102 then some (x - 87)
  else none

/-- Percent-decoding as the specification words it: every escape `%XY` with `X` and `Y`
hexadecimal digits is replaced by the byte `16 * hexval X + hexval Y`, every other
character is copied unchanged (the first argument counts the characters of an escape
still to skip). -/
def percentDecodedSpec : Nat → List Nat → List Int
  | _, [] => []
  | skip + 1, _ :: rest => percentDecodedSpec skip rest
  | 0, qc :: rest =>
    if qc = 37 then
      match rest with
      | x :: y :: _ =>
        match hexval x, hexval y with
        | some a, some b => toChar ((16 * a + b : Nat) : Int) :: percentDecodedSpec 2 rest
        | _, _ => toChar (qc : Int) :: percentDecodedSpec 0 rest
      | _ => toChar (qc : Int) :: percentDecodedSpec 0 rest
    else toChar (qc : Int) :: percentDecodedSpec 0 rest

/-! ## The colour-slot invariant -/

/-- Each of `data[D_COLOR1]`, `data[D_COLOR2]`, `data[D_COLOR3]` is an index of the table
`colors[8]`. -/
def slotsInTable (gl : List Int) : Prop :=
  ∀ k : Nat, 1 ≤ k → k ≤ 3 → 0 ≤ colorSlot gl k ∧ colorSlot gl k ≤ 7

/-- The web payloads that the web adapter writes: the sentinel, the opcodes `D_FLAGS`,
`D_DOWNBEAT`, `D_VENUENAME`, or a slot id `0..2` with a palette index `0..7`. -/
def webPayloadSafe (hd : List Int) : Prop :=
  peek hd 0 = -1 ∨ peek hd 0 = 3 ∨ peek hd 0 = 4 ∨ peek hd 0 = 8
    ∨ ((peek hd 0 = 0 ∨ peek hd 0 = 1 ∨ peek hd 0 = 2) ∧ 0 ≤ peek hd 1 ∧ peek hd 1 ≤ 7)

/-- The console payloads that the console handlers write: when the opcode is `'c'`, the
slot id is `0..2` and the palette index `0..7`. -/
def cliPayloadSafe (cd : List Int) : Prop :=
  peek cd 0 = 99 →
    ((peek cd 1 = 0 ∨ peek cd 1 = 1 ∨ peek cd 1 = 2) ∧ 0 ≤ peek cd 2 ∧ peek cd 2 ≤ 7)

/-- The invariant of the three blocks: payloads of 256 bytes, colour slots inside the
table, and a payload written by the adapter in every block that waits for the coordinator. -/
def Blocks.Inv (b : Blocks) : Prop :=
  b.gl.data.length = 256 ∧ b.http.data.length = 256 ∧ b.cli.data.length = 256
    ∧ slotsInTable b.gl.data
    ∧ (b.http.status = T_WAITING → webPayloadSafe b.http.data)
    ∧ (b.cli.status = T_WAITING → cliPayloadSafe b.cli.data)

/-- What a step of the console thread leaves in its block: 256 bytes of payload, and a
payload of the console adapter whenever the block waits for the coordinator. -/
def cliBlockOk (td : TDATA) : Prop :=
  td.data.length = 256 ∧ (td.status = T_WAITING → cliPayloadSafe td.data)

/-- The payload of `glData` after the first statements of `main`. -/
def initData : List Int :=
  (writeBytes (writeInt32 ((((zeroBlock.data.set 0 1).set 1 2).set 2 3).set 3 14) 4 1200) 8
    (venueDefault ++ [0])).set 255 0

/-- The branch `VENUE` of `CLImain` up to and including
`sprintf_s(threadData->data + 1, D_NAMESIZE, venue.c_str()+1)`: the name is in the
payload, `data[0]` and `status` are still what they were; the stores `data[0] = 'v'` and
`status = T_WAITING` follow. -/
def CLImain_venue_name (td : TDATA) (venue : List Int) : Option TDATA :=
  if venue = [] then none
  else
    ((formatNoArgs venue.tail).bind (fun text => sprintf_s td.data 1 D_NAMESIZE text)).map
      (fun d => { td with data := d })

/-! ## Lemmas on machine values, memory and `streq` -/

theorem toChar_of_range (v : Int) (h1 : -128 ≤ v) (h2 : v ≤ 127) : toChar v = v := by
  unfold toChar; omega

theorem foldUpper_eq_zero_iff (x : Int) : foldUpper x = 0 ↔ x = 0 := by
  unfold foldUpper toChar
  split <;> omega

theorem cstrGet_of_lt (s : List Int) (i : Nat) (h : i < s.length) : cstrGet s i = some s[i] := by
  unfold cstrGet
  rw [if_pos (Nat.le_of_lt h), List.getD_eq_getElem _ _ h]

theorem cstrGet_length (s : List Int) : cstrGet s s.length = some 0 := by
  unfold cstrGet
  simp

theorem streqLoop_spec (a b : List Int) (ha : ∀ x ∈ a, x ≠ 0) (hb : ∀ x ∈ b, x ≠ 0) :
    ∀ (n i : Nat), i ≤ a.length → i ≤ b.length → b.length - i < n →
      streqLoop a b n i
        = some (if (a.drop i).map foldUpper = (b.drop i).map foldUpper then 1 else 0) := by
  intro n
  induction n with
  | zero => intro i _ _ h; omega
  | succ n ih =>
    intro i hia hib hn
    rcases Nat.lt_or_ge i a.length with hla | hla
    · have hda : a.drop i = a[i] :: a.drop (i + 1) := List.drop_eq_getElem_cons hla
      have hane : foldUpper a[i] ≠ 0 := by
        rw [Ne, foldUpper_eq_zero_iff]; exact ha _ (List.getElem_mem _)
      rcases Nat.lt_or_ge i b.length with hlb | hlb
      · have hdb : b.drop i = b[i] :: b.drop (i + 1) := List.drop_eq_getElem_cons hlb
        rw [streqLoop, cstrGet_of_lt a i hla, cstrGet_of_lt b i hlb, hda, hdb]
        by_cases hf : foldUpper a[i] = foldUpper b[i]
        · have hbne : ¬ foldUpper b[i] = 0 := by rw [← hf]; exact hane
          simp only [hf, ne_eq, not_true_eq_false, if_false, List.map_cons, List.cons.injEq,
            true_and, hbne]
          exact ih (i + 1) hla hlb (by omega)
        · simp only [hf, ne_eq, not_false_eq_true, if_true, List.map_cons, List.cons.injEq,
            false_and, if_false]
      · have hbl : i = b.length := by omega
        have hdb : b.drop i = [] := List.drop_eq_nil_of_le hlb
        rw [streqLoop, cstrGet_of_lt a i hla, hda, hdb]
        subst hbl
        rw [cstrGet_length]
        have h0 : foldUpper 0 = 0 := by decide
        simp only [h0, ne_eq, hane, not_false_eq_true, if_true, List.map_cons, List.map_nil,
          reduceCtorEq, if_false]
    · have hal : i = a.length := by omega
      have hda : a.drop i = [] := List.drop_eq_nil_of_le hla
      rcases Nat.lt_or_ge i b.length with hlb | hlb
      · have hdb : b.drop i = b[i] :: b.drop (i + 1) := List.drop_eq_getElem_cons hlb
        have hbne : foldUpper b[i] ≠ 0 := by
          rw [Ne, foldUpper_eq_zero_iff]; exact hb _ (List.getElem_mem _)
        rw [streqLoop, cstrGet_of_lt b i hlb, hda, hdb]
        subst hal
        rw [cstrGet_length]
        have h0 : foldUpper 0 = 0 := by decide
        have hbne2 : ¬ (0 : Int) = foldUpper b[a.length] := fun h => hbne h.symm
        simp only [h0, ne_eq, hbne2, not_false_eq_true, if_true, List.map_cons, List.map_nil,
          reduceCtorEq, if_false]
      · have hdb : b.drop i = [] := List.drop_eq_nil_of_le hlb
        have hbl : i = b.length := by omega
        rw [streqLoop, hda, hdb]
        have e1 : cstrGet a i = some 0 := by rw [hal]; exact cstrGet_length a
        have e2 : cstrGet b i = some 0 := by rw [hbl]; exact cstrGet_length b
        rw [e1, e2]
        have h0 : foldUpper 0 = 0 := by decide
        simp [h0]

theorem streq_spec (a b : List Int) (stop : Nat) (ha : ∀ x ∈ a, x ≠ 0) (hb : ∀ x ∈ b, x ≠ 0)
    (hstop : b.length < stop) :
    streq a b 0 stop = some (if a.map foldUpper = b.map foldUpper then 1 else 0) := by
  have := streqLoop_spec a b ha hb (stop - 0) 0 (Nat.zero_le _) (Nat.zero_le _) (by omega)
  simpa [streq] using this

theorem peek_set_self (d : List Int) (i : Nat) (v : Int) (h : i < d.length) :
    peek (d.set i v) i = v := by
  simp [peek, h]

theorem peek_set_ne (d : List Int) (i j : Nat) (v : Int) (h : i ≠ j) :
    peek (d.set i v) j = peek d j := by
  simp [peek, h]

theorem readInt32_set_other (d : List Int) (off i : Nat) (v : Int) (h : i < off ∨ off + 3 < i) :
    readInt32 (d.set i v) off = readInt32 d off := by
  unfold readInt32
  rw [peek_set_ne, peek_set_ne, peek_set_ne, peek_set_ne] <;> omega

theorem cstrAt_set_lt (d : List Int) (off i : Nat) (v : Int) (h : i < off) :
    cstrAt (d.set i v) off = cstrAt d off := by
  unfold cstrAt
  rw [List.drop_set_of_lt _ _ h]

/-! ## SetColorSlot: claim C1 -/

theorem colorChain_palette (name : List Int) (p : Nat) (hp : p < 8)
    (hname : name.map foldUpper = paletteName p) :
    colorChain name colorTests 0 = some (p : Int) := by
  have hnz : ∀ x ∈ name, x ≠ 0 := by
    intro x hx h0
    have hmem : foldUpper x ∈ name.map foldUpper := List.mem_map_of_mem _ hx
    rw [hname, h0] at hmem
    interval_cases p <;> revert hmem <;> decide
  have key : ∀ (b : List Int) (stop : Nat), (∀ x ∈ b, x ≠ 0) → b.length < stop →
      streq name b 0 stop = some (if paletteName p = b.map foldUpper then 1 else 0) := by
    intro b stop hb hs
    rw [streq_spec name b stop hnz hb hs, hname]
  interval_cases p <;>
    simp only [colorChain, colorTests] <;>
    repeat (first
      | rfl
      | (rw [key _ _ (by decide) (by decide)]
         simp only [paletteName, colorTests, List.getD_cons_zero, List.getD_cons_succ, List.map_cons, List.map_nil]
         )
      )

theorem cli_color_submit (cli : TDATA) (k p : Nat) (name : List Int)
    (hk : 1 ≤ k ∧ k ≤ 3) (hp : p < 8) (hname : name.map foldUpper = paletteName p) :
    CLImain_color cli (48 + (k : Int)) name
      = some (CliOutcome.submit
          { status := T_WAITING,
            data := ((cli.data.set 0 99).set 1 ((k : Int) - 1)).set 2 (p : Int) }
          [Msg.colorSwitched ((k : Int) - 1) (p : Int)]) := by
  have hid : toChar (48 + (k : Int) - 49) = (k : Int) - 1 := by
    rw [toChar_of_range] <;> omega
  unfold CLImain_color
  rw [if_pos (by omega), colorChain_palette name p hp hname]
  have hne : ¬ ((p : Int) = -1) := by omega
  simp only [Option.map_some', ne_eq, hne, not_false_eq_true, if_true, hid]

theorem cli_color_dispatch (gl : TDATA) (cd : List Int) (k : Nat) (v : Int)
    (hgl : gl.data.length = 256) (hcd : cd.length = 256) (hk : 1 ≤ k ∧ k ≤ 3) :
    main_cliDispatch gl
        { status := T_WAITING, data := ((cd.set 0 99).set 1 ((k : Int) - 1)).set 2 v }
      = some ({ gl with data := gl.data.set (k - 1) v },
          { status := T_RUNNING, data := ((cd.set 0 99).set 1 ((k : Int) - 1)).set 2 v }) := by
  have h0 : peek (((cd.set 0 99).set 1 ((k : Int) - 1)).set 2 v) 0 = 99 := by
    simp [peek, hcd]
  have h1 : peek (((cd.set 0 99).set 1 ((k : Int) - 1)).set 2 v) 1 = (k : Int) - 1 := by
    simp [peek, hcd]
  have h2 : peek (((cd.set 0 99).set 1 ((k : Int) - 1)).set 2 v) 2 = v := by
    simp [peek, hcd]
  have hidx : ((k : Int) - 1).toNat = k - 1 := by omega
  unfold main_cliDispatch main_cliSwitch
  simp only [h0, h1, h2, if_true, pokeChecked, hgl]
  rw [if_pos (by omega), hidx]
  rfl

theorem web_color_submit (http : TDATA) (k p q0 : Nat) (rest : List Nat)
    (hk : 1 ≤ k ∧ k ≤ 3) (hp : p < 8) :
    DoReceiveRequests_query http (some (q0 :: 99 :: (48 + (k - 1)) :: (48 + p) :: rest))
      = some { status := T_WAITING,
               data := (http.data.set 0 ((k : Int) - 1)).set 1 (p : Int) } := by
  have e1 : toChar (((48 + (k - 1) : Nat) : Int) - 48) = (k : Int) - 1 := by
    rw [toChar_of_range] <;> omega
  have e2 : toChar (((48 + p : Nat) : Int) - 48) = (p : Int) := by
    rw [toChar_of_range] <;> omega
  have hg : ¬ ((rest.length + 1 + 1 + 1 + 1 < 4) ∨ 48 + (k - 1) < 48 ∨ 48 + (k - 1) > 50
      ∨ 48 + p < 48 ∨ 48 + p > 55) := by omega
  simp only [DoReceiveRequests_query, DoReceiveRequests_switch, List.length_cons,
    List.getD_cons_zero, List.getD_cons_succ]
  rw [if_pos (by omega)]
  simp only [show ¬ ((99 : Nat) = 118) by decide, show ¬ ((99 : Nat) = 116) by decide, if_false,
    if_true, hg, e1, e2, Option.map_some']

theorem web_color_dispatch (gl : TDATA) (hd : List Int) (k : Nat) (v : Int)
    (hgl : gl.data.length = 256) (hhd : hd.length = 256) (hk : 1 ≤ k ∧ k ≤ 3) :
    main_httpDispatch gl { status := T_WAITING, data := (hd.set 0 ((k : Int) - 1)).set 1 v }
      = some ({ gl with data := gl.data.set (k - 1) v },
          { status := T_RUNNING,
            data := copyPrefix 255 ((hd.set 0 ((k : Int) - 1)).set 1 v) (gl.data.set (k - 1) v) }) := by
  have h0 : peek ((hd.set 0 ((k : Int) - 1)).set 1 v) 0 = (k : Int) - 1 := by
    simp [peek, hhd]
  have h1 : peek ((hd.set 0 ((k : Int) - 1)).set 1 v) 1 = v := by
    simp [peek, hhd]
  have hidx : ((k : Int) - 1).toNat = k - 1 := by omega
  unfold main_httpDispatch main_httpSwitch
  simp only [h0, h1, pokeChecked, hgl, D_FLAGS, D_DOWNBEAT, D_VENUENAME]
  rw [if_neg (by omega), if_neg (by omega), if_neg (by omega), if_neg (by omega),
    if_pos (by omega), hidx]
  rfl

/-- Writing a colour slot leaves the other fields of the render state as they were. -/
theorem slot_write_frame (g : List Int) (k : Nat) (v : Int) (hg : g.length = 256)
    (hk : 1 ≤ k ∧ k ≤ 3) :
    colorSlot (g.set (k - 1) v) k = v
      ∧ (∀ j : Nat, 1 ≤ j → j ≤ 3 → j ≠ k → colorSlot (g.set (k - 1) v) j = colorSlot g j)
      ∧ behaviorFlags (g.set (k - 1) v) = behaviorFlags g
      ∧ downbeatMinutes (g.set (k - 1) v) = downbeatMinutes g
      ∧ venueName (g.set (k - 1) v) = venueName g := by
  refine ⟨?_, ?_, ?_, ?_, ?_⟩
  · exact peek_set_self g (k - 1) v (by omega)
  · intro j hj1 hj3 hjk
    exact peek_set_ne g (k - 1) (j - 1) v (by omega)
  · exact peek_set_ne g (k - 1) D_FLAGS v (by unfold D_FLAGS; omega)
  · exact readInt32_set_other g D_DOWNBEAT (k - 1) v (by unfold D_DOWNBEAT; omega)
  · exact cstrAt_set_lt g D_VENUENAME (k - 1) v (by unfold D_VENUENAME; omega)

theorem zeroBlock_length : zeroBlock.data.length = 256 :=
  List.length_replicate 256 (0 : Int)

/-- C1. SetColorSlot round trip. For every slot `k` in `1..3` and palette index `p` in
`0..7`: the console line `COLOR k NAME`, with `NAME` the `p`-th palette name in any letter
case, and the web query `?c` followed by the digits `k-1` and `p`, both submit a command
(status `T_WAITING`) whose dispatch by the coordinator turns the render state into the same
state with `colorSlot[k] = p`; the other two colour slots, the flags byte, `downbeatMinutes`
and `venueName` are unchanged. -/
theorem C1_setColorSlot_roundtrip (gl cli http : TDATA) (k p : Nat) (name : List Int)
    (hgl : gl.data.length = 256) (hcli : cli.data.length = 256) (hhttp : http.data.length = 256)
    (hk : 1 ≤ k ∧ k ≤ 3) (hp : p < 8) (hname : name.map foldUpper = paletteName p) :
    (∃ cli1 out cli2,
        CLImain_color cli (48 + (k : Int)) name = some (CliOutcome.submit cli1 out)
        ∧ cli1.status = T_WAITING
        ∧ main_cliDispatch gl cli1 = some ({ gl with data := gl.data.set (k - 1) (p : Int) }, cli2))
    ∧ (∃ http1 http2,
        DoReceiveRequests_query http (some [63, 99, 48 + (k - 1), 48 + p]) = some http1
        ∧ http1.status = T_WAITING
        ∧ main_httpDispatch gl http1
            = some ({ gl with data := gl.data.set (k - 1) (p : Int) }, http2))
    ∧ colorSlot (gl.data.set (k - 1) (p : Int)) k = (p : Int)
    ∧ (∀ j : Nat, 1 ≤ j → j ≤ 3 → j ≠ k →
        colorSlot (gl.data.set (k - 1) (p : Int)) j = colorSlot gl.data j)
    ∧ behaviorFlags (gl.data.set (k - 1) (p : Int)) = behaviorFlags gl.data
    ∧ downbeatMinutes (gl.data.set (k - 1) (p : Int)) = downbeatMinutes gl.data
    ∧ venueName (gl.data.set (k - 1) (p : Int)) = venueName gl.data := by
  refine ⟨⟨_, _, _, cli_color_submit cli k p name hk hp hname, rfl,
      cli_color_dispatch gl cli.data k p hgl hcli hk⟩,
    ⟨_, _, web_color_submit http k p 63 [] hk hp, rfl,
      web_color_dispatch gl http.data k p hgl hhttp hk⟩,
    slot_write_frame gl.data k p hgl hk⟩

/-- C1 at a concrete input: slot 2, palette index 3 (`blue` in lower case). -/
theorem C1_setColorSlot_roundtrip_witness :
    zeroBlock.data.length = 256 ∧ (1 ≤ 2 ∧ 2 ≤ 3) ∧ 3 < 8
      ∧ [98, 108, 117, 101].map foldUpper = paletteName 3
      ∧ colorSlot (zeroBlock.data.set (2 - 1) ((3 : Nat) : Int)) 2 = ((3 : Nat) : Int) :=
  ⟨zeroBlock_length, by decide, by decide, by decide,
    (C1_setColorSlot_roundtrip zeroBlock zeroBlock zeroBlock 2 3 [98, 108, 117, 101]
      zeroBlock_length zeroBlock_length zeroBlock_length (by decide) (by decide)
      (by decide)).2.2.1⟩

/-! ## SetDownbeat: claims C2 to C6 -/

theorem ubyte_toChar (x : Int) : ((ubyte (toChar x) : Nat) : Int) = x % 256 := by
  unfold ubyte toChar
  omega

theorem length_writeInt32 (d : List Int) (off : Nat) (v : Int) :
    (writeInt32 d off v).length = d.length := by
  simp [writeInt32]

theorem peek_writeInt32_other (d : List Int) (off j : Nat) (v : Int)
    (h : j < off ∨ off + 3 < j) : peek (writeInt32 d off v) j = peek d j := by
  unfold writeInt32
  rw [peek_set_ne, peek_set_ne, peek_set_ne, peek_set_ne] <;> omega

theorem cstrAt_writeInt32 (d : List Int) (off o : Nat) (v : Int) (h : off + 3 < o) :
    cstrAt (writeInt32 d off v) o = cstrAt d o := by
  unfold writeInt32
  rw [cstrAt_set_lt, cstrAt_set_lt, cstrAt_set_lt, cstrAt_set_lt] <;> omega

theorem readInt32_writeInt32 (d : List Int) (off : Nat) (v : Int) (h : off + 3 < d.length)
    (hlo : -2147483648 ≤ v) (hhi : v < 2147483648) :
    readInt32 (writeInt32 d off v) off = v := by
  have p0 : peek (writeInt32 d off v) off = toChar v := by
    unfold writeInt32
    rw [peek_set_ne _ _ _ _ (by omega), peek_set_ne _ _ _ _ (by omega),
      peek_set_ne _ _ _ _ (by omega), peek_set_self _ _ _ (by omega)]
  have p1 : peek (writeInt32 d off v) (off + 1) = toChar (v / 256) := by
    unfold writeInt32
    rw [peek_set_ne _ _ _ _ (by omega), peek_set_ne _ _ _ _ (by omega),
      peek_set_self _ _ _ (by simp; omega)]
  have p2 : peek (writeInt32 d off v) (off + 2) = toChar (v / 65536) := by
    unfold writeInt32
    rw [peek_set_ne _ _ _ _ (by omega), peek_set_self _ _ _ (by simp; omega)]
  have p3 : peek (writeInt32 d off v) (off + 3) = toChar (v / 16777216) := by
    unfold writeInt32
    rw [peek_set_self _ _ _ (by simp; omega)]
  unfold readInt32
  simp only [p0, p1, p2, p3, ubyte_toChar]
  split <;> omega

theorem readInt32_set_zero (d : List Int) (v : Int) :
    readInt32 (d.set 0 v) 4 = readInt32 d 4 :=
  readInt32_set_other d 4 0 v (by omega)

theorem ubyte_lt (c : Int) : ubyte c < 256 := by
  unfold ubyte
  omega

theorem readInt32_range (d : List Int) (off : Nat) :
    -2147483648 ≤ readInt32 d off ∧ readInt32 d off < 2147483648 := by
  unfold readInt32
  have h0 := ubyte_lt (peek d off)
  have h1 := ubyte_lt (peek d (off + 1))
  have h2 := ubyte_lt (peek d (off + 2))
  have h3 := ubyte_lt (peek d (off + 3))
  constructor <;> (simp only []; split <;> omega)

theorem cli_downbeat_dispatch (gl : TDATA) (cd : List Int) (h0 : peek cd 0 = 116) :
    main_cliDispatch gl { status := T_WAITING, data := cd }
      = some ({ gl with data := writeInt32 gl.data D_DOWNBEAT (readInt32 cd 4) },
          { status := T_RUNNING, data := cd }) := by
  unfold main_cliDispatch main_cliSwitch
  simp [h0]

theorem http_downbeat_dispatch (gl : TDATA) (hd : List Int) (h0 : peek hd 0 = 4) :
    main_httpDispatch gl { status := T_WAITING, data := hd }
      = some ({ gl with data := writeInt32 gl.data D_DOWNBEAT (readInt32 hd 4) },
          { status := T_RUNNING,
            data := copyPrefix 255 hd (writeInt32 gl.data D_DOWNBEAT (readInt32 hd 4)) }) := by
  unfold main_httpDispatch main_httpSwitch
  simp [h0, D_FLAGS, D_DOWNBEAT]

/-- Storing the downbeat leaves the other fields of the render state as they were. -/
theorem downbeat_write_frame (g : List Int) (m : Int) (hg : g.length = 256)
    (hlo : -2147483648 ≤ m) (hhi : m < 2147483648) :
    downbeatMinutes (writeInt32 g D_DOWNBEAT m) = m
      ∧ (∀ j : Nat, 1 ≤ j → j ≤ 3 →
          colorSlot (writeInt32 g D_DOWNBEAT m) j = colorSlot g j)
      ∧ behaviorFlags (writeInt32 g D_DOWNBEAT m) = behaviorFlags g
      ∧ venueName (writeInt32 g D_DOWNBEAT m) = venueName g := by
  refine ⟨?_, ?_, ?_, ?_⟩
  · exact readInt32_writeInt32 g D_DOWNBEAT m (by unfold D_DOWNBEAT; omega) hlo hhi
  · intro j hj1 hj3
    exact peek_writeInt32_other g D_DOWNBEAT (j - 1) m (by unfold D_DOWNBEAT; omega)
  · exact peek_writeInt32_other g D_DOWNBEAT D_FLAGS m (by unfold D_DOWNBEAT D_FLAGS; omega)
  · exact cstrAt_writeInt32 g D_DOWNBEAT D_VENUENAME m (by unfold D_DOWNBEAT D_VENUENAME; omega)

theorem cli_downbeat_block (cd : List Int) (m : Int) (hcd : cd.length = 256)
    (hlo : -2147483648 ≤ m) (hhi : m < 2147483648) :
    peek ((writeInt32 cd 4 m).set 0 116) 0 = 116
      ∧ readInt32 ((writeInt32 cd 4 m).set 0 116) 4 = m := by
  constructor
  · exact peek_set_self _ 0 116 (by rw [length_writeInt32]; omega)
  · rw [readInt32_set_zero]
    exact readInt32_writeInt32 cd 4 m (by omega) hlo hhi

/-- C2. Console DOWNBEAT with a valid time. For every argument of four decimal digits
`a b c d` with `HH = 10a+b ≤ 23` and `MM = 10c+d ≤ 59`, the handler prints no usage
message and submits (status `T_WAITING`, opcode `'t'`) a command carrying
`minutes = 60*HH + MM`; after the coordinator dispatches it `downbeatMinutes` is
`60*HH + MM`, and the colour slots, the flags and `venueName` are unchanged. -/
theorem C2_console_downbeat_valid (gl cli : TDATA) (a b c d : Nat)
    (hgl : gl.data.length = 256) (hcli : cli.data.length = 256)
    (ha : a ≤ 9) (hb : b ≤ 9) (hc : c ≤ 9) (hd : d ≤ 9)
    (hHH : 10 * a + b ≤ 23) (hMM : 10 * c + d ≤ 59) :
    ∃ cli1 cli2 gl1,
      CLImain_downbeat cli [48 + (a : Int), 48 + (b : Int), 48 + (c : Int), 48 + (d : Int)]
          = CliOutcome.submit cli1 []
        ∧ cli1.status = T_WAITING
        ∧ peek cli1.data 0 = 116
        ∧ readInt32 cli1.data 4 = 60 * (10 * (a : Int) + b) + (10 * (c : Int) + d)
        ∧ main_cliDispatch gl cli1 = some (gl1, cli2)
        ∧ downbeatMinutes gl1.data = 60 * (10 * (a : Int) + b) + (10 * (c : Int) + d)
        ∧ (∀ j : Nat, 1 ≤ j → j ≤ 3 → colorSlot gl1.data j = colorSlot gl.data j)
        ∧ behaviorFlags gl1.data = behaviorFlags gl.data
        ∧ venueName gl1.data = venueName gl.data := by
  have hm : (0 : Int) + (48 + (a : Int) - 48) * 600 + (48 + (b : Int) - 48) * 60
      + (48 + (c : Int) - 48) * 10 + (48 + (d : Int) - 48)
      = 60 * (10 * (a : Int) + b) + (10 * (c : Int) + d) := by ring
  have hsub : CLImain_downbeat cli
      [48 + (a : Int), 48 + (b : Int), 48 + (c : Int), 48 + (d : Int)]
      = CliOutcome.submit
          { status := T_WAITING,
            data := (writeInt32 cli.data 4
              (60 * (10 * (a : Int) + b) + (10 * (c : Int) + d))).set 0 116 } [] := by
    unfold CLImain_downbeat
    simp only [List.length_cons, List.length_nil, List.getD_cons_zero, List.getD_cons_succ]
    rw [if_neg (by omega), if_neg (by omega)]
    simp only [hm]
    rw [if_neg (by omega)]
  have hblk := cli_downbeat_block cli.data
    (60 * (10 * (a : Int) + b) + (10 * (c : Int) + d)) hcli (by omega) (by omega)
  have hfr := downbeat_write_frame gl.data
    (60 * (10 * (a : Int) + b) + (10 * (c : Int) + d)) hgl (by omega) (by omega)
  refine ⟨_, _, _, hsub, rfl, hblk.1, hblk.2, cli_downbeat_dispatch gl _ hblk.1, ?_⟩
  simp only [hblk.2]
  exact hfr

/-- C2 at the boundary `2359`. -/
theorem C2_console_downbeat_valid_witness :
    zeroBlock.data.length = 256 ∧ 10 * 2 + 3 ≤ 23 ∧ 10 * 5 + 9 ≤ 59
      ∧ ∃ cli1 cli2 gl1,
          CLImain_downbeat zeroBlock [50, 51, 53, 57] = CliOutcome.submit cli1 []
            ∧ main_cliDispatch zeroBlock cli1 = some (gl1, cli2)
            ∧ downbeatMinutes gl1.data = 1439 := by
  refine ⟨zeroBlock_length, by decide, by decide, ?_⟩
  obtain ⟨cli1, cli2, gl1, h1, -, -, -, h5, h6, -⟩ :=
    C2_console_downbeat_valid zeroBlock zeroBlock 2 3 5 9 zeroBlock_length zeroBlock_length
      (by decide) (by decide) (by decide) (by decide) (by decide) (by decide)
  exact ⟨cli1, cli2, gl1, by simpa using h1, h5, by simpa using h6⟩

theorem peek_zeroBlock (i : Nat) : peek zeroBlock.data i = 0 := by
  unfold peek zeroBlock
  rw [List.getD_eq_getElem?_getD, List.getElem?_replicate]
  split <;> rfl

theorem downbeatMinutes_zeroBlock : downbeatMinutes zeroBlock.data = 0 := by
  unfold downbeatMinutes readInt32
  simp only [peek_zeroBlock]
  decide

/-- C3 as stated fails: a SetDownbeat command carrying 1500 that reaches the coordinator,
in the web block or in the console block, replaces the prior `downbeatMinutes` (here 0)
by 1500. -/
theorem C3_counterexample :
    ¬ ((0 : Int) ≤ 1500 ∧ (1500 : Int) < 1440)
      ∧ downbeatMinutes zeroBlock.data = 0
      ∧ (main_httpDispatch zeroBlock
            { status := T_WAITING, data := writeInt32 (zeroBlock.data.set 0 4) 4 1500 }).map
          (fun r => downbeatMinutes r.1.data) = some 1500
      ∧ (main_cliDispatch zeroBlock
            { status := T_WAITING, data := writeInt32 (zeroBlock.data.set 0 116) 4 1500 }).map
          (fun r => downbeatMinutes r.1.data) = some 1500 := by
  have hl : ∀ v : Int, (zeroBlock.data.set 0 v).length = 256 := by
    intro v; rw [List.length_set]; exact zeroBlock_length
  have hp : ∀ v : Int, peek (writeInt32 (zeroBlock.data.set 0 v) 4 1500) 0 = v := by
    intro v
    rw [peek_writeInt32_other _ _ _ _ (by omega)]
    exact peek_set_self _ 0 v (by rw [zeroBlock_length]; omega)
  have hr : ∀ v : Int, readInt32 (writeInt32 (zeroBlock.data.set 0 v) 4 1500) 4 = 1500 := by
    intro v
    exact readInt32_writeInt32 _ 4 1500 (by rw [hl]; omega) (by omega) (by omega)
  have hf := (downbeat_write_frame zeroBlock.data 1500 zeroBlock_length (by omega) (by omega)).1
  refine ⟨by omega, downbeatMinutes_zeroBlock, ?_, ?_⟩
  · rw [http_downbeat_dispatch zeroBlock _ (hp 4), hr 4]
    simpa using hf
  · rw [cli_downbeat_dispatch zeroBlock _ (hp 116), hr 116]
    simpa using hf

/-- C3, amended. The coordinator applies no range check to SetDownbeat: for every
SetDownbeat command that reaches it, in the console block (opcode `'t'`) or in the web
block (opcode `D_DOWNBEAT`), whatever 32-bit minutes value the block carries (inside
or outside `0 ≤ minutes < 1440`), the dispatch sets `downbeatMinutes` to that value and
leaves the colour slots, the flags and `venueName` unchanged. -/
theorem C3_downbeat_dispatch_unchecked (gl : TDATA) (cd hd : List Int)
    (hgl : gl.data.length = 256) (hc : peek cd 0 = 116) (hh : peek hd 0 = 4) :
    (∃ gl1 cli2, main_cliDispatch gl { status := T_WAITING, data := cd } = some (gl1, cli2)
        ∧ downbeatMinutes gl1.data = readInt32 cd 4
        ∧ (∀ j : Nat, 1 ≤ j → j ≤ 3 → colorSlot gl1.data j = colorSlot gl.data j)
        ∧ behaviorFlags gl1.data = behaviorFlags gl.data
        ∧ venueName gl1.data = venueName gl.data)
    ∧ (∃ gl1 http2, main_httpDispatch gl { status := T_WAITING, data := hd } = some (gl1, http2)
        ∧ downbeatMinutes gl1.data = readInt32 hd 4
        ∧ (∀ j : Nat, 1 ≤ j → j ≤ 3 → colorSlot gl1.data j = colorSlot gl.data j)
        ∧ behaviorFlags gl1.data = behaviorFlags gl.data
        ∧ venueName gl1.data = venueName gl.data) := by
  constructor
  · exact ⟨_, _, cli_downbeat_dispatch gl cd hc,
      downbeat_write_frame gl.data (readInt32 cd 4) hgl (readInt32_range cd 4).1
        (readInt32_range cd 4).2⟩
  · exact ⟨_, _, http_downbeat_dispatch gl hd hh,
      downbeat_write_frame gl.data (readInt32 hd 4) hgl (readInt32_range hd 4).1
        (readInt32_range hd 4).2⟩

/-- C3 amended, at blocks that carry 1500. -/
theorem C3_downbeat_dispatch_unchecked_witness :
    zeroBlock.data.length = 256
      ∧ peek (writeInt32 (zeroBlock.data.set 0 116) 4 1500) 0 = 116
      ∧ peek (writeInt32 (zeroBlock.data.set 0 4) 4 1500) 0 = 4
      ∧ ∃ gl1 http2,
          main_httpDispatch zeroBlock
              { status := T_WAITING, data := writeInt32 (zeroBlock.data.set 0 4) 4 1500 }
            = some (gl1, http2)
          ∧ downbeatMinutes gl1.data = readInt32 (writeInt32 (zeroBlock.data.set 0 4) 4 1500) 4 := by
  have hp : ∀ v : Int, peek (writeInt32 (zeroBlock.data.set 0 v) 4 1500) 0 = v := by
    intro v
    rw [peek_writeInt32_other _ _ _ _ (by omega)]
    exact peek_set_self _ 0 v (by rw [zeroBlock_length]; omega)
  obtain ⟨-, gl1, http2, h1, h2, -⟩ :=
    C3_downbeat_dispatch_unchecked zeroBlock _ _ zeroBlock_length (hp 116) (hp 4)
  exact ⟨zeroBlock_length, hp 116, hp 4, gl1, http2, h1, h2⟩

theorem cli_downbeat_eval (td : TDATA) (c0 c1 c2 c3 : Int)
    (hh : ¬ (0 + (c0 - 48) * 600 + (c1 - 48) * 60 > 60 * 23)) :
    CLImain_downbeat td [c0, c1, c2, c3]
      = CliOutcome.submit
          { status := T_WAITING,
            data := (writeInt32 td.data 4
              (0 + (c0 - 48) * 600 + (c1 - 48) * 60 + (c2 - 48) * 10 + (c3 - 48))).set 0 116 }
          (if 0 + (c0 - 48) * 600 + (c1 - 48) * 60 + (c2 - 48) * 10 + (c3 - 48) ≥ 60 * 24
            then [Msg.timeUsage] else []) := by
  unfold CLImain_downbeat
  simp only [List.length_cons, List.length_nil, List.getD_cons_zero, List.getD_cons_succ]
  rw [if_neg (by omega), if_neg hh]

/-- C4, the code at the failing inputs. `DOWNBEAT 2399` prints the usage message and
still submits a SetDownbeat command, carrying 1479; `DOWNBEAT 1:00`, whose second
character is no digit, submits a SetDownbeat command carrying 1200. -/
theorem C4_console_downbeat_submits_invalid :
    CLImain_downbeat zeroBlock [50, 51, 57, 57]
        = CliOutcome.submit
            { status := T_WAITING, data := (writeInt32 zeroBlock.data 4 1479).set 0 116 }
            [Msg.timeUsage]
      ∧ peek ((writeInt32 zeroBlock.data 4 1479).set 0 116) 0 = 116
      ∧ readInt32 ((writeInt32 zeroBlock.data 4 1479).set 0 116) 4 = 1479
      ∧ ¬ ((1479 : Int) < 1440)
      ∧ CLImain_downbeat zeroBlock [49, 58, 48, 48]
        = CliOutcome.submit
            { status := T_WAITING, data := (writeInt32 zeroBlock.data 4 1200).set 0 116 } [] := by
  have hb := cli_downbeat_block zeroBlock.data 1479 zeroBlock_length (by omega) (by omega)
  refine ⟨?_, hb.1, hb.2, by omega, ?_⟩
  · rw [cli_downbeat_eval zeroBlock 50 51 57 57 (by decide)]
    rfl
  · rw [cli_downbeat_eval zeroBlock 49 58 48 48 (by decide)]
    rfl

theorem web_downbeat_submit (http : TDATA) (d1 d2 d3 d4 : Nat) (rest : List Nat)
    (h1 : 48 ≤ d1 ∧ d1 ≤ 50) (h2 : 48 ≤ d2 ∧ d2 ≤ 57) (h3 : 48 ≤ d3 ∧ d3 ≤ 53)
    (h4 : 48 ≤ d4 ∧ d4 ≤ 57) :
    DoReceiveRequests_query http (some (63 :: 116 :: d1 :: d2 :: d3 :: d4 :: rest))
      = some { status := T_WAITING,
               data := writeInt32 (http.data.set 0 (D_DOWNBEAT : Int)) D_DOWNBEAT
                 ((d1 : Int) * 600 + (d2 : Int) * 60 + (d3 : Int) * 10 + (d4 : Int) - 48 * 671) } := by
  have hg : ¬ (rest.length + 1 + 1 + 1 + 1 + 1 + 1 < 6 ∨ d1 < 48 ∨ d1 > 50 ∨ d2 < 48 ∨ d2 > 57
      ∨ d3 < 48 ∨ d3 > 53 ∨ d4 < 48 ∨ d4 > 57) := by omega
  simp only [DoReceiveRequests_query, DoReceiveRequests_switch, List.length_cons,
    List.getD_cons_zero, List.getD_cons_succ]
  rw [if_pos (by omega)]
  simp only [show ¬ ((116 : Nat) = 118) by decide, if_false, if_true, hg, Option.map_some']

theorem web_downbeat_block (hd : List Int) (m : Int) (hhd : hd.length = 256)
    (hlo : -2147483648 ≤ m) (hhi : m < 2147483648) :
    peek (writeInt32 (hd.set 0 (D_DOWNBEAT : Int)) D_DOWNBEAT m) 0 = 4
      ∧ readInt32 (writeInt32 (hd.set 0 (D_DOWNBEAT : Int)) D_DOWNBEAT m) 4 = m := by
  constructor
  · rw [peek_writeInt32_other _ _ _ _ (by unfold D_DOWNBEAT; omega)]
    exact peek_set_self _ 0 _ (by omega)
  · exact readInt32_writeInt32 _ 4 m (by rw [List.length_set]; omega) hlo hhi

/-- C5, the code at the failing input. The query `?t2400` passes the shape check of
case `t`: the adapter emits opcode `D_DOWNBEAT` with minutes 1440, not the sentinel. -/
theorem C5_web_downbeat_emits_1440 :
    DoReceiveRequests_query zeroBlock (some [63, 116, 50, 52, 48, 48])
        = some { status := T_WAITING,
                 data := writeInt32 (zeroBlock.data.set 0 (D_DOWNBEAT : Int)) D_DOWNBEAT 1440 }
      ∧ peek (writeInt32 (zeroBlock.data.set 0 (D_DOWNBEAT : Int)) D_DOWNBEAT 1440) 0 = 4
      ∧ readInt32 (writeInt32 (zeroBlock.data.set 0 (D_DOWNBEAT : Int)) D_DOWNBEAT 1440) 4 = 1440
      ∧ ¬ ((1440 : Int) < 1440) := by
  have hb := web_downbeat_block zeroBlock.data 1440 zeroBlock_length (by omega) (by omega)
  refine ⟨?_, hb.1, hb.2, by omega⟩
  rw [web_downbeat_submit zeroBlock 50 52 48 48 [] (by decide) (by decide) (by decide)
    (by decide)]
  rfl

/-- C6. Web downbeat arithmetic. For every query `?t d1 d2 d3 d4 ...` whose four
characters pass the shape check (`d1` in `'0'..'2'`, `d2` in `'0'..'9'`, `d3` in `'0'..'5'`,
`d4` in `'0'..'9'`), the adapter emits opcode `D_DOWNBEAT` and the integer at payload
offset 4 is `600*v1 + 60*v2 + 10*v3 + v4` with `vi` the decimal value of `di` (the constant
`48*671` cancels the four ASCII offsets); after the coordinator dispatches the command
`downbeatMinutes` is that value. -/
theorem C6_web_downbeat_value (gl http : TDATA) (d1 d2 d3 d4 : Nat) (rest : List Nat)
    (hgl : gl.data.length = 256) (hhttp : http.data.length = 256)
    (h1 : 48 ≤ d1 ∧ d1 ≤ 50) (h2 : 48 ≤ d2 ∧ d2 ≤ 57) (h3 : 48 ≤ d3 ∧ d3 ≤ 53)
    (h4 : 48 ≤ d4 ∧ d4 ≤ 57) :
    ∃ http1 http2 gl1,
      DoReceiveRequests_query http (some (63 :: 116 :: d1 :: d2 :: d3 :: d4 :: rest)) = some http1
        ∧ http1.status = T_WAITING
        ∧ peek http1.data 0 = (D_DOWNBEAT : Int)
        ∧ readInt32 http1.data 4
            = 600 * ((d1 : Int) - 48) + 60 * ((d2 : Int) - 48) + 10 * ((d3 : Int) - 48)
              + ((d4 : Int) - 48)
        ∧ main_httpDispatch gl http1 = some (gl1, http2)
        ∧ downbeatMinutes gl1.data
            = 600 * ((d1 : Int) - 48) + 60 * ((d2 : Int) - 48) + 10 * ((d3 : Int) - 48)
              + ((d4 : Int) - 48) := by
  have hv : (d1 : Int) * 600 + (d2 : Int) * 60 + (d3 : Int) * 10 + (d4 : Int) - 48 * 671
      = 600 * ((d1 : Int) - 48) + 60 * ((d2 : Int) - 48) + 10 * ((d3 : Int) - 48)
        + ((d4 : Int) - 48) := by ring
  have hsub := web_downbeat_submit http d1 d2 d3 d4 rest h1 h2 h3 h4
  rw [hv] at hsub
  have hb := web_downbeat_block http.data
    (600 * ((d1 : Int) - 48) + 60 * ((d2 : Int) - 48) + 10 * ((d3 : Int) - 48)
      + ((d4 : Int) - 48)) hhttp (by omega) (by omega)
  have hfr := downbeat_write_frame gl.data
    (600 * ((d1 : Int) - 48) + 60 * ((d2 : Int) - 48) + 10 * ((d3 : Int) - 48)
      + ((d4 : Int) - 48)) hgl (by omega) (by omega)
  refine ⟨_, _, _, hsub, rfl, hb.1, hb.2, http_downbeat_dispatch gl _ hb.1, ?_⟩
  simp only [hb.2]
  exact hfr.1

/-- C6 at the query `?t2015`. -/
theorem C6_web_downbeat_value_witness :
    zeroBlock.data.length = 256 ∧ (48 ≤ 50 ∧ 50 ≤ 50) ∧ (48 ≤ 48 ∧ 48 ≤ 57)
      ∧ (48 ≤ 49 ∧ 49 ≤ 53) ∧ (48 ≤ 53 ∧ 53 ≤ 57)
      ∧ ∃ http1 http2 gl1,
          DoReceiveRequests_query zeroBlock (some [63, 116, 50, 48, 49, 53]) = some http1
            ∧ main_httpDispatch zeroBlock http1 = some (gl1, http2)
            ∧ downbeatMinutes gl1.data = 1215 := by
  refine ⟨zeroBlock_length, by decide, by decide, by decide, by decide, ?_⟩
  obtain ⟨http1, http2, gl1, h1, -, -, -, h5, h6⟩ :=
    C6_web_downbeat_value zeroBlock zeroBlock 50 48 49 53 [] zeroBlock_length zeroBlock_length
      (by decide) (by decide) (by decide) (by decide)
  exact ⟨http1, http2, gl1, h1, h5, by simpa using h6⟩

/-! ## SetVenueName: claims C7 and C8 -/

theorem length_writeBytes (bs : List Int) : ∀ (d : List Int) (off : Nat),
    (writeBytes d off bs).length = d.length := by
  induction bs with
  | nil => intro d off; rfl
  | cons b bs ih => intro d off; rw [writeBytes, ih, List.length_set]

theorem peek_writeBytes_lt (bs : List Int) : ∀ (d : List Int) (off j : Nat), j < off →
    peek (writeBytes d off bs) j = peek d j := by
  induction bs with
  | nil => intro d off j _; rfl
  | cons b bs ih =>
    intro d off j hj
    rw [writeBytes, ih _ _ _ (by omega), peek_set_ne _ _ _ _ (by omega)]

theorem take_set_same (d : List Int) (off : Nat) (b : Int) :
    (d.set off b).take off = d.take off :=
  List.ext_getElem? fun i => by
    rw [List.getElem?_take, List.getElem?_take]
    split
    · rw [List.getElem?_set_ne (by omega)]
    · rfl

theorem writeBytes_eq (bs : List Int) : ∀ (d : List Int) (off : Nat),
    off + bs.length ≤ d.length →
    writeBytes d off bs = d.take off ++ bs ++ d.drop (off + bs.length) := by
  induction bs with
  | nil => intro d off _; simp [writeBytes]
  | cons b bs ih =>
    intro d off h
    have hlen : off + (b :: bs).length = off + 1 + bs.length := by
      simp only [List.length_cons]; omega
    have hoff : off < d.length := by
      simp only [List.length_cons] at h; omega
    rw [writeBytes, ih _ _ (by rw [List.length_set]; omega), hlen,
      List.drop_set_of_lt _ _ (by omega), List.take_succ, take_set_same,
      List.getElem?_set_self hoff]
    simp

theorem takeWhile_nonzero_append (s rest : List Int) (hs : ∀ x ∈ s, x ≠ 0) :
    (s ++ (0 : Int) :: rest).takeWhile (fun b => b != 0) = s := by
  induction s with
  | nil => simp
  | cons a s ih =>
    have ha : a ≠ 0 := hs a (List.mem_cons_self _ _)
    have hs2 : ∀ x ∈ s, x ≠ 0 := fun x hx => hs x (List.mem_cons_of_mem _ hx)
    simp [ha, ih hs2]

theorem cstrAt_nonzero (d : List Int) (off : Nat) (s : List Int) (h : cstrAt d off = some s) :
    ∀ x ∈ s, x ≠ 0 := by
  unfold cstrAt at h
  split at h
  · injection h with h
    intro x hx
    rw [← h] at hx
    have := List.mem_takeWhile_imp hx
    simpa using this
  · exact absurd h (by simp)

theorem cstrAt_length_lt (d : List Int) (off : Nat) (s : List Int) (h : cstrAt d off = some s) :
    off + s.length < d.length := by
  unfold cstrAt at h
  split at h
  · rename_i hmem
    injection h with h
    have h1 : (List.takeWhile (fun b => b != 0) (List.drop off d)).length
        < (List.drop off d).length := by
      by_contra hcon
      have heq : List.takeWhile (fun b => b != 0) (List.drop off d) = List.drop off d :=
        (List.takeWhile_sublist _).eq_of_length_le (by omega)
      have := List.mem_takeWhile_imp (heq ▸ hmem)
      simp at this
    rw [h, List.length_drop] at h1
    omega
  · exact absurd h (by simp)

/-- The string stored by `sprintf_s` is the string read back at the same place. -/
theorem cstrAt_sprintf_s (d : List Int) (off size : Nat) (s : List Int)
    (hs : ∀ x ∈ s, x ≠ 0) (hlen : s.length < size) (hfit : off + size ≤ d.length) :
    ∃ g, sprintf_s d off size s = some g ∧ g = writeBytes d off (s ++ [0])
      ∧ cstrAt g off = some s := by
  refine ⟨writeBytes d off (s ++ [0]), ?_, rfl, ?_⟩
  · unfold sprintf_s; rw [if_pos hlen]
  · have hl : off + (s ++ [0]).length ≤ d.length := by
      simp only [List.length_append, List.length_singleton]; omega
    rw [writeBytes_eq _ _ _ hl]
    unfold cstrAt
    have hd : List.drop off (List.take off d ++ (s ++ [0]) ++ List.drop (off + (s ++ [0]).length) d)
        = s ++ (0 : Int) :: List.drop (off + (s ++ [0]).length) d := by
      rw [List.append_assoc, List.drop_left' (by rw [List.length_take]; omega)]
      simp
    rw [hd, takeWhile_nonzero_append s _ hs, if_pos (by simp)]

theorem formatNoArgs_of_no_percent (s : List Int) (h : ∀ x ∈ s, x ≠ 37) :
    formatNoArgs s = some s := by
  induction s with
  | nil => rfl
  | cons a s ih =>
    have ha : a ≠ 37 := h a (List.mem_cons_self _ _)
    have hs : ∀ x ∈ s, x ≠ 37 := fun x hx => h x (List.mem_cons_of_mem _ hx)
    rw [formatNoArgs, ih hs]
    · rfl
    · intro rest hc _; exact ha hc
    · intro hc; exact ha hc

/-- Storing a venue name leaves the other fields of the render state as they were. -/
theorem venue_write_frame (g : List Int) (name : List Int) (hg : g.length = 256)
    (hnz : ∀ x ∈ name, x ≠ 0) (hlen : name.length ≤ 247) :
    sprintf_s g D_VENUENAME D_NAMESIZE name = some (writeBytes g D_VENUENAME (name ++ [0]))
      ∧ venueName (writeBytes g D_VENUENAME (name ++ [0])) = some name
      ∧ (∀ j : Nat, 1 ≤ j → j ≤ 3 →
          colorSlot (writeBytes g D_VENUENAME (name ++ [0])) j = colorSlot g j)
      ∧ behaviorFlags (writeBytes g D_VENUENAME (name ++ [0])) = behaviorFlags g
      ∧ downbeatMinutes (writeBytes g D_VENUENAME (name ++ [0])) = downbeatMinutes g := by
  obtain ⟨g1, h1, h2, h3⟩ := cstrAt_sprintf_s g D_VENUENAME D_NAMESIZE name hnz
    (by unfold D_NAMESIZE; omega) (by unfold D_VENUENAME D_NAMESIZE; omega)
  subst h2
  refine ⟨h1, h3, ?_, ?_, ?_⟩
  · intro j hj1 hj3
    exact peek_writeBytes_lt _ g D_VENUENAME (j - 1) (by unfold D_VENUENAME; omega)
  · exact peek_writeBytes_lt _ g D_VENUENAME D_FLAGS (by unfold D_VENUENAME D_FLAGS; omega)
  · unfold downbeatMinutes readInt32
    rw [peek_writeBytes_lt _ g D_VENUENAME _ (by unfold D_VENUENAME D_DOWNBEAT; omega),
      peek_writeBytes_lt _ g D_VENUENAME _ (by unfold D_VENUENAME D_DOWNBEAT; omega),
      peek_writeBytes_lt _ g D_VENUENAME _ (by unfold D_VENUENAME D_DOWNBEAT; omega),
      peek_writeBytes_lt _ g D_VENUENAME _ (by unfold D_VENUENAME D_DOWNBEAT; omega)]

theorem http_venue_dispatch (gl : TDATA) (hd name : List Int) (hgl : gl.data.length = 256)
    (h0 : peek hd 0 = 8) (hname : cstrAt hd 1 = some name) (hlen : name.length ≤ 247) :
    main_httpDispatch gl { status := T_WAITING, data := hd }
      = some ({ gl with data := writeBytes gl.data D_VENUENAME (name ++ [0]) },
          { status := T_RUNNING,
            data := copyPrefix 255 hd (writeBytes gl.data D_VENUENAME (name ++ [0])) }) := by
  have hw := (venue_write_frame gl.data name hgl (cstrAt_nonzero hd 1 name hname) hlen).1
  unfold main_httpDispatch main_httpSwitch
  simp [h0, D_FLAGS, D_DOWNBEAT, hname, hw]
  simp [D_VENUENAME]

theorem cli_venue_dispatch (gl : TDATA) (cd fmt text : List Int) (hgl : gl.data.length = 256)
    (h0 : peek cd 0 = 118) (hfmt : cstrAt cd 1 = some fmt) (htext : formatNoArgs fmt = some text)
    (hnz : ∀ x ∈ text, x ≠ 0) (hlen : text.length ≤ 247) :
    main_cliDispatch gl { status := T_WAITING, data := cd }
      = some ({ gl with data := writeBytes gl.data D_VENUENAME (text ++ [0]) },
          { status := T_RUNNING, data := cd }) := by
  have hw := (venue_write_frame gl.data text hgl hnz hlen).1
  unfold main_cliDispatch main_cliSwitch
  simp [h0, hfmt, htext, hw]

set_option maxRecDepth 100000 in
/-- C7, the code at the failing input. A console block that carries SetVenueName with
the two-byte name `%%` leaves the one-byte name `%` in the render state: the
coordinator passes the argument to `sprintf_s` as the format string. With the name `%d`
the format asks for an argument that was not passed. The web block with the same name
`%%` is stored byte for byte. The console block is the one the console line
`VENUE %%%%` submits. -/
theorem C7_console_venue_percent :
    CLImain_venue zeroBlock [32, 37, 37, 37, 37]
        = some (CliOutcome.submit
            { status := T_WAITING, data := ((zeroBlock.data.set 0 118).set 1 37).set 2 37 } [])
      ∧ cstrAt (((zeroBlock.data.set 0 118).set 1 37).set 2 37) 1 = some [37, 37]
      ∧ (main_cliDispatch zeroBlock
            { status := T_WAITING, data := ((zeroBlock.data.set 0 118).set 1 37).set 2 37 }).map
          (fun r => venueName r.1.data) = some (some [37])
      ∧ main_cliDispatch zeroBlock
            { status := T_WAITING, data := ((zeroBlock.data.set 0 118).set 1 37).set 2 100 }
          = none
      ∧ (main_httpDispatch zeroBlock
            { status := T_WAITING, data := ((zeroBlock.data.set 0 8).set 1 37).set 2 37 }).map
          (fun r => venueName r.1.data) = some (some [37, 37]) := by
  refine ⟨?_, ?_, ?_, ?_, ?_⟩ <;> decide

set_option maxRecDepth 1000000 in
/-- C8, the code at the failing input: a venue name of 300 bytes `A`. Through the web
query `?v` and zeroed blocks the stored name has 246 bytes, not 247: the loop of case
`v` stops at query index `D_NAMESIZE` and stores no terminator. Through the console line
`VENUE` the text does not fit the 248 bytes given to `sprintf_s`, which does not
truncate. When the same web query is submitted a second time, the bytes left in the
payload behind the 246 copied ones belong to the string, which no longer fits the name
field. -/
theorem C8_venue_300_bytes :
    (DoReceiveRequests_query zeroBlock (some (63 :: 118 :: List.replicate 300 65))).bind
        (fun t => (main_httpDispatch zeroBlock t).map (fun r => venueName r.1.data))
      = some (some (List.replicate 246 65))
    ∧ CLImain_venue zeroBlock (32 :: List.replicate 300 65) = none
    ∧ ((DoReceiveRequests_query zeroBlock (some (63 :: 118 :: List.replicate 300 65))).bind
          (fun t => main_httpDispatch zeroBlock t)).bind
        (fun r => (DoReceiveRequests_query r.2 (some (63 :: 118 :: List.replicate 300 65))).bind
          (fun t => main_httpDispatch r.1 t)) = none := by
  refine ⟨?_, ?_, ?_⟩ <;> decide

/-! ## One iteration of the coordinator loop: claims C9 and C10 -/

theorem length_copyPrefix (n : Nat) (dst src : List Int) :
    (copyPrefix n dst src).length = dst.length := by
  induction n with
  | zero => rfl
  | succ n ih => rw [copyPrefix, List.length_set, ih]

theorem peek_copyPrefix (n : Nat) (dst src : List Int) (hn : n ≤ dst.length) (j : Nat) :
    peek (copyPrefix n dst src) j = if j < n then peek src j else peek dst j := by
  induction n with
  | zero => simp [copyPrefix]
  | succ n ih =>
    rw [copyPrefix]
    by_cases hj : j = n
    · subst hj
      rw [peek_set_self _ _ _ (by rw [length_copyPrefix]; omega), if_pos (by omega)]
    · rw [peek_set_ne _ _ _ _ (fun h => hj h.symm), ih (by omega)]
      by_cases hlt : j < n
      · rw [if_pos hlt, if_pos (by omega)]
      · rw [if_neg hlt, if_neg (by omega)]

theorem http_slot_dispatch (gl http : TDATA) (k : Nat) (hgl : gl.data.length = 256)
    (hk : 1 ≤ k ∧ k ≤ 3) (h0 : peek http.data 0 = (k : Int) - 1) :
    main_httpDispatch gl http
      = some ({ gl with data := gl.data.set (k - 1) (peek http.data 1) },
          { status := T_RUNNING,
            data := copyPrefix 255 http.data (gl.data.set (k - 1) (peek http.data 1)) }) := by
  have hidx : ((k : Int) - 1).toNat = k - 1 := by omega
  unfold main_httpDispatch main_httpSwitch
  simp only [h0, pokeChecked, hgl, D_FLAGS, D_DOWNBEAT, D_VENUENAME]
  rw [if_neg (by omega), if_neg (by omega), if_neg (by omega), if_neg (by omega),
    if_pos (by omega), hidx]
  rfl

theorem cli_slot_dispatch (gl cli : TDATA) (k : Nat) (hgl : gl.data.length = 256)
    (hk : 1 ≤ k ∧ k ≤ 3) (h0 : peek cli.data 0 = 99) (h1 : peek cli.data 1 = (k : Int) - 1) :
    main_cliDispatch gl cli
      = some ({ gl with data := gl.data.set (k - 1) (peek cli.data 2) },
          { status := T_RUNNING, data := cli.data }) := by
  have hidx : ((k : Int) - 1).toNat = k - 1 := by omega
  unfold main_cliDispatch main_cliSwitch
  simp only [h0, h1, if_true, pokeChecked, hgl]
  rw [if_pos (by omega), hidx]
  rfl

theorem loopBody_both (s : Blocks) (g1 h1 g2 c2 : TDATA)
    (hw : s.http.status = T_WAITING) (hc : s.cli.status = T_WAITING)
    (hweb : main_httpDispatch s.gl s.http = some (g1, h1))
    (hcli : main_cliDispatch g1 s.cli = some (g2, c2)) :
    main_loopBody s = some { gl := g2, http := h1, cli := c2 } := by
  unfold main_loopBody
  simp [hw, hc, hweb, hcli]

set_option maxRecDepth 100000 in
/-- C9 as stated fails: the web block sets colour slot 1 to Green (2), the console block
sets the same slot to Blue (3), both are Waiting; after one iteration of the loop the
slot holds the console peer's value, and the snapshot handed to the web peer still shows
the web peer's value. -/
theorem C9_counterexample :
    (main_loopBody
        { gl := zeroBlock,
          http := { status := T_WAITING, data := zeroBlock.data.set 1 2 },
          cli := { status := T_WAITING, data := (zeroBlock.data.set 0 99).set 2 3 } }).map
      (fun s1 => (colorSlot s1.gl.data 1, colorSlot s1.http.data 1)) = some (3, 2) := by
  decide

theorem fieldOf_set_slot1 (g : List Int) (v : Int) (f : Field) (hf : f ≠ Field.slot1) :
    fieldOf f (g.set 0 v) = fieldOf f g := by
  cases f
  · exact absurd rfl hf
  all_goals
    simp only [fieldOf, D_COLOR2, D_COLOR3, D_FLAGS, D_DOWNBEAT, D_VENUENAME]
    first
      | rw [peek_set_ne _ _ _ _ (by omega)]
      | rw [readInt32_set_other _ _ _ _ (by omega)]
      | rw [cstrAt_set_lt _ _ _ _ (by omega)]

theorem fieldOf_set_slot2 (g : List Int) (v : Int) (f : Field) (hf : f ≠ Field.slot2) :
    fieldOf f (g.set 1 v) = fieldOf f g := by
  cases f
  case slot2 => exact absurd rfl hf
  all_goals
    simp only [fieldOf, D_COLOR1, D_COLOR3, D_FLAGS, D_DOWNBEAT, D_VENUENAME]
    first
      | rw [peek_set_ne _ _ _ _ (by omega)]
      | rw [readInt32_set_other _ _ _ _ (by omega)]
      | rw [cstrAt_set_lt _ _ _ _ (by omega)]

theorem fieldOf_set_slot3 (g : List Int) (v : Int) (f : Field) (hf : f ≠ Field.slot3) :
    fieldOf f (g.set 2 v) = fieldOf f g := by
  cases f
  case slot3 => exact absurd rfl hf
  all_goals
    simp only [fieldOf, D_COLOR1, D_COLOR2, D_FLAGS, D_DOWNBEAT, D_VENUENAME]
    first
      | rw [peek_set_ne _ _ _ _ (by omega)]
      | rw [readInt32_set_other _ _ _ _ (by omega)]
      | rw [cstrAt_set_lt _ _ _ _ (by omega)]

theorem fieldOf_set_flags (g : List Int) (v : Int) (f : Field) (hf : f ≠ Field.flags) :
    fieldOf f (g.set D_FLAGS v) = fieldOf f g := by
  cases f
  case flags => exact absurd rfl hf
  all_goals
    simp only [fieldOf, D_COLOR1, D_COLOR2, D_COLOR3, D_FLAGS, D_DOWNBEAT, D_VENUENAME]
    first
      | rw [peek_set_ne _ _ _ _ (by omega)]
      | rw [readInt32_set_other _ _ _ _ (by omega)]
      | rw [cstrAt_set_lt _ _ _ _ (by omega)]

theorem fieldOf_writeInt32 (g : List Int) (v : Int) (f : Field) (hf : f ≠ Field.downbeat) :
    fieldOf f (writeInt32 g D_DOWNBEAT v) = fieldOf f g := by
  cases f
  case downbeat => exact absurd rfl hf
  all_goals
    simp only [fieldOf, D_COLOR1, D_COLOR2, D_COLOR3, D_FLAGS, D_DOWNBEAT, D_VENUENAME]
    first
      | rw [peek_writeInt32_other _ _ _ _ (by omega)]
      | rw [cstrAt_writeInt32 _ _ _ _ (by omega)]

theorem readInt32_writeBytes_lt (bs d : List Int) (off o : Nat) (h : o + 3 < off) :
    readInt32 (writeBytes d off bs) o = readInt32 d o := by
  unfold readInt32
  rw [peek_writeBytes_lt _ _ _ _ (by omega), peek_writeBytes_lt _ _ _ _ (by omega),
    peek_writeBytes_lt _ _ _ _ (by omega), peek_writeBytes_lt _ _ _ _ (by omega)]

theorem fieldOf_writeBytes (g bs : List Int) (f : Field) (hf : f ≠ Field.venue) :
    fieldOf f (writeBytes g D_VENUENAME bs) = fieldOf f g := by
  cases f
  case venue => exact absurd rfl hf
  all_goals
    simp only [fieldOf, D_COLOR1, D_COLOR2, D_COLOR3, D_FLAGS, D_DOWNBEAT, D_VENUENAME]
    first
      | rw [peek_writeBytes_lt _ _ _ _ (by omega)]
      | rw [readInt32_writeBytes_lt _ _ _ _ (by omega)]

theorem pokeChecked_eq_some (d : List Int) (idx v : Int) (g : List Int)
    (h : pokeChecked d idx v = some g) : g = d.set idx.toNat v := by
  unfold pokeChecked at h
  split at h
  · injection h with h; exact h.symm
  · exact absurd h (by simp)

/-- A console command leaves every field other than its target as it was. -/
theorem cli_frame (g1 cli g2 c2 : TDATA) (fc f : Field) (ht : cliTarget cli.data = some fc)
    (hd : main_cliDispatch g1 cli = some (g2, c2)) (hf : f ≠ fc) :
    fieldOf f g2.data = fieldOf f g1.data := by
  unfold main_cliDispatch at hd
  obtain ⟨p, hp, hp2⟩ := Option.map_eq_some'.mp hd
  have hg2 : g2.data = p.1 := by
    injection hp2 with h1 _; rw [← h1]
  rw [hg2]
  clear hd hp2 hg2
  unfold cliTarget at ht
  unfold main_cliSwitch at hp
  by_cases h99 : peek cli.data 0 = 99
  · simp only [h99, if_true] at ht hp
    obtain ⟨g, hg, hgp⟩ := Option.map_eq_some'.mp hp
    have hg' := pokeChecked_eq_some _ _ _ _ hg
    rw [← hgp]
    simp only
    rw [hg']
    by_cases i0 : peek cli.data 1 = 0
    · simp only [i0, if_true] at ht
      injection ht with ht; subst ht
      rw [i0]
      exact fieldOf_set_slot1 _ _ _ hf
    · by_cases i1 : peek cli.data 1 = 1
      · simp only [i1, if_true, if_false, show ¬ ((1 : Int) = 0) by decide] at ht
        injection ht with ht; subst ht
        rw [i1]
        exact fieldOf_set_slot2 _ _ _ hf
      · by_cases i2 : peek cli.data 1 = 2
        · simp only [i2, if_true, if_false, show ¬ ((2 : Int) = 0) by decide,
            show ¬ ((2 : Int) = 1) by decide] at ht
          injection ht with ht; subst ht
          rw [i2]
          exact fieldOf_set_slot3 _ _ _ hf
        · simp [i0, i1, i2] at ht
  · simp only [h99, if_false] at ht hp
    by_cases h114 : peek cli.data 0 = 114
    · simp [h114] at ht
    · simp only [h114, if_false] at hp
      by_cases h115 : peek cli.data 0 = 115
      · simp only [h115, if_true, true_or] at ht hp
        injection ht with ht; subst ht
        injection hp with hp; rw [← hp]
        exact fieldOf_set_flags _ _ _ hf
      · simp only [h115, if_false, false_or] at ht hp
        by_cases h116 : peek cli.data 0 = 116
        · simp only [h116, if_true, if_false, show ¬ ((116 : Int) = 97) by decide] at ht hp
          injection ht with ht; subst ht
          injection hp with hp; rw [← hp]
          exact fieldOf_writeInt32 _ _ _ hf
        · simp only [h116, if_false] at ht hp
          by_cases h118 : peek cli.data 0 = 118
          · simp only [h118, if_true, if_false, show ¬ ((118 : Int) = 97) by decide] at ht hp
            injection ht with ht; subst ht
            obtain ⟨text, -, htext⟩ := Option.bind_eq_some.mp hp
            obtain ⟨g, hg, hgp⟩ := Option.map_eq_some'.mp htext
            unfold sprintf_s at hg
            split at hg
            · injection hg with hg
              rw [← hgp, ← hg]
              exact fieldOf_writeBytes _ _ _ hf
            · exact absurd hg (by simp)
          · simp only [h118, if_false] at ht hp
            by_cases h97 : peek cli.data 0 = 97
            · simp only [h97, if_true] at ht hp
              injection ht with ht; subst ht
              injection hp with hp; rw [← hp]
              exact fieldOf_set_flags _ _ _ hf
            · simp [h97] at ht

/-- A web command leaves every field other than its target as it was. -/
theorem http_frame (gl http g1 h1 : TDATA) (fw f : Field) (ht : webTarget http.data = some fw)
    (hd : main_httpDispatch gl http = some (g1, h1)) (hf : f ≠ fw) :
    fieldOf f g1.data = fieldOf f gl.data := by
  unfold main_httpDispatch at hd
  obtain ⟨g, hg, hg2⟩ := Option.map_eq_some'.mp hd
  have hg1 : g1.data = g := by
    injection hg2 with h1 _; rw [← h1]
  rw [hg1]
  clear hd hg2 hg1
  unfold webTarget at ht
  unfold main_httpSwitch at hg
  simp only [D_FLAGS, D_DOWNBEAT, D_VENUENAME, Nat.cast_ofNat] at ht hg
  by_cases h0 : peek http.data 0 = 0
  · simp only [h0, if_true, if_false, show ¬ ((0 : Int) = -1) by decide,
      show ¬ ((0 : Int) = 3) by decide, show ¬ ((0 : Int) = 4) by decide,
      show ¬ ((0 : Int) = 8) by decide] at ht hg
    injection ht with ht; subst ht
    rw [pokeChecked_eq_some _ _ _ _ hg]
    exact fieldOf_set_slot1 _ _ _ hf
  · by_cases h1 : peek http.data 0 = 1
    · simp only [h1, if_true, if_false, show ¬ ((1 : Int) = -1) by decide,
        show ¬ ((1 : Int) = 0) by decide,
        show ¬ ((1 : Int) = 3) by decide, show ¬ ((1 : Int) = 4) by decide,
        show ¬ ((1 : Int) = 8) by decide] at ht hg
      injection ht with ht; subst ht
      rw [pokeChecked_eq_some _ _ _ _ hg]
      exact fieldOf_set_slot2 _ _ _ hf
    · by_cases h2 : peek http.data 0 = 2
      · simp only [h2, if_true, if_false, show ¬ ((2 : Int) = -1) by decide,
          show ¬ ((2 : Int) = 0) by decide, show ¬ ((2 : Int) = 1) by decide,
          show ¬ ((2 : Int) = 3) by decide, show ¬ ((2 : Int) = 4) by decide,
          show ¬ ((2 : Int) = 8) by decide] at ht hg
        injection ht with ht; subst ht
        rw [pokeChecked_eq_some _ _ _ _ hg]
        exact fieldOf_set_slot3 _ _ _ hf
      · by_cases h3 : peek http.data 0 = 3
        · simp only [h3, if_true, if_false, show ¬ ((3 : Int) = -1) by decide,
            show ¬ ((3 : Int) = 0) by decide, show ¬ ((3 : Int) = 1) by decide,
            show ¬ ((3 : Int) = 2) by decide] at ht hg
          injection ht with ht; subst ht
          injection hg with hg; rw [← hg]
          exact fieldOf_set_flags _ _ _ hf
        · by_cases h4 : peek http.data 0 = 4
          · simp only [h4, if_true, if_false, show ¬ ((4 : Int) = -1) by decide,
              show ¬ ((4 : Int) = 0) by decide, show ¬ ((4 : Int) = 1) by decide,
              show ¬ ((4 : Int) = 2) by decide, show ¬ ((4 : Int) = 3) by decide] at ht hg
            injection ht with ht; subst ht
            injection hg with hg; rw [← hg]
            exact fieldOf_writeInt32 _ _ _ hf
          · by_cases h8 : peek http.data 0 = 8
            · simp only [h8, if_true, if_false, show ¬ ((8 : Int) = -1) by decide,
                show ¬ ((8 : Int) = 0) by decide, show ¬ ((8 : Int) = 1) by decide,
                show ¬ ((8 : Int) = 2) by decide, show ¬ ((8 : Int) = 3) by decide,
                show ¬ ((8 : Int) = 4) by decide] at ht hg
              injection ht with ht; subst ht
              obtain ⟨text, -, htext⟩ := Option.bind_eq_some.mp hg
              unfold sprintf_s at htext
              split at htext
              · injection htext with htext
                rw [← htext]
                exact fieldOf_writeBytes _ _ _ hf
              · exact absurd htext (by simp)
            · simp [h0, h1, h2, h3, h4, h8] at ht

theorem dispatch_status_running (gl http cli g1 h1 g2 c2 : TDATA)
    (hweb : main_httpDispatch gl http = some (g1, h1))
    (hcli : main_cliDispatch g1 cli = some (g2, c2)) :
    h1.status = T_RUNNING ∧ c2.status = T_RUNNING := by
  unfold main_httpDispatch at hweb
  unfold main_cliDispatch at hcli
  obtain ⟨g, -, hg⟩ := Option.map_eq_some'.mp hweb
  obtain ⟨p, -, hp⟩ := Option.map_eq_some'.mp hcli
  injection hg with _ hg
  injection hp with _ hp
  rw [← hg, ← hp]
  exact ⟨rfl, rfl⟩

/-- C10. No lost update. For every render state: if the console block holds
SetColorSlot(1, Blue), the web block holds SetColorSlot(2, Green) and both are Waiting
at the start of one iteration of the coordinator loop, then after that iteration
`colorSlot[1] = Blue` and `colorSlot[2] = Green`, `colorSlot[3]` and every other field
are unchanged, and both peers are Running. More generally, when the web command and the
console command target different fields, the value the web command gave its field is
still there after the console command of the same iteration, and the fields neither
command targets keep their prior value. -/
theorem C10_no_lost_update (s : Blocks)
    (hw : s.http.status = T_WAITING) (hc : s.cli.status = T_WAITING) :
    (s.gl.data.length = 256 →
      peek s.cli.data 0 = 99 → peek s.cli.data 1 = 0 → peek s.cli.data 2 = C_BLUE →
      peek s.http.data 0 = 1 → peek s.http.data 1 = C_GREEN →
      ∃ s1, main_loopBody s = some s1
        ∧ colorSlot s1.gl.data 1 = C_BLUE ∧ colorSlot s1.gl.data 2 = C_GREEN
        ∧ colorSlot s1.gl.data 3 = colorSlot s.gl.data 3
        ∧ behaviorFlags s1.gl.data = behaviorFlags s.gl.data
        ∧ downbeatMinutes s1.gl.data = downbeatMinutes s.gl.data
        ∧ venueName s1.gl.data = venueName s.gl.data
        ∧ s1.gl.status = s.gl.status
        ∧ s1.http.status = T_RUNNING ∧ s1.cli.status = T_RUNNING)
    ∧ (∀ (fw fc : Field) (g1 h1 g2 c2 : TDATA),
        webTarget s.http.data = some fw → cliTarget s.cli.data = some fc → fw ≠ fc →
        main_httpDispatch s.gl s.http = some (g1, h1) →
        main_cliDispatch g1 s.cli = some (g2, c2) →
        main_loopBody s = some { gl := g2, http := h1, cli := c2 }
          ∧ fieldOf fw g2.data = fieldOf fw g1.data
          ∧ (∀ f : Field, f ≠ fw → f ≠ fc → fieldOf f g2.data = fieldOf f s.gl.data)
          ∧ h1.status = T_RUNNING ∧ c2.status = T_RUNNING) := by
  constructor
  · intro hgl hc0 hc1 hc2 hw0 hw1
    have hweb := http_slot_dispatch s.gl s.http 2 hgl (by decide) (by rw [hw0]; rfl)
    have hcli := cli_slot_dispatch
      { s.gl with data := s.gl.data.set (2 - 1) (peek s.http.data 1) }
      s.cli 1 (by simp [hgl]) (by decide) hc0 (by rw [hc1]; rfl)
    refine ⟨_, loopBody_both s _ _ _ _ hw hc hweb hcli, ?_, ?_, ?_, ?_, ?_, ?_, rfl, rfl, rfl⟩
    · unfold colorSlot
      dsimp only
      rw [hc2]
      exact peek_set_self _ _ _ (by simp [hgl])
    · unfold colorSlot
      dsimp only
      rw [peek_set_ne _ _ _ _ (by omega), hw1]
      exact peek_set_self _ _ _ (by omega)
    · unfold colorSlot
      dsimp only
      rw [peek_set_ne _ _ _ _ (by omega), peek_set_ne _ _ _ _ (by omega)]
    · unfold behaviorFlags D_FLAGS
      dsimp only
      rw [peek_set_ne _ _ _ _ (by omega), peek_set_ne _ _ _ _ (by omega)]
    · unfold downbeatMinutes D_DOWNBEAT
      dsimp only
      rw [readInt32_set_other _ _ _ _ (by omega), readInt32_set_other _ _ _ _ (by omega)]
    · unfold venueName D_VENUENAME
      dsimp only
      rw [cstrAt_set_lt _ _ _ _ (by omega), cstrAt_set_lt _ _ _ _ (by omega)]
  · intro fw fc g1 h1 g2 c2 htw htc hne hweb hcli
    refine ⟨loopBody_both s g1 h1 g2 c2 hw hc hweb hcli,
      cli_frame g1 s.cli g2 c2 fc fw htc hcli hne, ?_,
      dispatch_status_running s.gl s.http s.cli g1 h1 g2 c2 hweb hcli⟩
    intro f hfw hfc
    rw [cli_frame g1 s.cli g2 c2 fc f htc hcli hfc]
    exact http_frame s.gl s.http g1 h1 fw f htw hweb hfw

set_option maxRecDepth 100000 in
/-- C10 at the state `bothWaiting`. -/
theorem C10_no_lost_update_witness :
    bothWaiting.http.status = T_WAITING ∧ bothWaiting.cli.status = T_WAITING
      ∧ (∃ s1, main_loopBody bothWaiting = some s1
          ∧ colorSlot s1.gl.data 1 = C_BLUE ∧ colorSlot s1.gl.data 2 = C_GREEN)
      ∧ (∃ g1 h1 g2 c2, main_httpDispatch bothWaiting.gl bothWaiting.http = some (g1, h1)
          ∧ main_cliDispatch g1 bothWaiting.cli = some (g2, c2)
          ∧ fieldOf Field.slot2 g2.data = fieldOf Field.slot2 g1.data) := by
  have h := C10_no_lost_update bothWaiting rfl rfl
  obtain ⟨s1, h1, h2, h3, -⟩ := h.1 zeroBlock_length (by decide) (by decide) (by decide)
    (by decide) (by decide)
  have hweb := http_slot_dispatch bothWaiting.gl bothWaiting.http 2 zeroBlock_length
    (by decide) (by decide)
  have hcli := cli_slot_dispatch
    { bothWaiting.gl with data := bothWaiting.gl.data.set (2 - 1) (peek bothWaiting.http.data 1) }
    bothWaiting.cli 1 ((List.length_set _ _ _).trans zeroBlock_length) (by decide) (by decide)
    (by decide)
  have h2nd := h.2 Field.slot2 Field.slot1 _ _ _ _ (by decide) (by decide) (by decide) hweb hcli
  exact ⟨rfl, rfl, ⟨s1, h1, h2, h3⟩, ⟨_, _, _, _, hweb, hcli, h2nd.2.1⟩⟩

/-! ## Flags: claims C16, C17 and C18 -/

theorem ubyte_toChar_nat (n : Nat) (h : n < 256) : ubyte (toChar (n : Int)) = n := by
  unfold ubyte toChar
  omega

/-- Bit `j` of the byte written by `writeFlags`: the bit of `content` where the mask
has a one, the old bit elsewhere. -/
theorem writeFlags_testBit (e m c : Int) (j : Nat) (hj : j < 8) :
    (ubyte (writeFlags e m c)).testBit j
      = if (ubyte m).testBit j then (ubyte c).testBit j else (ubyte e).testBit j := by
  have hlt : (((255 ^^^ ubyte m) &&& ubyte e) ||| (ubyte m &&& ubyte c)) < 2 ^ 8 :=
    Nat.or_lt_two_pow (Nat.and_lt_two_pow _ (ubyte_lt e)) (Nat.and_lt_two_pow _ (ubyte_lt c))
  unfold writeFlags
  rw [ubyte_toChar_nat _ hlt]
  have h255 : (255 : Nat).testBit j = true := by
    have := Nat.testBit_two_pow_sub_one 8 j
    simpa [hj] using this
  simp only [Nat.testBit_or, Nat.testBit_and, Nat.testBit_xor, h255]
  cases (ubyte m).testBit j <;> cases (ubyte e).testBit j <;> cases (ubyte c).testBit j <;> rfl

theorem ubyte_testBit_high (c : Int) (j : Nat) (hj : 8 ≤ j) : (ubyte c).testBit j = false := by
  apply Nat.testBit_lt_two_pow
  calc ubyte c < 256 := ubyte_lt c
    _ = 2 ^ 8 := rfl
    _ ≤ 2 ^ j := Nat.pow_le_pow_right (by decide) hj

/-- A `char` is determined by its bit pattern. -/
theorem char_eq_of_ubyte_eq (x y : Int) (hx : -128 ≤ x ∧ x ≤ 127) (hy : -128 ≤ y ∧ y ≤ 127)
    (h : ubyte x = ubyte y) : x = y := by
  unfold ubyte at h
  omega

theorem toChar_range (v : Int) : -128 ≤ toChar v ∧ toChar v ≤ 127 := by
  unfold toChar
  omega

theorem writeFlags_range (e m c : Int) : -128 ≤ writeFlags e m c ∧ writeFlags e m c ≤ 127 :=
  toChar_range _

/-- The test `readFlags(&flags, 1 << d)` of one of the low seven bits. -/
theorem readFlags_ne_zero_iff (e : Int) (d : Nat) (hd : d < 7) :
    readFlags e ((2 ^ d : Nat) : Int) ≠ 0 ↔ (ubyte e).testBit d = true := by
  have hpow : (2 : Nat) ^ d < 128 := by
    calc (2 : Nat) ^ d < 2 ^ 7 := Nat.pow_lt_pow_right (by decide) hd
      _ = 128 := rfl
  have hn : ∀ n : Nat, n < 128 → ubyte (n : Int) = n := by
    intro n hn; unfold ubyte; omega
  have hm : ubyte ((2 ^ d : Nat) : Int) = 2 ^ d := hn _ hpow
  have hand : ubyte e &&& 2 ^ d = if (ubyte e).testBit d then 2 ^ d else 0 := by
    apply Nat.eq_of_testBit_eq
    intro i
    rw [Nat.testBit_and, Nat.testBit_two_pow]
    by_cases hi : d = i
    · subst hi
      cases h : (ubyte e).testBit d <;> simp [h, Nat.testBit_two_pow_self]
    · cases h : (ubyte e).testBit d <;> simp [h, hi, Nat.testBit_two_pow_of_ne hi]
  unfold readFlags
  rw [hm, hand]
  have hpos : 0 < (2 : Nat) ^ d := Nat.pos_pow_of_pos d (by decide)
  cases h : (ubyte e).testBit d
  · simp [toChar]
  · simp only [if_true]
    rw [toChar_of_range _ (by omega) (by omega)]
    simp

theorem web_flag_submit (http : TDATA) (d b : Nat) (rest : List Nat) (hd : d < 4) (hb : b < 2) :
    DoReceiveRequests_query http (some (63 :: (48 + d) :: (48 + b) :: rest))
      = some { status := T_WAITING,
               data := ((http.data.set 0 (D_FLAGS : Int)).set 1 ((2 ^ d : Nat) : Int)).set 2
                 (-(b : Int)) } := by
  have hpow : (2 : Nat) ^ d ≤ 8 := by
    interval_cases d <;> decide
  have e1 : toChar (((1 <<< (48 + d - 48) : Nat)) : Int) = ((2 ^ d : Nat) : Int) := by
    interval_cases d <;> decide
  have e2 : toChar (-(if ((48 + b : Nat) : Int) - 48 ≠ 0 then 1 else 0)) = -(b : Int) := by
    interval_cases b <;> decide
  have hg : ¬ (48 + d < 48 ∨ 48 + d > 51 ∨ (48 + b ≠ 48 ∧ 48 + b ≠ 49)) := by omega
  simp only [DoReceiveRequests_query, DoReceiveRequests_switch, List.length_cons,
    List.getD_cons_zero, List.getD_cons_succ]
  rw [if_pos (by omega), if_neg (by omega), if_neg (by omega), if_neg (by omega), if_neg hg]
  simp only [e1, e2, Option.map_some']

theorem http_flags_dispatch (gl http : TDATA) (h0 : peek http.data 0 = 3) :
    main_httpDispatch gl http
      = some ({ gl with data := (gl.data.set D_FLAGS
                  (writeFlags (peek gl.data D_FLAGS) (peek http.data 1) (peek http.data 2))) },
          { status := T_RUNNING,
            data := copyPrefix 255 http.data (gl.data.set D_FLAGS
              (writeFlags (peek gl.data D_FLAGS) (peek http.data 1) (peek http.data 2))) }) := by
  unfold main_httpDispatch main_httpSwitch
  simp [h0, D_FLAGS]

/-- Writing the flags byte leaves the other fields of the render state as they were. -/
theorem flags_write_frame (g : List Int) (v : Int) (hg : g.length = 256) :
    behaviorFlags (g.set D_FLAGS v) = v
      ∧ (∀ j : Nat, 1 ≤ j → j ≤ 3 → colorSlot (g.set D_FLAGS v) j = colorSlot g j)
      ∧ downbeatMinutes (g.set D_FLAGS v) = downbeatMinutes g
      ∧ venueName (g.set D_FLAGS v) = venueName g := by
  refine ⟨?_, ?_, ?_, ?_⟩
  · exact peek_set_self g D_FLAGS v (by unfold D_FLAGS; omega)
  · intro j hj1 hj3
    exact peek_set_ne g D_FLAGS (j - 1) v (by unfold D_FLAGS; omega)
  · exact readInt32_set_other g D_DOWNBEAT D_FLAGS v (by unfold D_DOWNBEAT D_FLAGS; omega)
  · exact cstrAt_set_lt g D_VENUENAME D_FLAGS v (by unfold D_VENUENAME D_FLAGS; omega)

theorem ubyte_two_pow (d : Nat) (hd : d < 7) : ubyte ((2 ^ d : Nat) : Int) = 2 ^ d := by
  have hpow : (2 : Nat) ^ d < 128 := by
    calc (2 : Nat) ^ d < 2 ^ 7 := Nat.pow_lt_pow_right (by decide) hd
      _ = 128 := rfl
  have hn : ∀ n : Nat, n < 128 → ubyte (n : Int) = n := by
    intro n hn; unfold ubyte; omega
  exact hn _ hpow

/-- The byte written by `writeFlags` for a single-bit mask and a content that is all
zeros (`b = 0`) or all ones (`b = 1`): bit `d` becomes `b`, every other bit is kept. -/
theorem writeFlags_single_bit (e : Int) (d b : Nat) (hd : d < 7) (hb : b < 2) (j : Nat) :
    (ubyte (writeFlags e ((2 ^ d : Nat) : Int) (-(b : Int)))).testBit j
      = if j = d then decide (b = 1) else (ubyte e).testBit j := by
  by_cases hj : j < 8
  · rw [writeFlags_testBit _ _ _ _ hj, ubyte_two_pow d hd, Nat.testBit_two_pow]
    by_cases hjd : j = d
    · subst hjd
      have hc : (ubyte (-(b : Int))).testBit j = decide (b = 1) := by
        interval_cases b
        · simp [ubyte]
        · have h255 : ubyte (-((1 : Nat) : Int)) = 2 ^ 8 - 1 := by decide
          rw [h255, Nat.testBit_two_pow_sub_one]
          simp [hj]
      simp [hc]
    · have : ¬ d = j := fun h => hjd h.symm
      simp [this, hjd]
  · have hj8 : 8 ≤ j := by omega
    have hjd : j ≠ d := by omega
    rw [ubyte_testBit_high _ _ hj8, if_neg hjd, ubyte_testBit_high _ _ hj8]

/-- C16. Web ToggleFlag. For every digit `d` in `0..3` and boolean `b` in `{0,1}` the query
`?` `d` `b` makes the adapter write a ToggleFlag command whose mask is the single bit
`1 << d` (bit 0 `F_SLIDESHOW_MODE`, 1 `F_AUTOSTART`, 2 `F_BASELIGHT`, 3 `F_METAPOSTS`); after
the coordinator dispatches it that flag of `behaviorFlags` is set exactly when `b = 1`,
every other bit of the flags byte is as before, and the colour slots, `downbeatMinutes`
and `venueName` are unchanged. -/
theorem C16_web_toggleFlag (gl http : TDATA) (d b : Nat)
    (hgl : gl.data.length = 256) (hhttp : http.data.length = 256) (hd : d < 4) (hb : b < 2) :
    ∃ http1 g1 h2,
      DoReceiveRequests_query http (some [63, 48 + d, 48 + b]) = some http1
        ∧ http1.status = T_WAITING
        ∧ peek http1.data 0 = (D_FLAGS : Int)
        ∧ peek http1.data 1 = ((2 ^ d : Nat) : Int)
        ∧ [F_SLIDESHOW_MODE, F_AUTOSTART, F_BASELIGHT, F_METAPOSTS].getD d 0 = ((2 ^ d : Nat) : Int)
        ∧ main_httpDispatch gl http1 = some (g1, h2)
        ∧ (readFlags (behaviorFlags g1.data) ((2 ^ d : Nat) : Int) ≠ 0 ↔ b = 1)
        ∧ (∀ j : Nat, j ≠ d →
            (ubyte (behaviorFlags g1.data)).testBit j = (ubyte (behaviorFlags gl.data)).testBit j)
        ∧ (∀ d2 : Nat, d2 < 4 → d2 ≠ d →
            (readFlags (behaviorFlags g1.data) ((2 ^ d2 : Nat) : Int) ≠ 0
              ↔ readFlags (behaviorFlags gl.data) ((2 ^ d2 : Nat) : Int) ≠ 0))
        ∧ (∀ j : Nat, 1 ≤ j → j ≤ 3 → colorSlot g1.data j = colorSlot gl.data j)
        ∧ downbeatMinutes g1.data = downbeatMinutes gl.data
        ∧ venueName g1.data = venueName gl.data := by
  have hsub := web_flag_submit http d b [] hd hb
  have p0 : peek (((http.data.set 0 (D_FLAGS : Int)).set 1 ((2 ^ d : Nat) : Int)).set 2
      (-(b : Int))) 0 = 3 := by
    rw [peek_set_ne _ _ _ _ (by omega), peek_set_ne _ _ _ _ (by omega)]
    exact peek_set_self _ _ _ (by omega)
  have p1 : peek (((http.data.set 0 (D_FLAGS : Int)).set 1 ((2 ^ d : Nat) : Int)).set 2
      (-(b : Int))) 1 = ((2 ^ d : Nat) : Int) := by
    rw [peek_set_ne _ _ _ _ (by omega)]
    exact peek_set_self _ _ _ (by rw [List.length_set]; omega)
  have p2 : peek (((http.data.set 0 (D_FLAGS : Int)).set 1 ((2 ^ d : Nat) : Int)).set 2
      (-(b : Int))) 2 = -(b : Int) :=
    peek_set_self _ _ _ (by rw [List.length_set, List.length_set]; omega)
  have hdisp := http_flags_dispatch gl
    { status := T_WAITING,
      data := ((http.data.set 0 (D_FLAGS : Int)).set 1 ((2 ^ d : Nat) : Int)).set 2 (-(b : Int)) }
    p0
  simp only [p1, p2] at hdisp
  obtain ⟨hf, hc, hdb, hv⟩ := flags_write_frame gl.data
    (writeFlags (peek gl.data D_FLAGS) ((2 ^ d : Nat) : Int) (-(b : Int))) hgl
  have hbit := writeFlags_single_bit (peek gl.data D_FLAGS) d b (by omega) hb
  refine ⟨_, _, _, hsub, rfl, p0, p1, ?_, hdisp, ?_, ?_, ?_, hc, hdb, hv⟩
  · interval_cases d <;> rfl
  · rw [hf, readFlags_ne_zero_iff _ d (by omega), hbit d, if_pos rfl]
    simp
  · intro j hj
    rw [hf, hbit j, if_neg hj]
    rfl
  · intro d2 hd2 hne
    rw [hf, readFlags_ne_zero_iff _ d2 (by omega), readFlags_ne_zero_iff _ d2 (by omega),
      hbit d2, if_neg hne]
    rfl

/-- C16 at the query `?21` (BaseLight on). -/
theorem C16_web_toggleFlag_witness :
    zeroBlock.data.length = 256 ∧ 2 < 4 ∧ 1 < 2
      ∧ ∃ http1 g1 h2,
          DoReceiveRequests_query zeroBlock (some [63, 50, 49]) = some http1
            ∧ main_httpDispatch zeroBlock http1 = some (g1, h2)
            ∧ readFlags (behaviorFlags g1.data) F_BASELIGHT ≠ 0 := by
  obtain ⟨http1, g1, h2, h1, -, -, -, -, h6, h7, -⟩ :=
    C16_web_toggleFlag zeroBlock zeroBlock 2 1 zeroBlock_length zeroBlock_length
      (by decide) (by decide)
  exact ⟨zeroBlock_length, by decide, by decide, http1, g1, h2, h1, h6, h7.mpr rfl⟩

theorem cli_mode_dispatch (gl cli : TDATA) (h0 : peek cli.data 0 = 115) :
    main_cliDispatch gl cli
      = some ({ gl with data := (gl.data.set D_FLAGS (writeFlags (peek gl.data D_FLAGS)
                  F_SLIDESHOW_MODE (toChar (-(if peek cli.data 1 ≠ 0 then 1 else 0))))) },
          { status := T_RUNNING, data := cli.data }) := by
  unfold main_cliDispatch main_cliSwitch
  simp [h0]

/-- Two bytes written by `writeFlags` with the same single-bit mask and content agree,
whatever flag byte they start from, when the start bytes agree outside that bit. -/
theorem writeFlags_single_bit_eq (e1 e2 : Int) (d b : Nat) (hd : d < 7) (hb : b < 2)
    (h : ∀ j : Nat, j ≠ d → (ubyte e1).testBit j = (ubyte e2).testBit j) :
    writeFlags e1 ((2 ^ d : Nat) : Int) (-(b : Int))
      = writeFlags e2 ((2 ^ d : Nat) : Int) (-(b : Int)) := by
  apply char_eq_of_ubyte_eq _ _ (writeFlags_range _ _ _) (writeFlags_range _ _ _)
  apply Nat.eq_of_testBit_eq
  intro j
  rw [writeFlags_single_bit e1 d b hd hb j, writeFlags_single_bit e2 d b hd hb j]
  by_cases hj : j = d
  · rw [if_pos hj, if_pos hj]
  · rw [if_neg hj, if_neg hj, h j hj]

/-- The console command SetMode(`b`), dispatched on any render state. -/
theorem mode_dispatch_spec (gl cli : TDATA) (b : Nat) (hgl : gl.data.length = 256)
    (hb : b < 2) (h0 : peek cli.data 0 = 115) (h1 : peek cli.data 1 = (b : Int)) :
    ∃ g1, main_cliDispatch gl cli = some (g1, { status := T_RUNNING, data := cli.data })
      ∧ (readFlags (behaviorFlags g1.data) F_SLIDESHOW_MODE ≠ 0 ↔ b = 1)
      ∧ (∀ j : Nat, j ≠ 0 →
          (ubyte (behaviorFlags g1.data)).testBit j = (ubyte (behaviorFlags gl.data)).testBit j)
      ∧ (readFlags (behaviorFlags g1.data) F_AUTOSTART ≠ 0
          ↔ readFlags (behaviorFlags gl.data) F_AUTOSTART ≠ 0)
      ∧ (readFlags (behaviorFlags g1.data) F_BASELIGHT ≠ 0
          ↔ readFlags (behaviorFlags gl.data) F_BASELIGHT ≠ 0)
      ∧ (readFlags (behaviorFlags g1.data) F_METAPOSTS ≠ 0
          ↔ readFlags (behaviorFlags gl.data) F_METAPOSTS ≠ 0)
      ∧ (∀ j : Nat, 1 ≤ j → j ≤ 3 → colorSlot g1.data j = colorSlot gl.data j)
      ∧ downbeatMinutes g1.data = downbeatMinutes gl.data
      ∧ venueName g1.data = venueName gl.data
      ∧ g1.status = gl.status
      ∧ (∀ cli2 : TDATA, peek cli2.data 0 = 115 → peek cli2.data 1 = (b : Int) →
          main_cliDispatch g1 cli2 = some (g1, { status := T_RUNNING, data := cli2.data })) := by
  have hc : toChar (-(if peek cli.data 1 ≠ 0 then 1 else 0)) = -(b : Int) := by
    rw [h1]
    interval_cases b <;> decide
  have hdisp := cli_mode_dispatch gl cli h0
  rw [hc] at hdisp
  have hm : F_SLIDESHOW_MODE = ((2 ^ 0 : Nat) : Int) := rfl
  have hm1 : F_AUTOSTART = ((2 ^ 1 : Nat) : Int) := rfl
  have hm2 : F_BASELIGHT = ((2 ^ 2 : Nat) : Int) := rfl
  have hm3 : F_METAPOSTS = ((2 ^ 3 : Nat) : Int) := rfl
  obtain ⟨hf, hcs, hdb, hv⟩ := flags_write_frame gl.data
    (writeFlags (peek gl.data D_FLAGS) F_SLIDESHOW_MODE (-(b : Int))) hgl
  have hbit := writeFlags_single_bit (peek gl.data D_FLAGS) 0 b (by omega) hb
  rw [← hm] at hbit
  have hother : ∀ (d : Nat), d < 7 → d ≠ 0 →
      (readFlags (behaviorFlags (gl.data.set D_FLAGS
          (writeFlags (peek gl.data D_FLAGS) F_SLIDESHOW_MODE (-(b : Int))))) ((2 ^ d : Nat) : Int) ≠ 0
        ↔ readFlags (behaviorFlags gl.data) ((2 ^ d : Nat) : Int) ≠ 0) := by
    intro d hd hne
    rw [hf, readFlags_ne_zero_iff _ d hd, readFlags_ne_zero_iff _ d hd, hbit d, if_neg hne]
    rfl
  refine ⟨_, hdisp, ?_, ?_, ?_, ?_, ?_, hcs, hdb, hv, rfl, ?_⟩
  · rw [hf, hm, readFlags_ne_zero_iff _ 0 (by omega), ← hm, hbit 0, if_pos rfl]
    simp
  · intro j hj
    rw [hf, hbit j, if_neg hj]
    rfl
  · rw [hm1]; exact hother 1 (by omega) (by omega)
  · rw [hm2]; exact hother 2 (by omega) (by omega)
  · rw [hm3]; exact hother 3 (by omega) (by omega)
  · intro cli2 h20 h21
    have hc2 : toChar (-(if peek cli2.data 1 ≠ 0 then 1 else 0)) = -(b : Int) := by
      rw [h21]
      interval_cases b <;> decide
    have hdisp2 := cli_mode_dispatch
      { gl with data := (gl.data.set D_FLAGS
          (writeFlags (peek gl.data D_FLAGS) F_SLIDESHOW_MODE (-(b : Int)))) } cli2 h20
    rw [hc2] at hdisp2
    rw [hdisp2]
    have hpk : peek (gl.data.set D_FLAGS
        (writeFlags (peek gl.data D_FLAGS) F_SLIDESHOW_MODE (-(b : Int)))) D_FLAGS
        = writeFlags (peek gl.data D_FLAGS) F_SLIDESHOW_MODE (-(b : Int)) := hf
    have hidem : writeFlags (writeFlags (peek gl.data D_FLAGS) F_SLIDESHOW_MODE (-(b : Int)))
        F_SLIDESHOW_MODE (-(b : Int))
        = writeFlags (peek gl.data D_FLAGS) F_SLIDESHOW_MODE (-(b : Int)) := by
      rw [hm]
      apply writeFlags_single_bit_eq _ _ 0 b (by omega) hb
      intro j hj
      rw [← hm, hbit j, if_neg hj]
    simp only [hpk, hidem, List.set_set]

theorem slideshow_block (cli : TDATA) (hcli : cli.data.length = 256) :
    peek (CLImain_slideshow cli).data 0 = 115
      ∧ peek (CLImain_slideshow cli).data 1 = ((1 : Nat) : Int) := by
  unfold CLImain_slideshow
  constructor
  · rw [peek_set_ne _ _ _ _ (by omega)]
    exact peek_set_self _ _ _ (by omega)
  · exact peek_set_self _ _ _ (by rw [List.length_set]; omega)

theorem banner_block (cli : TDATA) (hcli : cli.data.length = 256) :
    peek (CLImain_banner cli).data 0 = 115
      ∧ peek (CLImain_banner cli).data 1 = ((0 : Nat) : Int) := by
  unfold CLImain_banner
  constructor
  · rw [peek_set_ne _ _ _ _ (by omega)]
    exact peek_set_self _ _ _ (by omega)
  · exact peek_set_self _ _ _ (by rw [List.length_set]; omega)

/-- C17. SetMode. For every render state: after the console verb SLIDESHOW is dispatched
the SlideshowMode flag is set, after BANNER it is clear; in both cases AutoStart,
BaseLight, MetaPosts, every other bit of the flags byte, the colour slots,
`downbeatMinutes` and `venueName` are unchanged and the peer is released; submitting and
dispatching the same verb a second time leaves the state reached after the first. -/
theorem C17_setMode (gl cli : TDATA) (hgl : gl.data.length = 256)
    (hcli : cli.data.length = 256) :
    (∃ g1 c1, main_cliDispatch gl (CLImain_slideshow cli) = some (g1, c1)
      ∧ (CLImain_slideshow cli).status = T_WAITING ∧ c1.status = T_RUNNING
      ∧ readFlags (behaviorFlags g1.data) F_SLIDESHOW_MODE ≠ 0
      ∧ (∀ j : Nat, j ≠ 0 →
          (ubyte (behaviorFlags g1.data)).testBit j = (ubyte (behaviorFlags gl.data)).testBit j)
      ∧ (readFlags (behaviorFlags g1.data) F_AUTOSTART ≠ 0
          ↔ readFlags (behaviorFlags gl.data) F_AUTOSTART ≠ 0)
      ∧ (readFlags (behaviorFlags g1.data) F_BASELIGHT ≠ 0
          ↔ readFlags (behaviorFlags gl.data) F_BASELIGHT ≠ 0)
      ∧ (readFlags (behaviorFlags g1.data) F_METAPOSTS ≠ 0
          ↔ readFlags (behaviorFlags gl.data) F_METAPOSTS ≠ 0)
      ∧ (∀ j : Nat, 1 ≤ j → j ≤ 3 → colorSlot g1.data j = colorSlot gl.data j)
      ∧ downbeatMinutes g1.data = downbeatMinutes gl.data
      ∧ venueName g1.data = venueName gl.data
      ∧ g1.status = gl.status
      ∧ main_cliDispatch g1 (CLImain_slideshow c1) = some (g1, c1))
    ∧ (∃ g1 c1, main_cliDispatch gl (CLImain_banner cli) = some (g1, c1)
      ∧ (CLImain_banner cli).status = T_WAITING ∧ c1.status = T_RUNNING
      ∧ readFlags (behaviorFlags g1.data) F_SLIDESHOW_MODE = 0
      ∧ (∀ j : Nat, j ≠ 0 →
          (ubyte (behaviorFlags g1.data)).testBit j = (ubyte (behaviorFlags gl.data)).testBit j)
      ∧ (readFlags (behaviorFlags g1.data) F_AUTOSTART ≠ 0
          ↔ readFlags (behaviorFlags gl.data) F_AUTOSTART ≠ 0)
      ∧ (readFlags (behaviorFlags g1.data) F_BASELIGHT ≠ 0
          ↔ readFlags (behaviorFlags gl.data) F_BASELIGHT ≠ 0)
      ∧ (readFlags (behaviorFlags g1.data) F_METAPOSTS ≠ 0
          ↔ readFlags (behaviorFlags gl.data) F_METAPOSTS ≠ 0)
      ∧ (∀ j : Nat, 1 ≤ j → j ≤ 3 → colorSlot g1.data j = colorSlot gl.data j)
      ∧ downbeatMinutes g1.data = downbeatMinutes gl.data
      ∧ venueName g1.data = venueName gl.data
      ∧ g1.status = gl.status
      ∧ main_cliDispatch g1 (CLImain_banner c1) = some (g1, c1)) := by
  constructor
  · obtain ⟨h0, h1⟩ := slideshow_block cli hcli
    obtain ⟨g1, hd, hs, hbits, ha, hb, hm, hc, hdb, hv, hst, hidem⟩ :=
      mode_dispatch_spec gl (CLImain_slideshow cli) 1 hgl (by decide) h0 h1
    have hlen : (CLImain_slideshow cli).data.length = 256 := by
      simp [CLImain_slideshow, hcli]
    obtain ⟨h20, h21⟩ := slideshow_block
      { status := T_RUNNING, data := (CLImain_slideshow cli).data } hlen
    have h2 := hidem _ h20 h21
    have hsame : (CLImain_slideshow
        { status := T_RUNNING, data := (CLImain_slideshow cli).data }).data
        = (CLImain_slideshow cli).data := by
      simp [CLImain_slideshow, List.set_comm]
    rw [hsame] at h2
    exact ⟨g1, _, hd, rfl, rfl, hs.mpr rfl, hbits, ha, hb, hm, hc, hdb, hv, hst, h2⟩
  · obtain ⟨h0, h1⟩ := banner_block cli hcli
    obtain ⟨g1, hd, hs, hbits, ha, hb, hm, hc, hdb, hv, hst, hidem⟩ :=
      mode_dispatch_spec gl (CLImain_banner cli) 0 hgl (by decide) h0 h1
    have hlen : (CLImain_banner cli).data.length = 256 := by
      simp [CLImain_banner, hcli]
    obtain ⟨h20, h21⟩ := banner_block
      { status := T_RUNNING, data := (CLImain_banner cli).data } hlen
    have h2 := hidem _ h20 h21
    have hsame : (CLImain_banner
        { status := T_RUNNING, data := (CLImain_banner cli).data }).data
        = (CLImain_banner cli).data := by
      simp [CLImain_banner, List.set_comm]
    rw [hsame] at h2
    have hz : readFlags (behaviorFlags g1.data) F_SLIDESHOW_MODE = 0 := by
      by_contra hne
      exact absurd (hs.mp hne) (by decide)
    exact ⟨g1, _, hd, rfl, rfl, hz, hbits, ha, hb, hm, hc, hdb, hv, hst, h2⟩

/-- C17 at the zeroed blocks. -/
theorem C17_setMode_witness :
    zeroBlock.data.length = 256
      ∧ (∃ g1 c1, main_cliDispatch zeroBlock (CLImain_slideshow zeroBlock) = some (g1, c1)
          ∧ readFlags (behaviorFlags g1.data) F_SLIDESHOW_MODE ≠ 0)
      ∧ (∃ g1 c1, main_cliDispatch zeroBlock (CLImain_banner zeroBlock) = some (g1, c1)
          ∧ readFlags (behaviorFlags g1.data) F_SLIDESHOW_MODE = 0) := by
  obtain ⟨⟨g1, c1, h1, -, -, h2, -⟩, ⟨g2, c2, h3, -, -, h4, -⟩⟩ :=
    C17_setMode zeroBlock zeroBlock zeroBlock_length zeroBlock_length
  exact ⟨zeroBlock_length, ⟨g1, c1, h1, h2⟩, ⟨g2, c2, h3, h4⟩⟩

theorem set_peek_self (d : List Int) (i : Nat) (h : i < d.length) : d.set i (peek d i) = d := by
  apply List.ext_getElem?
  intro j
  by_cases hj : i = j
  · subst hj
    rw [List.getElem?_set_self h]
    unfold peek
    rw [List.getD_eq_getElem _ _ h, List.getElem?_eq_getElem h]
  · rw [List.getElem?_set_ne hj]

theorem cli_autostart_dispatch (gl cli : TDATA) (h0 : peek cli.data 0 = 97) :
    main_cliDispatch gl cli
      = some ({ gl with data := (gl.data.set D_FLAGS (writeFlags (peek gl.data D_FLAGS) F_AUTOSTART
                  (toChar (-(if readFlags (peek gl.data D_FLAGS) F_AUTOSTART ≠ 0 then 0 else 1))))) },
          { status := T_RUNNING,
            data := cli.data.set 1
              (if readFlags (peek (gl.data.set D_FLAGS (writeFlags (peek gl.data D_FLAGS) F_AUTOSTART
                  (toChar (-(if readFlags (peek gl.data D_FLAGS) F_AUTOSTART ≠ 0 then 0 else 1)))))
                D_FLAGS) F_AUTOSTART ≠ 0 then 1 else 0) }) := by
  unfold main_cliDispatch main_cliSwitch
  simp [h0]

/-- The byte written by the case `'a'`: bit 1 is inverted, every other bit is kept. -/
theorem autostart_flip_bits (e : Int) (j : Nat) :
    (ubyte (writeFlags e F_AUTOSTART
        (toChar (-(if readFlags e F_AUTOSTART ≠ 0 then 0 else 1))))).testBit j
      = if j = 1 then !((ubyte e).testBit 1) else (ubyte e).testBit j := by
  have hm : F_AUTOSTART = ((2 ^ 1 : Nat) : Int) := rfl
  have hr := readFlags_ne_zero_iff e 1 (by decide)
  rw [← hm] at hr
  by_cases hset : readFlags e F_AUTOSTART ≠ 0
  · have hb : (ubyte e).testBit 1 = true := hr.mp hset
    rw [if_pos hset]
    have hc : toChar (-(0 : Int)) = -((0 : Nat) : Int) := by decide
    rw [hc, hm, writeFlags_single_bit e 1 0 (by decide) (by decide) j, hb]
    by_cases hj : j = 1 <;> simp [hj]
  · have hb : (ubyte e).testBit 1 = false := by
      cases h : (ubyte e).testBit 1
      · rfl
      · exact absurd (hr.mpr h) hset
    rw [if_neg hset]
    have hc : toChar (-(1 : Int)) = -((1 : Nat) : Int) := by decide
    rw [hc, hm, writeFlags_single_bit e 1 1 (by decide) (by decide) j, hb]
    by_cases hj : j = 1 <;> simp [hj]

theorem autostart_block (cli : TDATA) (hcli : cli.data.length = 256) :
    peek (CLImain_autostart cli).data 0 = 97 :=
  peek_set_self _ _ _ (by omega)

theorem autostartToggled_bits (e : Int) (j : Nat) :
    (ubyte (autostartToggled e)).testBit j
      = if j = 1 then !((ubyte e).testBit 1) else (ubyte e).testBit j :=
  autostart_flip_bits e j

theorem autostartToggled_range (e : Int) :
    -128 ≤ autostartToggled e ∧ autostartToggled e ≤ 127 :=
  writeFlags_range _ _ _

theorem autostartToggled_twice (e : Int) (he : -128 ≤ e ∧ e ≤ 127) :
    autostartToggled (autostartToggled e) = e := by
  apply char_eq_of_ubyte_eq _ _ (autostartToggled_range (autostartToggled e)) he
  apply Nat.eq_of_testBit_eq
  intro j
  simp only [autostartToggled_bits]
  by_cases hj : j = 1
  · subst hj; simp
  · simp [hj]

theorem autostart_dispatch_spec (gl cli : TDATA) (hgl : gl.data.length = 256)
    (h0 : peek cli.data 0 = 97) :
    main_cliDispatch gl cli
      = some ({ gl with data := (gl.data.set D_FLAGS (autostartToggled (peek gl.data D_FLAGS))) },
          { status := T_RUNNING,
            data := cli.data.set 1
              (if readFlags (autostartToggled (peek gl.data D_FLAGS)) F_AUTOSTART ≠ 0
                then 1 else 0) }) := by
  have hpk : peek (gl.data.set D_FLAGS (autostartToggled (peek gl.data D_FLAGS))) D_FLAGS
      = autostartToggled (peek gl.data D_FLAGS) :=
    peek_set_self _ _ _ (by unfold D_FLAGS; omega)
  rw [cli_autostart_dispatch gl cli h0]
  unfold autostartToggled at hpk ⊢
  rw [hpk]

/-- C18. ToggleAutoStart. For every render state, dispatching the console AUTOSTART
command inverts the AutoStart bit of `behaviorFlags` and nothing else (every other bit,
the colour slots, `downbeatMinutes` and `venueName` are unchanged), writes into payload
byte 1 the value 1 if AutoStart is now set and 0 otherwise, and releases the peer;
submitting and dispatching it a second time gives back the original render state. -/
theorem C18_toggleAutoStart (gl cli : TDATA) (hgl : gl.data.length = 256)
    (hcli : cli.data.length = 256)
    (hchar : -128 ≤ behaviorFlags gl.data ∧ behaviorFlags gl.data ≤ 127) :
    ∃ g1 c1 c2, main_cliDispatch gl (CLImain_autostart cli) = some (g1, c1)
      ∧ (CLImain_autostart cli).status = T_WAITING ∧ c1.status = T_RUNNING
      ∧ (readFlags (behaviorFlags g1.data) F_AUTOSTART ≠ 0
          ↔ readFlags (behaviorFlags gl.data) F_AUTOSTART = 0)
      ∧ (∀ j : Nat, j ≠ 1 →
          (ubyte (behaviorFlags g1.data)).testBit j = (ubyte (behaviorFlags gl.data)).testBit j)
      ∧ (∀ j : Nat, 1 ≤ j → j ≤ 3 → colorSlot g1.data j = colorSlot gl.data j)
      ∧ downbeatMinutes g1.data = downbeatMinutes gl.data
      ∧ venueName g1.data = venueName gl.data
      ∧ g1.status = gl.status
      ∧ peek c1.data 1 = (if readFlags (behaviorFlags g1.data) F_AUTOSTART ≠ 0 then 1 else 0)
      ∧ main_cliDispatch g1 (CLImain_autostart c1) = some (gl, c2) := by
  have hm : F_AUTOSTART = ((2 ^ 1 : Nat) : Int) := rfl
  have hdisp := autostart_dispatch_spec gl (CLImain_autostart cli) hgl (autostart_block cli hcli)
  obtain ⟨hf, hc, hdb, hv⟩ := flags_write_frame gl.data
    (autostartToggled (peek gl.data D_FLAGS)) hgl
  have hlen1 : ((CLImain_autostart cli).data.set 1
      (if readFlags (autostartToggled (peek gl.data D_FLAGS)) F_AUTOSTART ≠ 0
        then 1 else 0)).length = 256 := by
    simp [CLImain_autostart, hcli]
  have hdisp2 := autostart_dispatch_spec
    { gl with data := (gl.data.set D_FLAGS (autostartToggled (peek gl.data D_FLAGS))) }
    (CLImain_autostart
      { status := T_RUNNING,
        data := (CLImain_autostart cli).data.set 1
          (if readFlags (autostartToggled (peek gl.data D_FLAGS)) F_AUTOSTART ≠ 0
            then 1 else 0) })
    (by simp [hgl]) (autostart_block _ hlen1)
  have hpk : peek (gl.data.set D_FLAGS (autostartToggled (peek gl.data D_FLAGS))) D_FLAGS
      = autostartToggled (peek gl.data D_FLAGS) := hf
  have hrestore : ({ gl with data := ((gl.data.set D_FLAGS
      (autostartToggled (peek gl.data D_FLAGS))).set D_FLAGS (peek gl.data D_FLAGS)) } : TDATA)
      = gl := by
    rw [List.set_set, set_peek_self _ _ (by unfold D_FLAGS; omega)]
  have hchar2 : -128 ≤ peek gl.data D_FLAGS ∧ peek gl.data D_FLAGS ≤ 127 := hchar
  simp only [hpk, autostartToggled_twice _ hchar2] at hdisp2
  rw [hrestore] at hdisp2
  refine ⟨_, _, _, hdisp, rfl, rfl, ?_, ?_, hc, hdb, hv, rfl, ?_, hdisp2⟩
  · rw [hf, hm, readFlags_ne_zero_iff _ 1 (by decide), ← hm, autostartToggled_bits, if_pos rfl]
    have hr := readFlags_ne_zero_iff (peek gl.data D_FLAGS) 1 (by decide)
    rw [← hm] at hr
    unfold behaviorFlags
    constructor
    · intro h
      by_contra hne
      rw [hr.mp hne] at h
      exact absurd h (by decide)
    · intro h
      cases hb : (ubyte (peek gl.data D_FLAGS)).testBit 1
      · rfl
      · exact absurd h (hr.mpr hb)
  · intro j hj
    rw [hf, autostartToggled_bits, if_neg hj]
    rfl
  · dsimp only
    rw [hf]
    exact peek_set_self _ _ _ (by simp [CLImain_autostart, hcli])

/-- C18 at the zeroed blocks: AutoStart goes from clear to set and back. -/
theorem C18_toggleAutoStart_witness :
    zeroBlock.data.length = 256
      ∧ (-128 ≤ behaviorFlags zeroBlock.data ∧ behaviorFlags zeroBlock.data ≤ 127)
      ∧ ∃ g1 c1 c2, main_cliDispatch zeroBlock (CLImain_autostart zeroBlock) = some (g1, c1)
          ∧ readFlags (behaviorFlags g1.data) F_AUTOSTART ≠ 0
          ∧ peek c1.data 1 = 1
          ∧ main_cliDispatch g1 (CLImain_autostart c1) = some (zeroBlock, c2) := by
  have hz : behaviorFlags zeroBlock.data = 0 := peek_zeroBlock D_FLAGS
  have hchar : -128 ≤ behaviorFlags zeroBlock.data ∧ behaviorFlags zeroBlock.data ≤ 127 := by
    rw [hz]; decide
  obtain ⟨g1, c1, c2, h1, -, -, h2, -, -, -, -, -, h3, h4⟩ :=
    C18_toggleAutoStart zeroBlock zeroBlock zeroBlock_length zeroBlock_length hchar
  have hset : readFlags (behaviorFlags g1.data) F_AUTOSTART ≠ 0 :=
    h2.mpr (by rw [hz]; decide)
  exact ⟨zeroBlock_length, hchar, g1, c1, c2, h1, hset, by rw [h3, if_pos hset], h4⟩

/-! ## ReadColors: claim C19 -/

theorem cli_colors_dispatch (gl cli : TDATA) (h0 : peek cli.data 0 = 114) :
    main_cliDispatch gl cli
      = some (gl, { status := T_RUNNING, data := copyPrefix 3 cli.data gl.data }) := by
  unfold main_cliDispatch main_cliSwitch
  simp [h0]

theorem colors_round (gl cli : TDATA) (hcli : cli.data.length = 256) :
    main_cliDispatch gl (CLImain_colors cli)
        = some (gl, { status := T_RUNNING,
                      data := copyPrefix 3 (CLImain_colors cli).data gl.data })
      ∧ (copyPrefix 3 (CLImain_colors cli).data gl.data).length = 256
      ∧ peek (copyPrefix 3 (CLImain_colors cli).data gl.data) 0 = colorSlot gl.data 1
      ∧ peek (copyPrefix 3 (CLImain_colors cli).data gl.data) 1 = colorSlot gl.data 2
      ∧ peek (copyPrefix 3 (CLImain_colors cli).data gl.data) 2 = colorSlot gl.data 3 := by
  have hlen : (CLImain_colors cli).data.length = 256 := by
    simp [CLImain_colors, hcli]
  have h0 : peek (CLImain_colors cli).data 0 = 114 := peek_set_self _ _ _ (by omega)
  refine ⟨cli_colors_dispatch gl _ h0, by rw [length_copyPrefix, hlen], ?_, ?_, ?_⟩
  · rw [peek_copyPrefix _ _ _ (by omega), if_pos (by omega)]; rfl
  · rw [peek_copyPrefix _ _ _ (by omega), if_pos (by omega)]; rfl
  · rw [peek_copyPrefix _ _ _ (by omega), if_pos (by omega)]; rfl

theorem colorsRounds_spec (gl : TDATA) (n : Nat) : ∀ cli : TDATA, cli.data.length = 256 →
    ∃ c, colorsRounds gl (n + 1) cli = some (gl, c)
      ∧ c.status = T_RUNNING
      ∧ peek c.data 0 = colorSlot gl.data 1
      ∧ peek c.data 1 = colorSlot gl.data 2
      ∧ peek c.data 2 = colorSlot gl.data 3 := by
  induction n with
  | zero =>
    intro cli hcli
    obtain ⟨hd, -, h0, h1, h2⟩ := colors_round gl cli hcli
    refine ⟨{ status := T_RUNNING, data := copyPrefix 3 (CLImain_colors cli).data gl.data },
      ?_, rfl, h0, h1, h2⟩
    rw [colorsRounds, hd]
    rfl
  | succ n ih =>
    intro cli hcli
    obtain ⟨hd, hlen, -, -, -⟩ := colors_round gl cli hcli
    obtain ⟨c, hc, hrest⟩ := ih
      { status := T_RUNNING, data := copyPrefix 3 (CLImain_colors cli).data gl.data } hlen
    refine ⟨c, ?_, hrest⟩
    rw [colorsRounds, hd]
    exact hc

/-- C19. ReadColors. For every render state, dispatching the console COLORS command
leaves the render state unchanged, releases the peer and sets payload bytes 0..2 to
`colorSlot[1..3]`; repeated any number of times with no other command in between, every
round leaves the render state unchanged and returns the same payload bytes 0..2. -/
theorem C19_readColors (gl cli : TDATA) (hcli : cli.data.length = 256) :
    (∃ c1, main_cliDispatch gl (CLImain_colors cli) = some (gl, c1)
      ∧ (CLImain_colors cli).status = T_WAITING ∧ c1.status = T_RUNNING
      ∧ peek c1.data 0 = colorSlot gl.data 1
      ∧ peek c1.data 1 = colorSlot gl.data 2
      ∧ peek c1.data 2 = colorSlot gl.data 3)
    ∧ (∀ n : Nat, 1 ≤ n →
        ∃ c, colorsRounds gl n cli = some (gl, c)
          ∧ c.status = T_RUNNING
          ∧ peek c.data 0 = colorSlot gl.data 1
          ∧ peek c.data 1 = colorSlot gl.data 2
          ∧ peek c.data 2 = colorSlot gl.data 3) := by
  constructor
  · obtain ⟨hd, -, h0, h1, h2⟩ := colors_round gl cli hcli
    exact ⟨{ status := T_RUNNING, data := copyPrefix 3 (CLImain_colors cli).data gl.data },
      hd, rfl, rfl, h0, h1, h2⟩
  · intro n hn
    obtain ⟨m, rfl⟩ : ∃ m, n = m + 1 := ⟨n - 1, by omega⟩
    exact colorsRounds_spec gl m cli hcli

/-- C19 at the zeroed blocks, three rounds. -/
theorem C19_readColors_witness :
    zeroBlock.data.length = 256 ∧ 1 ≤ 3
      ∧ ∃ c, colorsRounds zeroBlock 3 zeroBlock = some (zeroBlock, c)
          ∧ peek c.data 0 = colorSlot zeroBlock.data 1 :=
  ⟨zeroBlock_length, by decide,
    let ⟨c, h1, _, h2, _⟩ := (C19_readColors zeroBlock zeroBlock zeroBlock_length).2 3 (by decide)
    ⟨c, h1, h2⟩⟩

/-! ## Sentinel and unchecked opcodes: claims C15, C13 and C14 -/

theorem http_sentinel_dispatch (gl http : TDATA) (h0 : peek http.data 0 = -1) :
    main_httpDispatch gl http
      = some (gl, { status := T_RUNNING, data := copyPrefix 255 http.data gl.data }) := by
  unfold main_httpDispatch main_httpSwitch
  simp [h0]

theorem snapshot_bytes (hd g : List Int) (hhd : hd.length = 256) (i : Nat) (hi : i < 255) :
    peek (copyPrefix 255 hd g) i = peek g i := by
  rw [peek_copyPrefix _ _ _ (by omega), if_pos hi]

theorem web_rejected_submit (td : TDATA) (query : Option (List Nat))
    (hrej : queryRejected query) :
    DoReceiveRequests_query td query
      = some { status := T_WAITING, data := td.data.set 0 (-1) } := by
  cases query with
  | none => rfl
  | some q =>
    unfold queryRejected at hrej
    unfold DoReceiveRequests_query
    by_cases hlen : q.length ≥ 3
    · simp only [hlen, if_true]
      unfold DoReceiveRequests_switch
      rcases hrej with h | ⟨h1, h2⟩ | ⟨h1, h2⟩ | ⟨hv, ht, hc, h2⟩
      · omega
      · simp only [h1, show ¬ ((116 : Nat) = 118) by decide, if_false, if_true]
        rw [if_pos (by omega)]
        rfl
      · simp only [h1, show ¬ ((99 : Nat) = 118) by decide, show ¬ ((99 : Nat) = 116) by decide,
          if_false, if_true]
        rw [if_pos (by omega)]
        rfl
      · simp only [hv, ht, hc, if_false]
        rw [if_pos (by omega)]
        rfl
    · simp only [hlen, if_false]

/-- C15. Web rejection sentinel. For every query that is absent, shorter than three
characters, or fails the shape of its family (`t` without four digits in the ranges
`0..2`, `0..9`, `0..5`, `0..9`; `c` without a slot digit `0..2` and a palette digit `0..7`; any
other selector except `v` that is not a digit `0..3` followed by `0` or `1`), the web adapter
writes the sentinel opcode `-1` and sets the status to Waiting; the coordinator's dispatch
of the sentinel leaves the render state unchanged, copies its bytes `0..254` into the
payload and releases the peer. -/
theorem C15_web_sentinel (gl td : TDATA) (query : Option (List Nat))
    (htd : td.data.length = 256) (hrej : queryRejected query) :
    ∃ http1 h2, DoReceiveRequests_query td query = some http1
      ∧ http1.status = T_WAITING
      ∧ peek http1.data 0 = -1
      ∧ main_httpDispatch gl http1 = some (gl, h2)
      ∧ h2.status = T_RUNNING
      ∧ (∀ i : Nat, i < 255 → peek h2.data i = peek gl.data i) := by
  have h0 : peek (td.data.set 0 (-1)) 0 = -1 := peek_set_self _ _ _ (by omega)
  refine ⟨{ status := T_WAITING, data := td.data.set 0 (-1) },
    { status := T_RUNNING, data := copyPrefix 255 (td.data.set 0 (-1)) gl.data },
    web_rejected_submit td query hrej, rfl, h0, http_sentinel_dispatch gl _ h0, rfl, ?_⟩
  intro i hi
  dsimp only
  exact snapshot_bytes (td.data.set 0 (-1)) gl.data (by rw [List.length_set]; omega) i hi

/-- C15 at the query `?t9999`, whose first digit is out of range. -/
theorem C15_web_sentinel_witness :
    zeroBlock.data.length = 256 ∧ queryRejected (some [63, 116, 57, 57, 57, 57])
      ∧ ∃ http1 h2, DoReceiveRequests_query zeroBlock (some [63, 116, 57, 57, 57, 57]) = some http1
          ∧ peek http1.data 0 = -1
          ∧ main_httpDispatch zeroBlock http1 = some (zeroBlock, h2) := by
  have hrej : queryRejected (some [63, 116, 57, 57, 57, 57]) := by
    unfold queryRejected
    decide
  obtain ⟨http1, h2, h1, -, h3, h4, -⟩ :=
    C15_web_sentinel zeroBlock zeroBlock (some [63, 116, 57, 57, 57, 57]) zeroBlock_length hrej
  exact ⟨zeroBlock_length, hrej, http1, h2, h1, h3, h4⟩

theorem cli_unknown_dispatch (gl cli : TDATA)
    (h : peek cli.data 0 ≠ 99 ∧ peek cli.data 0 ≠ 114 ∧ peek cli.data 0 ≠ 115
      ∧ peek cli.data 0 ≠ 116 ∧ peek cli.data 0 ≠ 118 ∧ peek cli.data 0 ≠ 97) :
    main_cliDispatch gl cli = some (gl, { status := T_RUNNING, data := cli.data }) := by
  obtain ⟨h1, h2, h3, h4, h5, h6⟩ := h
  unfold main_cliDispatch main_cliSwitch
  simp [h1, h2, h3, h4, h5, h6]

theorem http_default_dispatch (gl http : TDATA) (hgl : gl.data.length = 256)
    (hlo : 0 ≤ peek http.data 0) (hhi : peek http.data 0 < 256)
    (h3 : peek http.data 0 ≠ 3) (h4 : peek http.data 0 ≠ 4) (h8 : peek http.data 0 ≠ 8) :
    main_httpDispatch gl http
      = some ({ gl with data := (gl.data.set (peek http.data 0).toNat (peek http.data 1)) },
          { status := T_RUNNING,
            data := copyPrefix 255 http.data
              (gl.data.set (peek http.data 0).toNat (peek http.data 1)) }) := by
  unfold main_httpDispatch main_httpSwitch
  simp only [pokeChecked, hgl, D_FLAGS, D_DOWNBEAT, D_VENUENAME, Nat.cast_ofNat]
  rw [if_neg (by omega), if_neg h3, if_neg h4, if_neg h8, if_pos ⟨hlo, by omega⟩]
  rfl

theorem cli_index_dispatch (gl cli : TDATA) (hgl : gl.data.length = 256)
    (h0 : peek cli.data 0 = 99) (hlo : 0 ≤ peek cli.data 1) (hhi : peek cli.data 1 < 256) :
    main_cliDispatch gl cli
      = some ({ gl with data := (gl.data.set (peek cli.data 1).toNat (peek cli.data 2)) },
          { status := T_RUNNING, data := cli.data }) := by
  unfold main_cliDispatch main_cliSwitch
  simp only [h0, if_true, pokeChecked, hgl]
  rw [if_pos ⟨hlo, by omega⟩]
  rfl

set_option maxRecDepth 100000 in
/-- C13 as stated fails for the web peer: opcode 5 is none of the opcodes the web
table names, and dispatching a block that carries it with `data[1] = 7` stores 7 in
byte 5 of the render state, which turns `downbeatMinutes` from 0 into 1792. -/
theorem C13_counterexample :
    ((5 : Int) ≠ -1 ∧ (5 : Int) ≠ 0 ∧ (5 : Int) ≠ 1 ∧ (5 : Int) ≠ 2 ∧ (5 : Int) ≠ (D_FLAGS : Int)
        ∧ (5 : Int) ≠ (D_DOWNBEAT : Int) ∧ (5 : Int) ≠ (D_VENUENAME : Int))
      ∧ downbeatMinutes zeroBlock.data = 0
      ∧ (main_httpDispatch zeroBlock
            { status := T_WAITING, data := (zeroBlock.data.set 0 5).set 1 7 }).map
          (fun r => (peek r.1.data 5, downbeatMinutes r.1.data)) = some (7, 1792) := by
  refine ⟨by decide, ?_, ?_⟩ <;> decide

/-- C13, amended. Console peer: for every opcode byte other than `'c'`, `'r'`, `'s'`, `'t'`,
`'v'`, `'a'`, dispatching the block leaves every byte of the render state and of the
payload unchanged and releases the peer (no snapshot is written). Web peer: the
sentinel `-1` leaves every byte of the render state unchanged, copies its bytes `0..254`
into the payload and releases the peer; every other opcode byte `op` outside `D_FLAGS`,
`D_DOWNBEAT`, `D_VENUENAME` goes to the `default` case, which for `0 ≤ op < 256` stores payload
byte 1 in byte `op` of the render state. -/
theorem C13_unrecognised_opcode (gl cli http : TDATA) :
    ((peek cli.data 0 ≠ 99 ∧ peek cli.data 0 ≠ 114 ∧ peek cli.data 0 ≠ 115
        ∧ peek cli.data 0 ≠ 116 ∧ peek cli.data 0 ≠ 118 ∧ peek cli.data 0 ≠ 97) →
      main_cliDispatch gl cli = some (gl, { status := T_RUNNING, data := cli.data }))
    ∧ (peek http.data 0 = -1 → http.data.length = 256 →
        ∃ h2, main_httpDispatch gl http = some (gl, h2) ∧ h2.status = T_RUNNING
          ∧ (∀ i : Nat, i < 255 → peek h2.data i = peek gl.data i))
    ∧ (gl.data.length = 256 → 0 ≤ peek http.data 0 → peek http.data 0 < 256 →
        peek http.data 0 ≠ 3 → peek http.data 0 ≠ 4 → peek http.data 0 ≠ 8 →
        ∃ h2, main_httpDispatch gl http
          = some ({ gl with data := (gl.data.set (peek http.data 0).toNat (peek http.data 1)) },
              h2)) := by
  refine ⟨cli_unknown_dispatch gl cli, ?_, ?_⟩
  · intro h0 hlen
    refine ⟨{ status := T_RUNNING, data := copyPrefix 255 http.data gl.data },
      http_sentinel_dispatch gl http h0, rfl, ?_⟩
    intro i hi
    dsimp only
    exact snapshot_bytes http.data gl.data hlen i hi
  · intro hgl hlo hhi h3 h4 h8
    exact ⟨_, http_default_dispatch gl http hgl hlo hhi h3 h4 h8⟩

set_option maxRecDepth 100000 in
/-- C13 amended, at a console block with opcode `'x'`, a web block with the sentinel and
the web block of the counterexample. -/
theorem C13_unrecognised_opcode_witness :
    main_cliDispatch zeroBlock { status := T_WAITING, data := zeroBlock.data.set 0 120 }
        = some (zeroBlock, { status := T_RUNNING, data := zeroBlock.data.set 0 120 })
      ∧ (∃ h2, main_httpDispatch zeroBlock
            { status := T_WAITING, data := zeroBlock.data.set 0 (-1) } = some (zeroBlock, h2))
      ∧ (∃ h2, main_httpDispatch zeroBlock
            { status := T_WAITING, data := (zeroBlock.data.set 0 5).set 1 7 }
          = some ({ zeroBlock with data := (zeroBlock.data.set 5 7) }, h2)) := by
  have h := C13_unrecognised_opcode zeroBlock
    { status := T_WAITING, data := zeroBlock.data.set 0 120 }
    { status := T_WAITING, data := zeroBlock.data.set 0 (-1) }
  have h5 := C13_unrecognised_opcode zeroBlock
    { status := T_WAITING, data := zeroBlock.data.set 0 120 }
    { status := T_WAITING, data := (zeroBlock.data.set 0 5).set 1 7 }
  have hlen : (zeroBlock.data.set 0 (-1)).length = 256 :=
    (List.length_set _ _ _).trans zeroBlock_length
  have p0 : peek ((zeroBlock.data.set 0 5).set 1 7) 0 = 5 := by decide
  have p1 : peek ((zeroBlock.data.set 0 5).set 1 7) 1 = 7 := by decide
  obtain ⟨h2, hd, -⟩ := h.2.1 (by decide) hlen
  obtain ⟨h3, hd3⟩ := h5.2.2 zeroBlock_length (by decide) (by decide) (by decide) (by decide)
    (by decide)
  simp only [p0, p1] at hd3
  exact ⟨h.1 (by decide), ⟨h2, hd⟩, ⟨h3, hd3⟩⟩

set_option maxRecDepth 100000 in
/-- C14 as stated fails: a console SetColorSlot command for slot 1 with palette index 9,
outside `0..7`, is applied (`colorSlot[1]` goes from 0 to 9); a console command with slot
id 5, outside the three slots, overwrites byte 5 of the render state; a web command
for slot 1 with palette byte 9 is applied as well. -/
theorem C14_counterexample :
    colorSlot zeroBlock.data 1 = 0
      ∧ (main_cliDispatch zeroBlock
            { status := T_WAITING, data := (zeroBlock.data.set 0 99).set 2 9 }).map
          (fun r => colorSlot r.1.data 1) = some 9
      ∧ (main_cliDispatch zeroBlock
            { status := T_WAITING, data := ((zeroBlock.data.set 0 99).set 1 5).set 2 9 }).map
          (fun r => (peek r.1.data 5, downbeatMinutes r.1.data)) = some (9, 2304)
      ∧ (main_httpDispatch zeroBlock
            { status := T_WAITING, data := zeroBlock.data.set 1 9 }).map
          (fun r => colorSlot r.1.data 1) = some 9 := by
  refine ⟨?_, ?_, ?_, ?_⟩ <;> decide

/-- C14, amended. The coordinator applies no range check to SetColorSlot. For every
SetColorSlot command that reaches it with a slot id of one of the three colour slots,
in the console block (`'c'`, slot id in `data[1]`, palette byte in `data[2]`) or in the web
block (slot id in `data[0]`, palette byte in `data[1]`), whatever palette byte it carries
(inside or outside `0..7`), the dispatch stores that byte in the slot and leaves the
other slots, the flags, `downbeatMinutes` and `venueName` unchanged. A console command
whose slot id `i` is outside the three slots and inside `0..255` overwrites byte `i` of the
render state. -/
theorem C14_setColorSlot_unchecked (gl cli http : TDATA) (k : Nat)
    (hgl : gl.data.length = 256) (hk : 1 ≤ k ∧ k ≤ 3) :
    (peek cli.data 0 = 99 → peek cli.data 1 = (k : Int) - 1 →
      ∃ g1 c1, main_cliDispatch gl cli = some (g1, c1)
        ∧ colorSlot g1.data k = peek cli.data 2
        ∧ (∀ j : Nat, 1 ≤ j → j ≤ 3 → j ≠ k → colorSlot g1.data j = colorSlot gl.data j)
        ∧ behaviorFlags g1.data = behaviorFlags gl.data
        ∧ downbeatMinutes g1.data = downbeatMinutes gl.data
        ∧ venueName g1.data = venueName gl.data)
    ∧ (peek http.data 0 = (k : Int) - 1 →
      ∃ g1 h1, main_httpDispatch gl http = some (g1, h1)
        ∧ colorSlot g1.data k = peek http.data 1
        ∧ (∀ j : Nat, 1 ≤ j → j ≤ 3 → j ≠ k → colorSlot g1.data j = colorSlot gl.data j)
        ∧ behaviorFlags g1.data = behaviorFlags gl.data
        ∧ downbeatMinutes g1.data = downbeatMinutes gl.data
        ∧ venueName g1.data = venueName gl.data)
    ∧ (peek cli.data 0 = 99 → 3 ≤ peek cli.data 1 → peek cli.data 1 < 256 →
      ∃ c1, main_cliDispatch gl cli
        = some ({ gl with data := (gl.data.set (peek cli.data 1).toNat (peek cli.data 2)) }, c1)) := by
  refine ⟨?_, ?_, ?_⟩
  · intro h0 h1
    exact ⟨_, _, cli_slot_dispatch gl cli k hgl hk h0 h1,
      slot_write_frame gl.data k (peek cli.data 2) hgl hk⟩
  · intro h0
    exact ⟨_, _, http_slot_dispatch gl http k hgl hk h0,
      slot_write_frame gl.data k (peek http.data 1) hgl hk⟩
  · intro h0 hlo hhi
    exact ⟨_, cli_index_dispatch gl cli hgl h0 (by omega) hhi⟩

set_option maxRecDepth 100000 in
/-- C14 amended, at the blocks of the counterexample. -/
theorem C14_setColorSlot_unchecked_witness :
    zeroBlock.data.length = 256 ∧ (1 ≤ 1 ∧ 1 ≤ 3)
      ∧ (∃ g1 c1, main_cliDispatch zeroBlock
            { status := T_WAITING, data := (zeroBlock.data.set 0 99).set 2 9 } = some (g1, c1)
          ∧ colorSlot g1.data 1 = 9)
      ∧ (∃ g1 h1, main_httpDispatch zeroBlock
            { status := T_WAITING, data := zeroBlock.data.set 1 9 } = some (g1, h1)
          ∧ colorSlot g1.data 1 = 9)
      ∧ (∃ c1, main_cliDispatch zeroBlock
            { status := T_WAITING, data := ((zeroBlock.data.set 0 99).set 1 5).set 2 9 }
          = some ({ zeroBlock with data := (zeroBlock.data.set 5 9) }, c1)) := by
  have hA := C14_setColorSlot_unchecked zeroBlock
    { status := T_WAITING, data := (zeroBlock.data.set 0 99).set 2 9 }
    { status := T_WAITING, data := zeroBlock.data.set 1 9 } 1 zeroBlock_length (by decide)
  have hB := C14_setColorSlot_unchecked zeroBlock
    { status := T_WAITING, data := ((zeroBlock.data.set 0 99).set 1 5).set 2 9 }
    { status := T_WAITING, data := zeroBlock.data.set 1 9 } 1 zeroBlock_length (by decide)
  obtain ⟨g1, c1, h1, h2, -⟩ := hA.1 (by decide) (by decide)
  obtain ⟨g2, h3, h4, h5, -⟩ := hA.2.1 (by decide)
  obtain ⟨c3, h6⟩ := hB.2.2 (by decide) (by decide) (by decide)
  have p1 : peek (((zeroBlock.data.set 0 99).set 1 5).set 2 9) 1 = 5 := by decide
  have p2 : peek (((zeroBlock.data.set 0 99).set 1 5).set 2 9) 2 = 9 := by decide
  have q2 : peek ((zeroBlock.data.set 0 99).set 2 9) 2 = 9 := by decide
  have q1 : peek (zeroBlock.data.set 1 9) 1 = 9 := by decide
  simp only [p1, p2] at h6
  exact ⟨zeroBlock_length, by decide, ⟨g1, c1, h1, h2.trans q2⟩, ⟨g2, h3, h4, h5.trans q1⟩,
    ⟨c3, h6⟩⟩

/-! ## Snapshot and release: claim C11 -/

theorem split_at_zero (l : List Int) (h : (0 : Int) ∈ l) :
    ∃ rest, l = l.takeWhile (fun b => b != 0) ++ 0 :: rest := by
  induction l with
  | nil => exact absurd h (List.not_mem_nil _)
  | cons a l ih =>
    by_cases ha : a = 0
    · subst ha
      exact ⟨l, by simp⟩
    · have hl : (0 : Int) ∈ l := by
        rcases List.mem_cons.mp h with h0 | h0
        · exact absurd h0.symm ha
        · exact h0
      obtain ⟨rest, hrest⟩ := ih hl
      refine ⟨rest, ?_⟩
      have htw : List.takeWhile (fun b : Int => b != 0) (a :: l)
          = a :: List.takeWhile (fun b : Int => b != 0) l := by
        simp [List.takeWhile_cons, ha]
      rw [htw, List.cons_append, ← hrest]

theorem cstrAt_eq_some_iff (d : List Int) (off : Nat) (s : List Int) :
    cstrAt d off = some s ↔ (∀ x ∈ s, x ≠ 0) ∧ ∃ rest, d.drop off = s ++ 0 :: rest := by
  constructor
  · intro h
    refine ⟨cstrAt_nonzero d off s h, ?_⟩
    unfold cstrAt at h
    split at h
    · rename_i hmem
      injection h with h
      obtain ⟨rest, hrest⟩ := split_at_zero _ hmem
      rw [h] at hrest
      exact ⟨rest, hrest⟩
    · exact absurd h (by simp)
  · rintro ⟨hnz, rest, hrest⟩
    unfold cstrAt
    rw [hrest, takeWhile_nonzero_append s rest hnz, if_pos (by simp)]

theorem peek_drop (d : List Int) (off i : Nat) : peek d (off + i) = (d.drop off).getD i 0 := by
  unfold peek
  rw [List.getD_eq_getElem?_getD, List.getD_eq_getElem?_getD, List.getElem?_drop]

theorem drop_eq_of_prefix (t : List Int) : ∀ (e : List Int) (off : Nat),
    off + t.length ≤ e.length → (∀ i : Nat, i < t.length → peek e (off + i) = t.getD i 0) →
    e.drop off = t ++ e.drop (off + t.length) := by
  induction t with
  | nil => intro e off _ _; simp
  | cons a t ih =>
    intro e off hlen h
    simp only [List.length_cons] at hlen
    have hoff : off < e.length := by omega
    have h0 := h 0 (by simp)
    simp only [Nat.add_zero, List.getD_cons_zero] at h0
    have hget : e[off] = a := by
      rw [← h0]; unfold peek; rw [List.getD_eq_getElem _ _ hoff]
    have hrec := ih e (off + 1) (by omega) (by
      intro i hi
      have := h (i + 1) (by simp; omega)
      rw [List.getD_cons_succ] at this
      rw [← this]
      congr 1
      omega)
    have hidx : off + (t.length + 1) = off + 1 + t.length := by omega
    rw [List.drop_eq_getElem_cons hoff, hget, hrec, List.cons_append, List.length_cons, hidx]

/-- The string at `off` is the same in two arrays that agree from `off` up to and
including its terminator. -/
theorem cstrAt_of_agree (d e : List Int) (off : Nat) (s : List Int)
    (h : cstrAt d off = some s) (hlen : off + s.length < e.length)
    (hag : ∀ i : Nat, i ≤ s.length → peek e (off + i) = peek d (off + i)) :
    cstrAt e off = some s := by
  obtain ⟨hnz, rest, hrest⟩ := (cstrAt_eq_some_iff d off s).mp h
  rw [cstrAt_eq_some_iff]
  refine ⟨hnz, e.drop (off + (s ++ [0]).length), ?_⟩
  have := drop_eq_of_prefix (s ++ [0]) e off
    (by simp only [List.length_append, List.length_singleton]; omega)
    (by
      intro i hi
      simp only [List.length_append, List.length_singleton] at hi
      rw [hag i (by omega), peek_drop, hrest]
      rw [List.getD_eq_getElem?_getD, List.getD_eq_getElem?_getD]
      by_cases hi2 : i < s.length
      · rw [List.getElem?_append_left hi2, List.getElem?_append_left hi2]
      · have hi3 : i = s.length := by omega
        subst hi3
        rw [List.getElem?_append_right (Nat.le_refl _),
          List.getElem?_append_right (Nat.le_refl _)]
        simp)
  rw [this]
  simp

theorem cstrAt_terminator (d : List Int) (off : Nat) (s : List Int)
    (h : cstrAt d off = some s) : peek d (off + s.length) = 0 := by
  obtain ⟨-, rest, hrest⟩ := (cstrAt_eq_some_iff d off s).mp h
  rw [peek_drop, hrest, List.getD_eq_getElem?_getD,
    List.getElem?_append_right (Nat.le_refl _)]
  simp

theorem httpDispatch_shape (gl http g1 h1 : TDATA)
    (h : main_httpDispatch gl http = some (g1, h1)) :
    h1.status = T_RUNNING ∧ h1.data = copyPrefix 255 http.data g1.data
      ∧ g1.status = gl.status ∧ main_httpSwitch gl.data http.data = some g1.data := by
  unfold main_httpDispatch at h
  obtain ⟨g, hg, hg2⟩ := Option.map_eq_some'.mp h
  injection hg2 with e1 e2
  subst e1
  subst e2
  refine ⟨?_, ?_, ?_, ?_⟩
  · dsimp only
  · dsimp only
  · dsimp only
  · dsimp only
    exact hg

theorem httpSwitch_length (gl hd g : List Int) (h : main_httpSwitch gl hd = some g) :
    g.length = gl.length := by
  unfold main_httpSwitch at h
  dsimp only at h
  split at h
  · injection h with h; rw [← h]
  · split at h
    · injection h with h; rw [← h, List.length_set]
    · split at h
      · injection h with h; rw [← h, length_writeInt32]
      · split at h
        · obtain ⟨s, -, hs⟩ := Option.bind_eq_some.mp h
          unfold sprintf_s at hs
          split at hs
          · injection hs with hs; rw [← hs, length_writeBytes]
          · exact absurd hs (by simp)
        · rw [pokeChecked_eq_some _ _ _ _ h, List.length_set]

/-- The web commands on which the coordinator's dispatch is defined: the sentinel, an
opcode in `0..127` other than `D_VENUENAME` (slot ids, `D_FLAGS`, `D_DOWNBEAT`, and the bytes
the `default` case takes as index), and `D_VENUENAME` with a terminated name of at most
247 bytes at `data + 1`. -/
theorem httpDispatch_defined (gl http : TDATA) (hgl : gl.data.length = 256)
    (hcmd : peek http.data 0 = -1
      ∨ (0 ≤ peek http.data 0 ∧ peek http.data 0 ≤ 127 ∧ peek http.data 0 ≠ 8)
      ∨ (peek http.data 0 = 8 ∧ ∃ s, cstrAt http.data 1 = some s ∧ s.length ≤ 247)) :
    ∃ g1 h1, main_httpDispatch gl http = some (g1, h1) := by
  rcases hcmd with h0 | ⟨hlo, hhi, h8⟩ | ⟨h8, s, hs, hlen⟩
  · exact ⟨_, _, http_sentinel_dispatch gl http h0⟩
  · by_cases h3 : peek http.data 0 = 3
    · exact ⟨_, _, http_flags_dispatch gl http h3⟩
    · by_cases h4 : peek http.data 0 = 4
      · refine ⟨{ gl with data := writeInt32 gl.data D_DOWNBEAT (readInt32 http.data 4) },
          { status := T_RUNNING,
            data := copyPrefix 255 http.data
              (writeInt32 gl.data D_DOWNBEAT (readInt32 http.data 4)) }, ?_⟩
        unfold main_httpDispatch main_httpSwitch
        simp [h4, D_FLAGS, D_DOWNBEAT]
      · exact ⟨_, _, http_default_dispatch gl http hgl hlo (by omega) h3 h4 h8⟩
  · have hw := (venue_write_frame gl.data s hgl (cstrAt_nonzero _ 1 s hs) hlen).1
    refine ⟨{ gl with data := writeBytes gl.data D_VENUENAME (s ++ [0]) },
      { status := T_RUNNING,
        data := copyPrefix 255 http.data (writeBytes gl.data D_VENUENAME (s ++ [0])) }, ?_⟩
    unfold main_httpDispatch main_httpSwitch
    simp [h8, D_FLAGS, D_DOWNBEAT, D_VENUENAME, hs]
    simp only [D_VENUENAME] at hw
    simp [hw]

/-- The snapshot written by the web dispatch, read as a response document. -/
theorem snapshot_response (g hd : List Int) (hg : g.length = 256) (hhd : hd.length = 256) :
    (∀ i : Nat, i < 255 → peek (copyPrefix 255 hd g) i = peek g i)
      ∧ (DoReceiveRequests_response (copyPrefix 255 hd g)).red = colorSlot g 1
      ∧ (DoReceiveRequests_response (copyPrefix 255 hd g)).green = colorSlot g 2
      ∧ (DoReceiveRequests_response (copyPrefix 255 hd g)).blue = colorSlot g 3
      ∧ (DoReceiveRequests_response (copyPrefix 255 hd g)).slideshow
          = decide (readFlags (behaviorFlags g) F_SLIDESHOW_MODE ≠ 0)
      ∧ (DoReceiveRequests_response (copyPrefix 255 hd g)).autostart
          = decide (readFlags (behaviorFlags g) F_AUTOSTART ≠ 0)
      ∧ (DoReceiveRequests_response (copyPrefix 255 hd g)).baselight
          = decide (readFlags (behaviorFlags g) F_BASELIGHT ≠ 0)
      ∧ (DoReceiveRequests_response (copyPrefix 255 hd g)).metaposts
          = decide (readFlags (behaviorFlags g) F_METAPOSTS ≠ 0)
      ∧ (DoReceiveRequests_response (copyPrefix 255 hd g)).downbeat = downbeatMinutes g
      ∧ (∀ name : List Int, venueName g = some name →
          (name.length ≤ 246 ∨ peek hd 255 = 0) →
          (DoReceiveRequests_response (copyPrefix 255 hd g)).name = some name) := by
  have hb : ∀ i : Nat, i < 255 → peek (copyPrefix 255 hd g) i = peek g i :=
    fun i hi => snapshot_bytes hd g hhd i hi
  have h255 : peek (copyPrefix 255 hd g) 255 = peek hd 255 := by
    rw [peek_copyPrefix _ _ _ (by omega), if_neg (by omega)]
  refine ⟨hb, ?_, ?_, ?_, ?_, ?_, ?_, ?_, ?_, ?_⟩
  · unfold DoReceiveRequests_response colorSlot D_COLOR1
    dsimp only
    rw [hb 0 (by omega)]
  · unfold DoReceiveRequests_response colorSlot D_COLOR2
    dsimp only
    rw [hb 1 (by omega)]
  · unfold DoReceiveRequests_response colorSlot D_COLOR3
    dsimp only
    rw [hb 2 (by omega)]
  · unfold DoReceiveRequests_response behaviorFlags D_FLAGS
    dsimp only
    rw [hb 3 (by omega)]
  · unfold DoReceiveRequests_response behaviorFlags D_FLAGS
    dsimp only
    rw [hb 3 (by omega)]
  · unfold DoReceiveRequests_response behaviorFlags D_FLAGS
    dsimp only
    rw [hb 3 (by omega)]
  · unfold DoReceiveRequests_response behaviorFlags D_FLAGS
    dsimp only
    rw [hb 3 (by omega)]
  · unfold DoReceiveRequests_response downbeatMinutes readInt32 D_DOWNBEAT
    dsimp only
    rw [hb 4 (by omega), hb 5 (by omega), hb 6 (by omega), hb 7 (by omega)]
  · intro name hname hcond
    unfold venueName D_VENUENAME at hname
    have hlt := cstrAt_length_lt g 8 name hname
    have hterm := cstrAt_terminator g 8 name hname
    unfold DoReceiveRequests_response D_VENUENAME
    dsimp only
    apply cstrAt_of_agree g _ 8 name hname (by rw [length_copyPrefix]; omega)
    intro i hi
    by_cases hlt255 : 8 + i < 255
    · exact hb _ hlt255
    · have hi247 : i = 247 := by omega
      have hn247 : name.length = 247 := by omega
      have hz : peek hd 255 = 0 := by
        rcases hcond with h | h
        · omega
        · exact h
      subst hi247
      rw [hn247] at hterm
      rw [h255, hz, hterm]

/-- C11. Snapshot and release for the web peer. For every render state and every
command in the web control block with status Waiting (the sentinel, an opcode in
`0..127`, or `D_VENUENAME` with a terminated name of at most 247 bytes), the coordinator's
dispatch returns, the web peer's status is Running and payload bytes `0..254` equal
bytes `0..254` of the render state as it is after the command was applied; the three
colour indices, the four flags and the downbeat that the response document reads from
the payload are those of that render state, and so is the venue name (for a name of the
full 247 bytes: when payload byte 255, which the snapshot loop does not write, is the
NUL it was allocated with). -/
theorem C11_web_snapshot_release (gl http cli : TDATA)
    (hgl : gl.data.length = 256) (hhttp : http.data.length = 256)
    (hw : http.status = T_WAITING) (hc : cli.status ≠ T_WAITING)
    (hcmd : peek http.data 0 = -1
      ∨ (0 ≤ peek http.data 0 ∧ peek http.data 0 ≤ 127 ∧ peek http.data 0 ≠ 8)
      ∨ (peek http.data 0 = 8 ∧ ∃ s, cstrAt http.data 1 = some s ∧ s.length ≤ 247)) :
    ∃ g1 h1, main_httpDispatch gl http = some (g1, h1)
      ∧ main_loopBody { gl := gl, http := http, cli := cli }
          = some { gl := g1, http := h1, cli := cli }
      ∧ h1.status = T_RUNNING
      ∧ (∀ i : Nat, i < 255 → peek h1.data i = peek g1.data i)
      ∧ (DoReceiveRequests_response h1.data).red = colorSlot g1.data 1
      ∧ (DoReceiveRequests_response h1.data).green = colorSlot g1.data 2
      ∧ (DoReceiveRequests_response h1.data).blue = colorSlot g1.data 3
      ∧ (DoReceiveRequests_response h1.data).slideshow
          = decide (readFlags (behaviorFlags g1.data) F_SLIDESHOW_MODE ≠ 0)
      ∧ (DoReceiveRequests_response h1.data).autostart
          = decide (readFlags (behaviorFlags g1.data) F_AUTOSTART ≠ 0)
      ∧ (DoReceiveRequests_response h1.data).baselight
          = decide (readFlags (behaviorFlags g1.data) F_BASELIGHT ≠ 0)
      ∧ (DoReceiveRequests_response h1.data).metaposts
          = decide (readFlags (behaviorFlags g1.data) F_METAPOSTS ≠ 0)
      ∧ (DoReceiveRequests_response h1.data).downbeat = downbeatMinutes g1.data
      ∧ (∀ name : List Int, venueName g1.data = some name →
          (name.length ≤ 246 ∨ peek http.data 255 = 0) →
          (DoReceiveRequests_response h1.data).name = some name) := by
  obtain ⟨g1, h1, hd⟩ := httpDispatch_defined gl http hgl hcmd
  obtain ⟨hst, hdata, -, hsw⟩ := httpDispatch_shape gl http g1 h1 hd
  have hg1 : g1.data.length = 256 := by
    rw [httpSwitch_length _ _ _ hsw, hgl]
  have hloop : main_loopBody { gl := gl, http := http, cli := cli }
      = some { gl := g1, http := h1, cli := cli } := by
    unfold main_loopBody
    simp [hw, hd, hc]
  refine ⟨g1, h1, hd, hloop, hst, ?_⟩
  rw [hdata]
  exact snapshot_response g1.data http.data hg1 hhttp

/-- C11 at the web block of `bothWaiting` (SetColorSlot(2, Green)), console idle. -/
theorem C11_web_snapshot_release_witness :
    zeroBlock.data.length = 256 ∧ bothWaiting.http.data.length = 256
      ∧ bothWaiting.http.status = T_WAITING ∧ zeroBlock.status ≠ T_WAITING
      ∧ ∃ g1 h1, main_httpDispatch zeroBlock bothWaiting.http = some (g1, h1)
          ∧ h1.status = T_RUNNING
          ∧ (DoReceiveRequests_response h1.data).green = colorSlot g1.data 2 := by
  have hlen : bothWaiting.http.data.length = 256 :=
    (List.length_set _ _ _).trans ((List.length_set _ _ _).trans zeroBlock_length)
  have hp : peek bothWaiting.http.data 0 = 1 :=
    (peek_set_ne _ _ _ _ (by omega)).trans (peek_set_self _ _ _ (by rw [zeroBlock_length]; omega))
  obtain ⟨g1, h1, hd, -, hst, -, -, hgreen, -⟩ :=
    C11_web_snapshot_release zeroBlock bothWaiting.http zeroBlock zeroBlock_length hlen rfl
      (by decide) (Or.inr (Or.inl (by rw [hp]; decide)))
  exact ⟨zeroBlock_length, hlen, rfl, by decide, g1, h1, hd, hst, hgreen⟩

/-! ## The console thread: claims C12 and C20 -/

set_option maxRecDepth 100000 in
/-- C12, the code at the failing input: the console lines `COLOR 1 RED` and
`COLOR 2 BLUE`, typed before the coordinator's next poll. After the first line the
`COLOR` branch has set the status to Waiting and stands at `std::cin >> command` again
(it has no wait loop); the second line then rewrites payload bytes 1 and 2 while the
status is still Waiting, and the coordinator afterwards applies only the second
command. The `SLIDESHOW` branch, in contrast, stays in its wait loop. -/
theorem C12_color_submits_without_waiting :
    (CLImain_run 2 { status := T_RUNNING, data := zeroBlock.data }
        { pc := CliPc.read, command := [],
          input := [67, 79, 76, 79, 82, 32, 49, 32, 82, 69, 68, 10,
                    67, 79, 76, 79, 82, 32, 50, 32, 66, 76, 85, 69, 10] }).map
        (fun p => (p.1.status, peek p.1.data 0, peek p.1.data 1, peek p.1.data 2, p.2.pc))
      = some (T_WAITING, 99, 0, 1, CliPc.read)
    ∧ (CLImain_run 4 { status := T_RUNNING, data := zeroBlock.data }
        { pc := CliPc.read, command := [],
          input := [67, 79, 76, 79, 82, 32, 49, 32, 82, 69, 68, 10,
                    67, 79, 76, 79, 82, 32, 50, 32, 66, 76, 85, 69, 10] }).map
        (fun p => (p.1.status, peek p.1.data 0, peek p.1.data 1, peek p.1.data 2, p.2.pc))
      = some (T_WAITING, 99, 1, 3, CliPc.read)
    ∧ ((CLImain_run 4 { status := T_RUNNING, data := zeroBlock.data }
        { pc := CliPc.read, command := [],
          input := [67, 79, 76, 79, 82, 32, 49, 32, 82, 69, 68, 10,
                    67, 79, 76, 79, 82, 32, 50, 32, 66, 76, 85, 69, 10] }).bind
        (fun p => main_cliDispatch zeroBlock p.1)).map
        (fun r => (colorSlot r.1.data 1, colorSlot r.1.data 2))
      = some (0, 3)
    ∧ (CLImain_run 6 { status := T_RUNNING, data := zeroBlock.data }
        { pc := CliPc.read, command := [],
          input := [83, 76, 73, 68, 69, 83, 72, 79, 87, 10, 66, 65, 78, 78, 69, 82, 10] }).map
        (fun p => (p.1.status, peek p.1.data 0, peek p.1.data 1, p.2.pc))
      = some (T_WAITING, 115, 1, CliPc.spin) := by
  refine ⟨?_, ?_, ?_, ?_⟩ <;> decide

set_option maxRecDepth 100000 in
/-- C20, the code at the failing input: the console line `DOWNBEAT BANNER`. The argument
has six characters, the handler prints the usage message and runs `continue`, which
goes back to the `while` condition with `command` holding the argument: the argument is
dispatched as the verb `BANNER`, a SetMode command is submitted, and its dispatch clears
SlideshowMode in a render state that had it set. With the line `DOWNBEAT EXIT` the
console thread stops. -/
theorem C20_downbeat_argument_redispatched :
    (CLImain_run 3 { status := T_RUNNING, data := zeroBlock.data }
        { pc := CliPc.read, command := [],
          input := [68, 79, 87, 78, 66, 69, 65, 84, 32, 66, 65, 78, 78, 69, 82, 10] }).map
        (fun p => (p.1.status, peek p.1.data 0, peek p.1.data 1, p.2.pc))
      = some (T_WAITING, 115, 0, CliPc.spin)
    ∧ behaviorFlags (zeroBlock.data.set D_FLAGS F_SLIDESHOW_MODE) = 1
    ∧ ((CLImain_run 3 { status := T_RUNNING, data := zeroBlock.data }
        { pc := CliPc.read, command := [],
          input := [68, 79, 87, 78, 66, 69, 65, 84, 32, 66, 65, 78, 78, 69, 82, 10] }).bind
        (fun p => main_cliDispatch
          { status := T_RUNNING, data := zeroBlock.data.set D_FLAGS F_SLIDESHOW_MODE } p.1)).map
        (fun r => behaviorFlags r.1.data)
      = some 0
    ∧ (CLImain_run 3 { status := T_RUNNING, data := zeroBlock.data }
        { pc := CliPc.read, command := [],
          input := [68, 79, 87, 78, 66, 69, 65, 84, 32, 69, 88, 73, 84, 10] }).map
        (fun p => (p.1.status, p.2.pc))
      = some (T_STOPPED, CliPc.stopped) := by
  refine ⟨?_, ?_, ?_, ?_⟩ <;> decide

set_option maxRecDepth 100000 in
/-- C21: the console input `COLOR 5 BANNER` (slot character `5`, not 1, 2 or 3). The
handler of `COLOR` prints the slot error and leaves the name token unread; the loop reads
`BANNER` as the next command and submits `'s'` with argument 0: after four steps of the
console thread the block is `T_WAITING` with that command, and its dispatch clears
SlideshowMode in a render state that had it set. -/
theorem C21_invalid_slot_name_token_runs :
    CLImain_run 4 { status := T_RUNNING, data := zeroBlock.data }
        { pc := CliPc.read, command := [],
          input := [67, 79, 76, 79, 82, 32, 53, 32, 66, 65, 78, 78, 69, 82, 10] }
      = some ({ status := T_WAITING, data := (zeroBlock.data.set 0 115).set 1 0 },
          { pc := CliPc.spin, command := [66, 65, 78, 78, 69, 82], input := [10] })
    ∧ main_cliDispatch { status := T_RUNNING, data := zeroBlock.data.set D_FLAGS 1 }
        { status := T_WAITING, data := (zeroBlock.data.set 0 115).set 1 0 }
      = some ({ status := T_RUNNING, data := zeroBlock.data.set D_FLAGS 0 },
          { status := T_RUNNING, data := (zeroBlock.data.set 0 115).set 1 0 })
    ∧ behaviorFlags (zeroBlock.data.set D_FLAGS 1) = 1
    ∧ behaviorFlags (zeroBlock.data.set D_FLAGS 0) = 0 := by
  decide

/-! ## The console command `VENUE` -/

theorem readLine_append (s rest : List Int) (hs : ∀ x ∈ s, x ≠ 10) :
    readLine (s ++ 10 :: rest) = some (s, rest) := by
  unfold readLine
  rw [if_pos (by simp)]
  induction s with
  | nil => simp [List.takeWhile, List.dropWhile]
  | cons a s ih =>
    have ha : a ≠ 10 := hs a (List.mem_cons_self _ _)
    have ih2 := ih (fun x hx => hs x (List.mem_cons_of_mem _ hx))
    simp only [Option.some.injEq, Prod.mk.injEq] at ih2
    have hb : (a != 10) = true := by simpa using ha
    rw [List.cons_append, List.takeWhile_cons, List.dropWhile_cons, hb]
    simp only [if_true, Option.some.injEq, Prod.mk.injEq, List.cons.injEq, true_and]
    exact ih2

theorem readToken_venue (rest : List Int) :
    readToken ([86, 69, 78, 85, 69, 32] ++ rest) = some ([86, 69, 78, 85, 69], 32 :: rest) := by
  simp [readToken, List.dropWhile, List.takeWhile, isSpace]

theorem verbChain_venue : verbChain [86, 69, 78, 85, 69] verbTests 0 = some 3 := by decide

theorem CLImain_venue_plain (td : TDATA) (T : List Int) (hlen : T.length ≤ 247)
    (hp : ∀ x ∈ T, x ≠ 37) :
    CLImain_venue td (32 :: T)
      = some (CliOutcome.submit
          { status := T_WAITING, data := (writeBytes td.data 1 (T ++ [0])).set 0 118 } []) := by
  unfold CLImain_venue
  rw [if_neg (by simp), List.tail_cons, formatNoArgs_of_no_percent T hp]
  unfold sprintf_s
  rw [Option.some_bind, if_pos (by unfold D_NAMESIZE; omega)]
  rfl

theorem cli_venue_steps (cli : TDATA) (cmd T : List Int) (hlen : T.length ≤ 247)
    (hchars : ∀ x ∈ T, x ≠ 0 ∧ x ≠ 37 ∧ x ≠ 10) :
    CLImain_run 2 cli
        { pc := CliPc.read, command := cmd, input := [86, 69, 78, 85, 69, 32] ++ T ++ [10] }
      = some ({ status := T_WAITING, data := (writeBytes cli.data 1 (T ++ [0])).set 0 118 },
          { pc := CliPc.spin, command := [86, 69, 78, 85, 69], input := [] }) := by
  have h1 : CLImain_step cli
        { pc := CliPc.read, command := cmd, input := [86, 69, 78, 85, 69, 32] ++ T ++ [10] }
      = some (cli,
          { pc := CliPc.test, command := [86, 69, 78, 85, 69], input := 32 :: (T ++ [10]) }) := by
    unfold CLImain_step
    dsimp only
    rw [List.append_assoc, readToken_venue]
    dsimp only
    rw [if_neg (by decide)]
  have h2 : CLImain_step cli
        { pc := CliPc.test, command := [86, 69, 78, 85, 69], input := 32 :: (T ++ [10]) }
      = some ({ status := T_WAITING, data := (writeBytes cli.data 1 (T ++ [0])).set 0 118 },
          { pc := CliPc.spin, command := [86, 69, 78, 85, 69], input := [] }) := by
    unfold CLImain_step
    dsimp only
    unfold CLImain_dispatch
    dsimp only
    rw [verbChain_venue]
    dsimp only
    have hl : readLine (32 :: (T ++ [10])) = some (32 :: T, []) := by
      have := readLine_append (32 :: T) [] (by
        intro x hx
        rcases List.mem_cons.mp hx with h | h
        · rw [h]; decide
        · exact (hchars x h).2.2)
      simpa using this
    rw [hl]
    dsimp only
    rw [CLImain_venue_plain cli T hlen (fun x hx => (hchars x hx).2.1)]
  unfold CLImain_run
  rw [h1, Option.some_bind]
  unfold CLImain_run
  rw [h2, Option.some_bind]
  rfl

/-- C22: the console line `VENUE`, one space, `T`, newline - with `T` a name of at most
247 bytes (empty or not) that holds no `%`, no newline and no NUL. The console thread reads the
verb and the line and submits `'v'` with `T` (two steps, the line is consumed); the
dispatch of that command completes, releases the peer and leaves `venueName = T`, every
other field of the render state as before: `Forum` is stored as `Forum`. -/
theorem C22_console_venue_stores_name (gl cli : TDATA) (cmd T : List Int)
    (hgl : gl.data.length = 256) (hcli : cli.data.length = 256)
    (hlen : T.length ≤ 247) (hchars : ∀ x ∈ T, x ≠ 0 ∧ x ≠ 37 ∧ x ≠ 10) :
    ∃ td t g c2,
      CLImain_run 2 cli
          { pc := CliPc.read, command := cmd, input := [86, 69, 78, 85, 69, 32] ++ T ++ [10] }
        = some (td, t)
      ∧ td.status = T_WAITING ∧ t.pc = CliPc.spin ∧ t.input = []
      ∧ main_cliDispatch gl td = some (g, c2)
      ∧ c2.status = T_RUNNING
      ∧ venueName g.data = some T
      ∧ (∀ f : Field, f ≠ Field.venue → fieldOf f g.data = fieldOf f gl.data) := by
  have hnz : ∀ x ∈ T, x ≠ 0 := fun x hx => (hchars x hx).1
  have hpc : ∀ x ∈ T, x ≠ 37 := fun x hx => (hchars x hx).2.1
  have hw : (writeBytes cli.data 1 (T ++ [0])).length = 256 := by
    rw [length_writeBytes]; exact hcli
  obtain ⟨g0, hg0, hg1, hg2⟩ := cstrAt_sprintf_s cli.data 1 D_NAMESIZE T hnz
    (by unfold D_NAMESIZE; omega) (by rw [hcli]; decide)
  have hfmt : cstrAt ((writeBytes cli.data 1 (T ++ [0])).set 0 118) 1 = some T := by
    rw [cstrAt_set_lt _ 1 0 _ (by decide), ← hg1]
    exact hg2
  have hdisp := cli_venue_dispatch gl ((writeBytes cli.data 1 (T ++ [0])).set 0 118) T T hgl
    (peek_set_self _ 0 118 (by rw [hw]; decide)) hfmt (formatNoArgs_of_no_percent T hpc) hnz hlen
  refine ⟨_, _, _, _, cli_venue_steps cli cmd T hlen hchars, rfl, rfl, rfl, hdisp, rfl, ?_, ?_⟩
  · exact (venue_write_frame gl.data T hgl hnz hlen).2.1
  · intro f hf
    exact fieldOf_writeBytes gl.data _ f hf

set_option maxRecDepth 100000 in
theorem C22_console_venue_stores_name_witness :
    ([70, 111, 114, 117, 109] : List Int).length ≤ 247
    ∧ (∀ x ∈ ([70, 111, 114, 117, 109] : List Int), x ≠ 0 ∧ x ≠ 37 ∧ x ≠ 10)
    ∧ ∃ td t g c2,
      CLImain_run 2 zeroBlock
          { pc := CliPc.read, command := [],
            input := [86, 69, 78, 85, 69, 32] ++ [70, 111, 114, 117, 109] ++ [10] }
        = some (td, t)
      ∧ td.status = T_WAITING ∧ t.pc = CliPc.spin ∧ t.input = []
      ∧ main_cliDispatch zeroBlock td = some (g, c2)
      ∧ c2.status = T_RUNNING
      ∧ venueName g.data = some [70, 111, 114, 117, 109]
      ∧ (∀ f : Field, f ≠ Field.venue → fieldOf f g.data = fieldOf f zeroBlock.data) :=
  ⟨by decide, by decide,
   C22_console_venue_stores_name zeroBlock zeroBlock [] [70, 111, 114, 117, 109]
     zeroBlock_length zeroBlock_length (by decide) (by decide)⟩

set_option maxRecDepth 100000 in
/-- C23: the query `?vA%2FB`. Decoding as the specification words it gives `A/B`
(`%2F` is the byte 47); the web adapter stores `A6B`: the test of the first hexadecimal
digit is `x >= '0' || x <= '9'`, true of every character, so `F` is taken as
`'F' - '0' = 22` and `%2F` becomes `2 * 16 + 22 = 54`, the character `6`. The dispatch of
the submitted command stores that name in the render state. -/
theorem C23_percent_2F_decodes_to_6 :
    percentDecodedSpec 0 [65, 37, 50, 70, 66] = [65, 47, 66]
    ∧ DoReceiveRequests_query zeroBlock (some [63, 118, 65, 37, 50, 70, 66])
      = some { status := T_WAITING,
               data := writeBytes (zeroBlock.data.set 0 8) 1 [65, 54, 66, 0] }
    ∧ cstrAt (writeBytes (zeroBlock.data.set 0 8) 1 [65, 54, 66, 0]) 1 = some [65, 54, 66]
    ∧ (main_httpDispatch zeroBlock
        { status := T_WAITING,
          data := writeBytes (zeroBlock.data.set 0 8) 1 [65, 54, 66, 0] }).map
        (fun p => venueName p.1.data) = some (some [65, 54, 66])
    ∧ hexHigh 70 = 22 * 16 ∧ hexLow 70 = 22 ∧ hexval 70 = some 15 := by
  decide

/-! ## The venue loop of the web adapter -/

theorem wget_of_le (q : List Nat) (k : Nat) (h : k ≤ q.length) : wget q k = some (q.getD k 0) := by
  unfold wget
  rw [if_pos h]

theorem getD_ne_zero_iff (q : List Nat) (hq : ∀ x ∈ q, x ≠ 0) (k : Nat) :
    q.getD k 0 ≠ 0 ↔ k < q.length := by
  constructor
  · intro h
    by_contra hlt
    exact h (List.getD_eq_default _ _ (by omega))
  · intro h
    rw [List.getD_eq_getElem _ _ h]
    exact hq _ (List.getElem_mem _)

theorem drop_eq_getD_cons (q : List Nat) (k : Nat) (h : k < q.length) :
    q.drop k = q.getD k 0 :: q.drop (k + 1) := by
  rw [List.getD_eq_getElem _ _ h]
  exact List.drop_eq_getElem_cons h

/-- The loop condition fails: the previous character is the terminator, or `c` has
reached `D_NAMESIZE`. -/
theorem venueLoop_stop (q : List Nat) (fuel c i : Nat) (data : List Int)
    (hc1 : 1 ≤ c) (hc : c ≤ q.length + 1) (hstop : c = q.length + 1 ∨ 248 ≤ c) :
    venueLoop q (fuel + 1) c i data = some data := by
  rw [venueLoop, wget_of_le q (c - 1) (by omega), Option.some_bind, if_neg]
  intro ⟨h1, h2⟩
  rcases hstop with h | h
  · exact h1 (List.getD_eq_default _ _ (by omega))
  · unfold D_NAMESIZE at h2; omega

/-- One pass through the body of the loop. -/
theorem venueLoop_step (q : List Nat) (hq : ∀ x ∈ q, x ≠ 0) (fuel c i : Nat) (data : List Int)
    (hc1 : 1 ≤ c) (hc : c ≤ q.length) (h248 : c < 248) :
    venueLoop q (fuel + 1) c i data
      = if q.getD c 0 = 37 ∧ c + 2 < q.length then
          venueLoop q fuel (c + 3) (i + 1)
            (data.set i (toChar (toChar (0 + hexHigh (q.getD (c + 1) 0)) + hexLow (q.getD (c + 2) 0))))
        else venueLoop q fuel (c + 1) (i + 1) (data.set i (toChar ((q.getD c 0 : Nat) : Int))) := by
  have hprev : q.getD (c - 1) 0 ≠ 0 := (getD_ne_zero_iff q hq _).mpr (by omega)
  rw [venueLoop, wget_of_le q (c - 1) (by omega), Option.some_bind,
    if_pos ⟨hprev, by unfold D_NAMESIZE; exact h248⟩, wget_of_le q c (by omega), Option.some_bind]
  unfold escapeAt
  by_cases h37 : q.getD c 0 = 37
  · have hcl : c < q.length := (getD_ne_zero_iff q hq c).mp (by rw [h37]; decide)
    rw [if_pos h37, wget_of_le q (c + 1) (by omega), Option.some_bind]
    by_cases h1 : c + 1 < q.length
    · rw [if_pos ((getD_ne_zero_iff q hq _).mpr h1), wget_of_le q (c + 2) (by omega),
        Option.map_some']
      by_cases h2 : c + 2 < q.length
      · rw [if_pos ((getD_ne_zero_iff q hq _).mpr h2), Option.some_bind,
          if_pos ⟨h37, h2⟩]
        dsimp only
        rw [List.set_set]
      · have h0 : q.getD (c + 2) 0 = 0 := List.getD_eq_default _ _ (by omega)
        rw [if_neg (by rw [h0]; simp), Option.some_bind, if_neg (fun hx => h2 hx.2)]
    · have h0 : q.getD (c + 1) 0 = 0 := List.getD_eq_default _ _ (by omega)
      rw [if_neg (by rw [h0]; simp), Option.some_bind, if_neg (fun hx => h1 (by omega))]
  · rw [if_neg h37, Option.some_bind, if_neg (fun hx => h37 hx.1)]

/-- The loop returns for every query, whatever its length, and stores only at the
indices from `i` up to 246. -/
theorem venueLoop_frame (q : List Nat) (hq : ∀ x ∈ q, x ≠ 0) :
    ∀ (fuel c i : Nat) (data : List Int), 1 ≤ c → c ≤ q.length + 1 → 248 - c < fuel →
      i + 1 ≤ c →
      ∃ r, venueLoop q fuel c i data = some r ∧ r.length = data.length
        ∧ ∀ j : Nat, (j < i ∨ 247 ≤ j) → peek r j = peek data j := by
  intro fuel
  induction fuel with
  | zero => intro c i data _ _ h; omega
  | succ f ih =>
    intro c i data hc1 hc hfuel hi
    by_cases hstop : c = q.length + 1 ∨ 248 ≤ c
    · exact ⟨data, venueLoop_stop q f c i data hc1 hc hstop, rfl, fun _ _ => rfl⟩
    · have hcl : c ≤ q.length := by omega
      have h248 : c < 248 := by omega
      rw [venueLoop_step q hq f c i data hc1 hcl h248]
      split
      · rename_i hesc
        obtain ⟨r, hr, hlen, hfr⟩ := ih (c + 3) (i + 1)
          (data.set i (toChar (toChar (0 + hexHigh (q.getD (c + 1) 0)) + hexLow (q.getD (c + 2) 0))))
          (by omega) (by omega) (by omega) (by omega)
        refine ⟨r, hr, by rw [hlen, List.length_set], ?_⟩
        intro j hj
        rw [hfr j (by omega), peek_set_ne _ _ _ _ (by omega)]
      · obtain ⟨r, hr, hlen, hfr⟩ := ih (c + 1) (i + 1)
          (data.set i (toChar ((q.getD c 0 : Nat) : Int)))
          (by omega) (by omega) (by omega) (by omega)
        refine ⟨r, hr, by rw [hlen, List.length_set], ?_⟩
        intro j hj
        rw [hfr j (by omega), peek_set_ne _ _ _ _ (by omega)]

theorem venueDecoded_escape (q1 q2 : Nat) (rest : List Nat) :
    venueDecoded 0 (37 :: q1 :: q2 :: rest)
      = toChar (toChar (0 + hexHigh q1) + hexLow q2) :: venueDecoded 0 rest := by
  simp [venueDecoded]

theorem venueDecoded_literal (qc : Nat) (rest : List Nat) (h : qc ≠ 37 ∨ rest.length < 2) :
    venueDecoded 0 (qc :: rest) = toChar ((qc : Nat) : Int) :: venueDecoded 0 rest := by
  match rest, h with
  | [], _ => simp [venueDecoded]
  | [_], _ => simp [venueDecoded]
  | _ :: _ :: _, h =>
    have h37 : qc ≠ 37 := by
      rcases h with h | h
      · exact h
      · simp only [List.length_cons] at h
        omega
    simp [venueDecoded, h37]

theorem venueDecoded_skip2 (q1 q2 : Nat) (rest : List Nat) :
    venueDecoded 2 (q1 :: q2 :: rest) = venueDecoded 0 rest := by
  simp [venueDecoded]

theorem venueDecoded_length : ∀ (l : List Nat) (k : Nat), (venueDecoded k l).length ≤ l.length := by
  intro l
  induction l with
  | nil => intro k; simp [venueDecoded]
  | cons a l ih =>
    intro k
    cases k with
    | succ k =>
      have : venueDecoded (k + 1) (a :: l) = venueDecoded k l := by simp [venueDecoded]
      rw [this]
      have := ih k
      simp only [List.length_cons]
      omega
    | zero =>
      by_cases hesc : a = 37 ∧ 2 ≤ l.length
      · match l, hesc.2, ih with
        | q1 :: q2 :: rest, _, ih =>
          rw [hesc.1, venueDecoded_escape, ← venueDecoded_skip2 q1 q2 rest]
          have := ih 2
          simp only [List.length_cons] at this ⊢
          omega
      · rw [venueDecoded_literal a l (by
          by_cases h37 : a = 37
          · right
            have : ¬ (2 ≤ l.length) := fun hx => hesc ⟨h37, hx⟩
            omega
          · left; exact h37)]
        have := ih 0
        simp only [List.length_cons]
        omega

/-- The bytes the loop stores for a query shorter than `D_NAMESIZE`: the decoded text and
the terminator. -/
theorem venueLoop_decoded (q : List Nat) (hq : ∀ x ∈ q, x ≠ 0) (hlen : q.length < 248) :
    ∀ (fuel c i : Nat) (data : List Int), 1 ≤ c → c ≤ q.length → q.length + 1 - c < fuel →
      venueLoop q fuel c i data
        = some (writeBytes data i (venueDecoded 0 (q.drop c) ++ [0])) := by
  intro fuel
  induction fuel with
  | zero => intro c i data _ _ h; omega
  | succ f ih =>
    intro c i data hc1 hc hfuel
    rw [venueLoop_step q hq f c i data hc1 hc (by omega)]
    by_cases hcl : c = q.length
    · have h0 : q.getD c 0 = 0 := List.getD_eq_default _ _ (by omega)
      rw [if_neg (by rw [h0]; simp), h0]
      obtain ⟨f1, hf1⟩ : ∃ f1, f = f1 + 1 := ⟨f - 1, by omega⟩
      rw [hf1, venueLoop_stop q f1 (c + 1) (i + 1) _ (by omega) (by omega) (Or.inl (by omega)),
        List.drop_of_length_le (by omega)]
      rfl
    · have hlt : c < q.length := by omega
      rw [drop_eq_getD_cons q c hlt]
      split
      · rename_i hesc
        rw [drop_eq_getD_cons q (c + 1) (by omega), drop_eq_getD_cons q (c + 2) (by omega),
          hesc.1, venueDecoded_escape, ih (c + 3) (i + 1) _ (by omega) (by omega) (by omega)]
        rfl
      · rename_i hesc
        rw [venueDecoded_literal _ _ (by
            by_cases h37 : q.getD c 0 = 37
            · right
              rw [List.length_drop]
              have : ¬ (c + 2 < q.length) := fun hx => hesc ⟨h37, hx⟩
              omega
            · left; exact h37),
          ih (c + 1) (i + 1) _ (by omega) (by omega) (by omega)]
        rfl

theorem venueDecoded_plain (s t : List Nat) (hs : ∀ y ∈ s, y ≠ 37) :
    venueDecoded 0 (s ++ t) = s.map (fun y => toChar ((y : Nat) : Int)) ++ venueDecoded 0 t := by
  induction s with
  | nil => rfl
  | cons a s ih =>
    rw [List.cons_append, venueDecoded_literal a _ (Or.inl (hs a (List.mem_cons_self _ _))),
      ih (fun y hy => hs y (List.mem_cons_of_mem _ hy))]
    rfl

theorem takeWhile_append_zero (a rest : List Int) :
    (a ++ (0 : Int) :: rest).takeWhile (fun b => b != 0) = a.takeWhile (fun b => b != 0) := by
  induction a with
  | nil => simp [List.takeWhile]
  | cons x a ih =>
    rw [List.cons_append, List.takeWhile_cons, List.takeWhile_cons, ih]

theorem cstrAt_writeBytes_zero (d : List Int) (off : Nat) (a : List Int)
    (hfit : off + (a.length + 1) ≤ d.length) :
    cstrAt (writeBytes d off (a ++ [0])) off = some (a.takeWhile (fun b => b != 0)) := by
  have hw := writeBytes_eq (a ++ [0]) d off (by simpa using hfit)
  have hdrop : (writeBytes d off (a ++ [0])).drop off
      = a ++ (0 : Int) :: d.drop (off + (a ++ [0]).length) := by
    rw [hw, List.append_assoc, List.drop_left' (by rw [List.length_take]; omega)]
    simp
  unfold cstrAt
  rw [hdrop, if_pos (by simp), takeWhile_append_zero]

/-- C24: the venue loop of the web adapter on a query `q` (a wide C string of at least
three characters), started as in the handler (`c = 2`, `i = 1`). For every length of `q`
the loop returns - every read `query[c-1]`, `query[c]`, `query[c+1]`, `query[c+2]` is at or
before the terminator - and the payload differs from the old one at most at the indices
`1 .. 246`. For a query shorter than 248 characters the payload holds, from index 1 on,
the decoded text followed by a NUL, so the string at `data + 1` is terminated. A `%` that
fewer than two characters follow is stored as `%` and so are these characters, after a
plain prefix as well. -/
theorem C24_venue_loop_tolerates_trailing_escape (data : List Int) (q : List Nat)
    (hq : ∀ x ∈ q, x ≠ 0) (hlen : 3 ≤ q.length) (hdata : data.length = 256) :
    (∃ r, venueLoop q D_NAMESIZE 2 1 data = some r ∧ r.length = 256
        ∧ ∀ j : Nat, (j < 1 ∨ 247 ≤ j) → peek r j = peek data j)
    ∧ (q.length < 248 →
        venueLoop q D_NAMESIZE 2 1 data
          = some (writeBytes data 1 (venueDecoded 0 (q.drop 2) ++ [0]))
        ∧ (venueDecoded 0 (q.drop 2)).length + 2 ≤ q.length
        ∧ cstrAt (writeBytes data 1 (venueDecoded 0 (q.drop 2) ++ [0])) 1
            = some ((venueDecoded 0 (q.drop 2)).takeWhile (fun b => b != 0)))
    ∧ (∀ rest : List Nat, rest.length < 2 →
        venueDecoded 0 (37 :: rest) = 37 :: rest.map (fun y => toChar ((y : Nat) : Int)))
    ∧ (∀ s t : List Nat, (∀ y ∈ s, y ≠ 37) →
        venueDecoded 0 (s ++ t)
          = s.map (fun y => toChar ((y : Nat) : Int)) ++ venueDecoded 0 t) := by
  refine ⟨?_, ?_, ?_, venueDecoded_plain⟩
  · obtain ⟨r, hr, hl, hfr⟩ := venueLoop_frame q hq D_NAMESIZE 2 1 data (by decide) (by omega)
      (by decide) (by decide)
    exact ⟨r, hr, by rw [hl, hdata], hfr⟩
  · intro h248
    have hdl := venueDecoded_length (q.drop 2) 0
    rw [List.length_drop] at hdl
    refine ⟨venueLoop_decoded q hq h248 D_NAMESIZE 2 1 data (by decide) (by omega)
      (by unfold D_NAMESIZE; omega), by omega, ?_⟩
    exact cstrAt_writeBytes_zero data 1 _ (by rw [hdata]; omega)
  · intro rest hrest
    match rest, hrest with
    | [], _ => rfl
    | [x], _ =>
      rw [venueDecoded_literal 37 [x] (Or.inr (by simp))]
      by_cases hx : x = 37
      · subst hx; rfl
      · rw [venueDecoded_literal x [] (Or.inl hx)]; rfl

set_option maxRecDepth 100000 in
theorem C24_venue_loop_tolerates_trailing_escape_witness :
    (∀ x ∈ ([63, 118, 65, 37, 52] : List Nat), x ≠ 0) ∧ 3 ≤ ([63, 118, 65, 37, 52] : List Nat).length
    ∧ zeroBlock.data.length = 256
    ∧ venueLoop [63, 118, 65, 37, 52] D_NAMESIZE 2 1 zeroBlock.data
        = some (writeBytes zeroBlock.data 1 [65, 37, 52, 0])
    ∧ (∃ r, venueLoop [63, 118, 65, 37, 52] D_NAMESIZE 2 1 zeroBlock.data = some r
        ∧ r.length = 256
        ∧ ∀ j : Nat, (j < 1 ∨ 247 ≤ j) → peek r j = peek zeroBlock.data j) :=
  ⟨by decide, by decide, zeroBlock_length, by decide,
   (C24_venue_loop_tolerates_trailing_escape zeroBlock.data [63, 118, 65, 37, 52]
      (by decide) (by decide) zeroBlock_length).1⟩

/-! ## The render frame -/

theorem slideshow_mask : F_SLIDESHOW_MODE = ((2 ^ 0 : Nat) : Int) := by decide

theorem GLmain_frame_cases (data : List Int) (h m : Int) (d : List Int)
    (hf : GLmain_frame data h m = some d) :
    d = data
      ∨ (d = data.set D_FLAGS (writeFlags (peek data D_FLAGS) F_SLIDESHOW_MODE 0)
          ∧ readFlags (peek data D_FLAGS) F_SLIDESHOW_MODE ≠ 0
          ∧ readFlags (peek data D_FLAGS) F_AUTOSTART ≠ 0
          ∧ (readInt32 data D_DOWNBEAT).tdiv 60 = h ∧ (readInt32 data D_DOWNBEAT).tmod 60 = m) := by
  unfold GLmain_frame at hf
  by_cases hb : readFlags (peek data D_FLAGS) F_SLIDESHOW_MODE = 0
  · rw [if_pos hb] at hf
    left
    simp only [Option.map_eq_some'] at hf
    obtain ⟨_, _, h2⟩ := hf
    exact h2.symm
  · rw [if_neg hb] at hf
    dsimp only at hf
    by_cases hc : readFlags (peek data D_FLAGS) F_AUTOSTART ≠ 0
        ∧ (readInt32 data D_DOWNBEAT).tdiv 60 = h ∧ (readInt32 data D_DOWNBEAT).tmod 60 = m
    · rw [if_pos hc] at hf
      right
      simp only [Option.map_eq_some'] at hf
      obtain ⟨_, _, h2⟩ := hf
      exact ⟨h2.symm, hb, hc⟩
    · rw [if_neg hc] at hf
      left
      simp only [Option.map_eq_some'] at hf
      obtain ⟨_, _, h2⟩ := hf
      exact h2.symm

theorem GLmain_frame_banner (data : List Int) (h m : Int)
    (hb : readFlags (peek data D_FLAGS) F_SLIDESHOW_MODE = 0)
    (hslots : ∀ k : Nat, 1 ≤ k → k ≤ 3 → 0 ≤ colorSlot data k ∧ colorSlot data k ≤ 7) :
    GLmain_frame data h m = some data := by
  unfold GLmain_frame
  rw [if_pos hb]
  have h1 := hslots 1 (by decide) (by decide)
  have h2 := hslots 2 (by decide) (by decide)
  have h3 := hslots 3 (by decide) (by decide)
  have h1 : 0 ≤ peek data 0 ∧ peek data 0 ≤ 7 := h1
  have h2 : 0 ≤ peek data 1 ∧ peek data 1 ≤ 7 := h2
  have h3 : 0 ≤ peek data 2 ∧ peek data 2 ≤ 7 := h3
  have e1 : colorsRow (peek data D_COLOR1) = some (peek data D_COLOR1).toNat := by
    unfold colorsRow; rw [if_pos]; exact ⟨h1.1, by have := h1.2; show peek data 0 < 8; omega⟩
  have e2 : colorsRow (peek data D_COLOR2) = some (peek data D_COLOR2).toNat := by
    unfold colorsRow; rw [if_pos]; exact ⟨h2.1, by have := h2.2; show peek data 1 < 8; omega⟩
  have e3 : colorsRow (peek data D_COLOR3) = some (peek data D_COLOR3).toNat := by
    unfold colorsRow; rw [if_pos]; exact ⟨h3.1, by have := h3.2; show peek data 2 < 8; omega⟩
  rw [e1, e2, e3]
  rfl

theorem GLmain_frame_slideshow (data : List Int) (h m : Int)
    (hs : readFlags (peek data D_FLAGS) F_SLIDESHOW_MODE ≠ 0) (hv : venueName data ≠ none) :
    GLmain_frame data h m
      = some (if readFlags (peek data D_FLAGS) F_AUTOSTART ≠ 0
            ∧ (readInt32 data D_DOWNBEAT).tdiv 60 = h ∧ (readInt32 data D_DOWNBEAT).tmod 60 = m
          then data.set D_FLAGS (writeFlags (peek data D_FLAGS) F_SLIDESHOW_MODE 0) else data) := by
  unfold GLmain_frame
  rw [if_neg hs]
  dsimp only
  have hv2 : ∃ s, cstrAt data D_VENUENAME = some s := by
    unfold venueName at hv
    cases hc : cstrAt data D_VENUENAME with
    | none => exact absurd hc hv
    | some s => exact ⟨s, rfl⟩
  obtain ⟨s, hs2⟩ := hv2
  split
  · rw [show D_FLAGS = 3 from rfl, show D_VENUENAME = 8 from rfl,
      cstrAt_set_lt data 8 3 _ (by decide), ← show D_VENUENAME = 8 from rfl, hs2]
    rfl
  · rw [hs2]; rfl

/-- The flags byte after the write `writeFlags(FLAGS, F_SLIDESHOW_MODE, 0)`: bit 0 is
clear, the other bits are those of the old byte. -/
theorem frame_write_bits (e : Int) (j : Nat) :
    (ubyte (writeFlags e F_SLIDESHOW_MODE 0)).testBit j
      = if j = 0 then false else (ubyte e).testBit j := by
  have := writeFlags_single_bit e 0 0 (by decide) (by decide) j
  rw [slideshow_mask]
  simpa using this

theorem readFlags_frame_write (e : Int) :
    readFlags (writeFlags e F_SLIDESHOW_MODE 0) F_SLIDESHOW_MODE = 0 := by
  by_contra hne
  have h := (readFlags_ne_zero_iff (writeFlags e F_SLIDESHOW_MODE 0) 0 (by decide)).mp
    (by rw [← slideshow_mask]; exact hne)
  rw [frame_write_bits] at h
  simp at h

theorem flags_length_of_ne_zero (data : List Int) (mask : Int)
    (hs : readFlags (peek data D_FLAGS) mask ≠ 0) : 3 < data.length := by
  by_contra hlt
  apply hs
  have : peek data D_FLAGS = 0 := by
    unfold peek D_FLAGS
    rw [List.getD_eq_default]
    omega
  rw [this]
  unfold readFlags
  have : ubyte 0 = 0 := by decide
  rw [this]
  simp [toChar]

set_option maxRecDepth 100000 in
/-- C25 (counterexample): the render state of the start of `main` with SlideshowMode
switched on (flags byte 15, downbeat 1200), rendered at 20:00: the frame completes and
stores the flags byte 14, so the render loop has changed behaviorFlags. -/
theorem C25_counterexample :
    GLmain_frame (writeInt32 ((((zeroBlock.data.set 0 1).set 1 2).set 2 3).set 3 15) 4 1200) 20 0
      = some ((writeInt32 ((((zeroBlock.data.set 0 1).set 1 2).set 2 3).set 3 15) 4 1200).set
          D_FLAGS 14)
    ∧ behaviorFlags (writeInt32 ((((zeroBlock.data.set 0 1).set 1 2).set 2 3).set 3 15) 4 1200) = 15
    ∧ behaviorFlags ((writeInt32 ((((zeroBlock.data.set 0 1).set 1 2).set 2 3).set 3 15) 4 1200).set
          D_FLAGS 14) = 14 := by
  decide

/-- C25 (amended): the render loop writes one bit of the render state. For every render
state with colour slots in `0..7` and a terminated venue name, and every local time
`h`:`m`, one iteration of the render loop completes and leaves the colour slots, the
downbeat, the venue name and every flag other than SlideshowMode unchanged. When
SlideshowMode and AutoStart are set and `h`, `m` are the quotient and the remainder of the
downbeat by 60 (the division of C), the frame stores the flags byte with SlideshowMode
cleared: SlideshowMode is clear afterwards and the state has changed. In every other case,
banner mode included, the frame leaves the whole state as it was. -/
theorem C25_frame_writes_slideshow_bit_only (data : List Int) (h m : Int)
    (hslots : ∀ k : Nat, 1 ≤ k → k ≤ 3 → 0 ≤ colorSlot data k ∧ colorSlot data k ≤ 7)
    (hv : venueName data ≠ none) :
    ∃ d, GLmain_frame data h m = some d ∧ d.length = data.length
      ∧ (∀ f : Field, f ≠ Field.flags → fieldOf f d = fieldOf f data)
      ∧ (∀ j : Nat, j ≠ 0 →
          (ubyte (behaviorFlags d)).testBit j = (ubyte (behaviorFlags data)).testBit j)
      ∧ (readFlags (behaviorFlags data) F_SLIDESHOW_MODE = 0 → d = data)
      ∧ (d ≠ data →
          readFlags (behaviorFlags d) F_SLIDESHOW_MODE = 0
          ∧ readFlags (behaviorFlags data) F_SLIDESHOW_MODE ≠ 0
          ∧ readFlags (behaviorFlags data) F_AUTOSTART ≠ 0
          ∧ (downbeatMinutes data).tdiv 60 = h ∧ (downbeatMinutes data).tmod 60 = m)
      ∧ ((readFlags (behaviorFlags data) F_SLIDESHOW_MODE ≠ 0
            ∧ readFlags (behaviorFlags data) F_AUTOSTART ≠ 0
            ∧ (downbeatMinutes data).tdiv 60 = h ∧ (downbeatMinutes data).tmod 60 = m) →
          d = data.set D_FLAGS (writeFlags (behaviorFlags data) F_SLIDESHOW_MODE 0)
          ∧ readFlags (behaviorFlags d) F_SLIDESHOW_MODE = 0
          ∧ d ≠ data)
      ∧ (¬ (readFlags (behaviorFlags data) F_SLIDESHOW_MODE ≠ 0
            ∧ readFlags (behaviorFlags data) F_AUTOSTART ≠ 0
            ∧ (downbeatMinutes data).tdiv 60 = h ∧ (downbeatMinutes data).tmod 60 = m) →
          d = data) := by
  have hex : ∃ d, GLmain_frame data h m = some d := by
    by_cases hb : readFlags (peek data D_FLAGS) F_SLIDESHOW_MODE = 0
    · exact ⟨_, GLmain_frame_banner data h m hb hslots⟩
    · exact ⟨_, GLmain_frame_slideshow data h m hb hv⟩
  obtain ⟨d, hd⟩ := hex
  refine ⟨d, hd, ?_⟩
  -- the positive direction, from the slideshow branch
  have hpos : (readFlags (behaviorFlags data) F_SLIDESHOW_MODE ≠ 0
        ∧ readFlags (behaviorFlags data) F_AUTOSTART ≠ 0
        ∧ (downbeatMinutes data).tdiv 60 = h ∧ (downbeatMinutes data).tmod 60 = m) →
      d = data.set D_FLAGS (writeFlags (behaviorFlags data) F_SLIDESHOW_MODE 0)
      ∧ readFlags (behaviorFlags d) F_SLIDESHOW_MODE = 0
      ∧ d ≠ data := by
    intro ⟨hs, ha, hh, hm⟩
    have hfr := GLmain_frame_slideshow data h m hs hv
    rw [if_pos ⟨ha, hh, hm⟩, hd] at hfr
    have hd2 : d = data.set D_FLAGS (writeFlags (peek data D_FLAGS) F_SLIDESHOW_MODE 0) :=
      Option.some.inj hfr
    have hlen := flags_length_of_ne_zero data _ hs
    have hfl : behaviorFlags d = writeFlags (peek data D_FLAGS) F_SLIDESHOW_MODE 0 := by
      rw [hd2]; exact peek_set_self data D_FLAGS _ hlen
    have hclear : readFlags (behaviorFlags d) F_SLIDESHOW_MODE = 0 := by
      rw [hfl]; exact readFlags_frame_write _
    refine ⟨hd2, hclear, ?_⟩
    intro heq
    rw [heq] at hclear
    exact hs hclear
  rcases GLmain_frame_cases data h m d hd with h1 | ⟨h1, hs, ha, hh, hm⟩
  · subst h1
    refine ⟨rfl, fun _ _ => rfl, fun _ _ => rfl, fun _ => rfl, fun hne => absurd rfl hne,
      hpos, fun _ => rfl⟩
  · have hlen := flags_length_of_ne_zero data _ hs
    have hfl : behaviorFlags d = writeFlags (peek data D_FLAGS) F_SLIDESHOW_MODE 0 := by
      rw [h1]; exact peek_set_self data D_FLAGS _ hlen
    refine ⟨by rw [h1, List.length_set], ?_, ?_, ?_, ?_, hpos, ?_⟩
    · intro f hf
      rw [h1]
      exact fieldOf_set_flags data _ f hf
    · intro j hj
      rw [hfl, frame_write_bits, if_neg hj]
      rfl
    · intro hb
      exact absurd hb hs
    · intro _
      refine ⟨?_, hs, ha, hh, hm⟩
      rw [hfl]
      exact readFlags_frame_write _
    · intro hn
      exact absurd ⟨hs, ha, hh, hm⟩ hn

set_option maxRecDepth 100000 in
theorem C25_frame_writes_slideshow_bit_only_witness :
    (∀ k : Nat, 1 ≤ k → k ≤ 3 →
        0 ≤ colorSlot ((zeroBlock.data.set 1 2).set 3 7) k
          ∧ colorSlot ((zeroBlock.data.set 1 2).set 3 7) k ≤ 7)
    ∧ venueName ((zeroBlock.data.set 1 2).set 3 7) ≠ none
    ∧ GLmain_frame ((zeroBlock.data.set 1 2).set 3 7) 0 0
        = some ((zeroBlock.data.set 1 2).set 3 6)
    ∧ GLmain_frame ((zeroBlock.data.set 1 2).set 3 7) 0 1
        = some ((zeroBlock.data.set 1 2).set 3 7)
    ∧ ∃ d, GLmain_frame ((zeroBlock.data.set 1 2).set 3 7) 0 0 = some d
      ∧ d.length = ((zeroBlock.data.set 1 2).set 3 7).length
      ∧ readFlags (behaviorFlags d) F_SLIDESHOW_MODE = 0
      ∧ d ≠ (zeroBlock.data.set 1 2).set 3 7 := by
  obtain ⟨d, h1, h2, -, -, -, -, h7, -⟩ :=
    C25_frame_writes_slideshow_bit_only ((zeroBlock.data.set 1 2).set 3 7) 0 0
      (by intro k h1 h3; interval_cases k <;> decide) (by decide)
  exact ⟨by intro k h1 h3; interval_cases k <;> decide, by decide, by decide, by decide,
    d, h1, h2, (h7 (by decide)).2.1, (h7 (by decide)).2.2⟩

/-- C26: for every render state with SlideshowMode set, a downbeat in `0..1439` and a
terminated venue name, and every local time `h`:`m`, a render frame completes, and
SlideshowMode is clear after it exactly when AutoStart is set, `h` is the downbeat divided
by 60 and `m` the downbeat modulo 60; every other flag bit and every other field is as
before, and when the condition fails the whole state is as before. A frame rendered in
banner mode returns the state it was given (and does so whenever the colour slots are in
`0..7`). -/
theorem C26_autostart_frame (data : List Int) (h m : Int)
    (hs : readFlags (behaviorFlags data) F_SLIDESHOW_MODE ≠ 0)
    (hd : 0 ≤ downbeatMinutes data ∧ downbeatMinutes data ≤ 1439)
    (hv : venueName data ≠ none) :
    (∃ d, GLmain_frame data h m = some d
      ∧ (readFlags (behaviorFlags d) F_SLIDESHOW_MODE = 0 ↔
          (readFlags (behaviorFlags data) F_AUTOSTART ≠ 0
            ∧ h = downbeatMinutes data / 60 ∧ m = downbeatMinutes data % 60))
      ∧ (∀ j : Nat, j ≠ 0 →
          (ubyte (behaviorFlags d)).testBit j = (ubyte (behaviorFlags data)).testBit j)
      ∧ (∀ f : Field, f ≠ Field.flags → fieldOf f d = fieldOf f data)
      ∧ (¬ (readFlags (behaviorFlags data) F_AUTOSTART ≠ 0
            ∧ h = downbeatMinutes data / 60 ∧ m = downbeatMinutes data % 60) → d = data))
    ∧ (∀ bdata : List Int, readFlags (behaviorFlags bdata) F_SLIDESHOW_MODE = 0 →
        (∀ bd, GLmain_frame bdata h m = some bd → bd = bdata)
        ∧ ((∀ k : Nat, 1 ≤ k → k ≤ 3 → 0 ≤ colorSlot bdata k ∧ colorSlot bdata k ≤ 7) →
            GLmain_frame bdata h m = some bdata)) := by
  have hdiv : (readInt32 data D_DOWNBEAT).tdiv 60 = downbeatMinutes data / 60 :=
    Int.tdiv_eq_ediv hd.1 (by decide)
  have hmod : (readInt32 data D_DOWNBEAT).tmod 60 = downbeatMinutes data % 60 :=
    Int.tmod_eq_emod hd.1 (by decide)
  have hlen := flags_length_of_ne_zero data _ hs
  refine ⟨?_, ?_⟩
  · have hfr := GLmain_frame_slideshow data h m hs hv
    rw [hdiv, hmod] at hfr
    by_cases hc : readFlags (behaviorFlags data) F_AUTOSTART ≠ 0
        ∧ h = downbeatMinutes data / 60 ∧ m = downbeatMinutes data % 60
    · have hc2 : readFlags (peek data D_FLAGS) F_AUTOSTART ≠ 0
          ∧ downbeatMinutes data / 60 = h ∧ downbeatMinutes data % 60 = m :=
        ⟨hc.1, hc.2.1.symm, hc.2.2.symm⟩
      rw [if_pos hc2] at hfr
      have hfl : behaviorFlags (data.set D_FLAGS (writeFlags (peek data D_FLAGS) F_SLIDESHOW_MODE 0))
          = writeFlags (peek data D_FLAGS) F_SLIDESHOW_MODE 0 := peek_set_self data D_FLAGS _ hlen
      refine ⟨_, hfr, ?_, ?_, ?_, fun hn => absurd hc hn⟩
      · refine ⟨fun _ => hc, fun _ => ?_⟩
        rw [hfl]
        exact readFlags_frame_write _
      · intro j hj
        rw [hfl, frame_write_bits, if_neg hj]
        rfl
      · intro f hf
        exact fieldOf_set_flags data _ f hf
    · have hc2 : ¬ (readFlags (peek data D_FLAGS) F_AUTOSTART ≠ 0
          ∧ downbeatMinutes data / 60 = h ∧ downbeatMinutes data % 60 = m) := by
        intro hx
        exact hc ⟨hx.1, hx.2.1.symm, hx.2.2.symm⟩
      rw [if_neg hc2] at hfr
      refine ⟨_, hfr, ?_, fun _ _ => rfl, fun _ _ => rfl, fun _ => rfl⟩
      exact ⟨fun h0 => absurd h0 hs, fun hx => absurd hx hc⟩
  · intro bdata hb
    refine ⟨?_, GLmain_frame_banner bdata h m hb⟩
    intro bd hbd
    rcases GLmain_frame_cases bdata h m bd hbd with h1 | ⟨_, hs2, _⟩
    · exact h1
    · exact absurd hb hs2

set_option maxRecDepth 100000 in
theorem C26_autostart_frame_witness :
    readFlags (behaviorFlags (writeInt32 (zeroBlock.data.set 3 3) 4 1290)) F_SLIDESHOW_MODE ≠ 0
    ∧ (0 ≤ downbeatMinutes (writeInt32 (zeroBlock.data.set 3 3) 4 1290)
        ∧ downbeatMinutes (writeInt32 (zeroBlock.data.set 3 3) 4 1290) ≤ 1439)
    ∧ venueName (writeInt32 (zeroBlock.data.set 3 3) 4 1290) ≠ none
    ∧ GLmain_frame (writeInt32 (zeroBlock.data.set 3 3) 4 1290) 21 30
        = some ((writeInt32 (zeroBlock.data.set 3 3) 4 1290).set 3 2)
    ∧ GLmain_frame (writeInt32 (zeroBlock.data.set 3 3) 4 1290) 21 31
        = some (writeInt32 (zeroBlock.data.set 3 3) 4 1290)
    ∧ ∃ d, GLmain_frame (writeInt32 (zeroBlock.data.set 3 3) 4 1290) 21 30 = some d
      ∧ (readFlags (behaviorFlags d) F_SLIDESHOW_MODE = 0 ↔
          (readFlags (behaviorFlags (writeInt32 (zeroBlock.data.set 3 3) 4 1290)) F_AUTOSTART ≠ 0
            ∧ (21 : Int) = downbeatMinutes (writeInt32 (zeroBlock.data.set 3 3) 4 1290) / 60
            ∧ (30 : Int) = downbeatMinutes (writeInt32 (zeroBlock.data.set 3 3) 4 1290) % 60)) :=
  ⟨by decide, by decide, by decide, by decide, by decide,
   (C26_autostart_frame (writeInt32 (zeroBlock.data.set 3 3) 4 1290) 21 30
      (by decide) (by decide) (by decide)).1.imp (fun _ hd => ⟨hd.1, hd.2.1⟩)⟩

set_option maxRecDepth 100000 in
/-- C27: the initialisation at the start of `main` completes and builds the render state
with slot 1 = Red (1), slot 2 = Green (2), slot 3 = Blue (3), a flags byte in which
exactly AutoStart, BaseLight and MetaPosts are set (SlideshowMode clear), the downbeat
1200, and the venue name "Your Venue Name Here" followed by its NUL terminator. -/
theorem C27_initial_render_state :
    ∃ g : TDATA, main_init = some g ∧ g.data.length = 256
      ∧ colorSlot g.data 1 = C_RED ∧ colorSlot g.data 2 = C_GREEN ∧ colorSlot g.data 3 = C_BLUE
      ∧ readFlags (behaviorFlags g.data) F_SLIDESHOW_MODE = 0
      ∧ readFlags (behaviorFlags g.data) F_AUTOSTART ≠ 0
      ∧ readFlags (behaviorFlags g.data) F_BASELIGHT ≠ 0
      ∧ readFlags (behaviorFlags g.data) F_METAPOSTS ≠ 0
      ∧ (∀ j : Nat, (ubyte (behaviorFlags g.data)).testBit j = true ↔ (j = 1 ∨ j = 2 ∨ j = 3))
      ∧ downbeatMinutes g.data = 1200
      ∧ venueName g.data = some venueDefault
      ∧ peek g.data (D_VENUENAME + venueDefault.length) = 0 := by
  refine ⟨{ status := 0,
            data := (writeBytes (writeInt32 ((((zeroBlock.data.set 0 1).set 1 2).set 2 3).set 3 14)
              4 1200) 8 (venueDefault ++ [0])).set 255 0 }, by decide, by decide, by decide,
          by decide, by decide, by decide, by decide, by decide, by decide, ?_, by decide,
          by decide, by decide⟩
  intro j
  have h14 : behaviorFlags ((writeBytes (writeInt32 ((((zeroBlock.data.set 0 1).set 1 2).set 2 3).set 3 14)
              4 1200) 8 (venueDefault ++ [0])).set 255 0) = 14 := by decide
  dsimp only
  rw [h14]
  have hu : ubyte 14 = 14 := by decide
  rw [hu]
  by_cases hj : j < 8
  · interval_cases j <;> decide
  · have h8 : 8 ≤ j := by omega
    have : (14 : Nat).testBit j = false := by
      apply Nat.testBit_eq_false_of_lt
      calc 14 < 2 ^ 8 := by decide
        _ ≤ 2 ^ j := Nat.pow_le_pow_right (by decide) h8
    rw [this]
    simp
    omega

/-! ## The verb chain of the console -/

theorem verbTests_upper :
    ∀ V ∈ verbTests, V.map foldUpper = V ∧ (∀ x ∈ V, x ≠ 0) ∧ ∀ x ∈ V, 65 ≤ x ∧ x ≤ 90 := by
  decide

theorem verbTests_distinct :
    ∀ i, i < 10 → ∀ j, j < i → verbTests.getD j [] ≠ verbTests.getD i [] := by
  decide

theorem foldUpper_eq_upper (x v : Int) (hv : 65 ≤ v ∧ v ≤ 90) :
    foldUpper x = v ↔ (x = v ∨ x = v + 32) := by
  unfold foldUpper toChar
  split <;> omega

theorem map_foldUpper_eq_iff (c V : List Int) :
    c.map foldUpper = V ↔
      (c.length = V.length ∧ ∀ k : Nat, k < V.length → foldUpper (c.getD k 0) = V.getD k 0) := by
  constructor
  · intro h
    subst h
    refine ⟨by simp, ?_⟩
    intro k hk
    rw [List.length_map] at hk
    rw [List.getD_eq_getElem _ _ hk, List.getD_eq_getElem _ _ (by simpa using hk),
      List.getElem_map]
  · intro ⟨hl, hk⟩
    apply List.ext_getElem (by simpa using hl)
    intro n h1 h2
    have := hk n h2
    rw [List.getD_eq_getElem _ _ h2, List.getD_eq_getElem _ _ (by omega)] at this
    rw [List.getElem_map]
    exact this

theorem streq_verb (c V : List Int) (hc : ∀ x ∈ c, x ≠ 0) (hV : V ∈ verbTests) :
    streq c V 0 (V.length + 1) = some (if c.map foldUpper = V then 1 else 0) := by
  have hu := verbTests_upper V hV
  have := streq_spec c V (V.length + 1) hc hu.2.1 (Nat.lt_succ_self _)
  rw [hu.1] at this
  exact this

theorem verbChain_spec (c : List Int) (hc : ∀ x ∈ c, x ≠ 0) :
    ∀ (tests : List (List Int)) (i : Nat), (∀ V ∈ tests, V ∈ verbTests) →
      verbChain c tests i
        = some (i + tests.findIdx (fun V => decide (c.map foldUpper = V))) := by
  intro tests
  induction tests with
  | nil => intro i _; simp [verbChain]
  | cons V rest ih =>
    intro i hall
    unfold verbChain
    rw [streq_verb c V hc (hall V (List.mem_cons_self _ _))]
    rw [List.findIdx_cons]
    by_cases hm : c.map foldUpper = V
    · simp [hm]
    · simp only [hm, if_false, decide_False, cond_false]
      rw [ih (i + 1) (fun W hW => hall W (List.mem_cons_of_mem _ hW))]
      simp only [ne_eq, not_true_eq_false, if_false]
      congr 1
      omega

/-- C28: for every command token `c` (a C string) and every verb `V` of the console
grammar, `streq(c, V, 0, len(V)+1)` returns - it reads neither string beyond its
terminator - and it returns 1 exactly when `c` has the length of `V` and equals `V`
character by character after the fold of `a-z` to `A-Z`, 0 otherwise. The chain of tests
of `CLImain` therefore selects the handler of `V` exactly when the token is `V` in some
letter case: the same length, each character the upper-case or the lower-case letter. -/
theorem C28_verb_matching (c : List Int) (hc : ∀ x ∈ c, x ≠ 0) :
    (∀ V ∈ verbTests,
        (streq c V 0 (V.length + 1) = some 1 ∨ streq c V 0 (V.length + 1) = some 0)
        ∧ (streq c V 0 (V.length + 1) = some 1 ↔
            (c.length = V.length
              ∧ ∀ k : Nat, k < V.length → foldUpper (c.getD k 0) = V.getD k 0)))
    ∧ (∃ n, verbChain c verbTests 0 = some n ∧ n ≤ verbTests.length)
    ∧ (∀ i : Nat, i < verbTests.length →
        (verbChain c verbTests 0 = some i ↔
          (c.length = (verbTests.getD i []).length
            ∧ ∀ k : Nat, k < (verbTests.getD i []).length →
                (c.getD k 0 = (verbTests.getD i []).getD k 0
                  ∨ c.getD k 0 = (verbTests.getD i []).getD k 0 + 32)))) := by
  have hchain := verbChain_spec c hc verbTests 0 (fun V hV => hV)
  rw [Nat.zero_add] at hchain
  refine ⟨?_, ?_, ?_⟩
  · intro V hV
    rw [streq_verb c V hc hV, ← map_foldUpper_eq_iff]
    by_cases hm : c.map foldUpper = V
    · simp [hm]
    · simp [hm]
  · exact ⟨_, hchain, List.findIdx_le_length _⟩
  · intro i hi
    have hmem : verbTests.getD i [] ∈ verbTests := by
      rw [List.getD_eq_getElem _ _ hi]
      exact List.getElem_mem _
    have hu := verbTests_upper _ hmem
    have hcase : (c.length = (verbTests.getD i []).length
            ∧ ∀ k : Nat, k < (verbTests.getD i []).length →
                (c.getD k 0 = (verbTests.getD i []).getD k 0
                  ∨ c.getD k 0 = (verbTests.getD i []).getD k 0 + 32))
          ↔ c.map foldUpper = verbTests.getD i [] := by
      rw [map_foldUpper_eq_iff]
      constructor
      · intro ⟨h1, h2⟩
        refine ⟨h1, fun k hk => ?_⟩
        have hx : (verbTests.getD i []).getD k 0 ∈ verbTests.getD i [] := by
          rw [List.getD_eq_getElem _ _ hk]
          exact List.getElem_mem _
        exact (foldUpper_eq_upper _ _ (hu.2.2 _ hx)).mpr (h2 k hk)
      · intro ⟨h1, h2⟩
        refine ⟨h1, fun k hk => ?_⟩
        have hx : (verbTests.getD i []).getD k 0 ∈ verbTests.getD i [] := by
          rw [List.getD_eq_getElem _ _ hk]
          exact List.getElem_mem _
        exact (foldUpper_eq_upper _ _ (hu.2.2 _ hx)).mp (h2 k hk)
    rw [hcase, hchain, Option.some.injEq, List.findIdx_eq hi]
    have hi10 : i < 10 := hi
    constructor
    · intro ⟨h1, _⟩
      rw [← List.getD_eq_getElem _ [] hi] at h1
      simpa using h1
    · intro hm
      refine ⟨?_, ?_⟩
      · rw [← List.getD_eq_getElem _ [] hi]
        simpa using hm
      · intro j hji
        have hd := verbTests_distinct i hi10 j hji
        rw [← List.getD_eq_getElem _ [] (by omega : j < verbTests.length)]
        simp only [decide_eq_false_iff_not]
        intro hj
        exact hd (hj.symm.trans hm)

theorem C28_verb_matching_witness :
    (∀ x ∈ ([118, 101, 78, 117, 69] : List Int), x ≠ 0)
    ∧ streq [118, 101, 78, 117, 69] [86, 69, 78, 85, 69] 0 6 = some 1
    ∧ verbChain [118, 101, 78, 117, 69] verbTests 0 = some 3
    ∧ (∃ n, verbChain [118, 101, 78, 117, 69] verbTests 0 = some n ∧ n ≤ verbTests.length) :=
  ⟨by decide, by decide, by decide,
   (C28_verb_matching [118, 101, 78, 117, 69] (by decide)).2.1⟩

/-! ## The colour-slot invariant -/

theorem slotsInTable_iff (g : List Int) :
    slotsInTable g ↔ ((0 ≤ peek g 0 ∧ peek g 0 ≤ 7) ∧ (0 ≤ peek g 1 ∧ peek g 1 ≤ 7)
      ∧ (0 ≤ peek g 2 ∧ peek g 2 ≤ 7)) := by
  constructor
  · intro h
    exact ⟨h 1 (by decide) (by decide), h 2 (by decide) (by decide), h 3 (by decide) (by decide)⟩
  · intro ⟨h1, h2, h3⟩ k hk1 hk3
    interval_cases k
    · exact h1
    · exact h2
    · exact h3

theorem slotsInTable_congr (g g1 : List Int) (h : ∀ j : Nat, j < 3 → peek g1 j = peek g j)
    (hs : slotsInTable g) : slotsInTable g1 := by
  rw [slotsInTable_iff] at hs ⊢
  rw [h 0 (by decide), h 1 (by decide), h 2 (by decide)]
  exact hs

theorem slotsInTable_set (g : List Int) (i : Nat) (v : Int) (hg : 3 ≤ g.length)
    (hv : i < 3 → 0 ≤ v ∧ v ≤ 7) (hs : slotsInTable g) : slotsInTable (g.set i v) := by
  rw [slotsInTable_iff] at hs ⊢
  obtain ⟨h0, h1, h2⟩ := hs
  refine ⟨?_, ?_, ?_⟩
  · by_cases hi : i = 0
    · subst hi; rw [peek_set_self _ _ _ (by omega)]; exact hv (by decide)
    · rw [peek_set_ne _ _ _ _ hi]; exact h0
  · by_cases hi : i = 1
    · subst hi; rw [peek_set_self _ _ _ (by omega)]; exact hv (by decide)
    · rw [peek_set_ne _ _ _ _ hi]; exact h1
  · by_cases hi : i = 2
    · subst hi; rw [peek_set_self _ _ _ (by omega)]; exact hv (by decide)
    · rw [peek_set_ne _ _ _ _ hi]; exact h2

theorem sprintf_s_eq_some (d : List Int) (off size : Nat) (s g : List Int)
    (h : sprintf_s d off size s = some g) : g = writeBytes d off (s ++ [0]) := by
  unfold sprintf_s at h
  split at h
  · exact (Option.some.inj h).symm
  · exact absurd h (by simp)

theorem slotsInTable_venue (gl : List Int) (s g : List Int)
    (h : sprintf_s gl D_VENUENAME D_NAMESIZE s = some g) (hs : slotsInTable gl) :
    slotsInTable g ∧ g.length = gl.length := by
  have hg := sprintf_s_eq_some _ _ _ _ _ h
  subst hg
  refine ⟨slotsInTable_congr gl _ (fun j hj => ?_) hs, length_writeBytes _ _ _⟩
  exact peek_writeBytes_lt _ _ _ _ (by unfold D_VENUENAME; omega)

theorem slotsInTable_poke (gl : List Int) (idx v : Int) (g : List Int) (hlen : 3 ≤ gl.length)
    (h : pokeChecked gl idx v = some g) (hv : idx < 3 → 0 ≤ v ∧ v ≤ 7)
    (hs : slotsInTable gl) : slotsInTable g ∧ g.length = gl.length := by
  have hg := pokeChecked_eq_some _ _ _ _ h
  unfold pokeChecked at h
  split at h
  · rename_i hidx
    subst hg
    refine ⟨slotsInTable_set gl _ v hlen (fun hi => hv (by omega)) hs, List.length_set _ _ _⟩
  · exact absurd h (by simp)

theorem httpSwitch_slots (gl hd g : List Int) (h : main_httpSwitch gl hd = some g)
    (hsafe : webPayloadSafe hd) (hlen : gl.length = 256) (hs : slotsInTable gl) :
    slotsInTable g ∧ g.length = 256 := by
  unfold main_httpSwitch at h
  dsimp only at h
  rcases hsafe with h0 | h0 | h0 | h0 | ⟨h0, hv⟩
  · rw [if_pos h0] at h
    rw [← Option.some.inj h]; exact ⟨hs, hlen⟩
  · rw [if_neg (by rw [h0]; decide), if_pos (by rw [h0]; decide)] at h
    rw [← Option.some.inj h]
    exact ⟨slotsInTable_set gl _ _ (by omega) (fun hi => absurd hi (by decide)) hs,
      by rw [List.length_set]; exact hlen⟩
  · rw [if_neg (by rw [h0]; decide), if_neg (by rw [h0]; decide), if_pos (by rw [h0]; decide)] at h
    rw [← Option.some.inj h]
    refine ⟨slotsInTable_congr gl _ (fun j hj => ?_) hs, by rw [length_writeInt32]; exact hlen⟩
    exact peek_writeInt32_other _ _ _ _ (Or.inl (by unfold D_DOWNBEAT; omega))
  · rw [if_neg (by rw [h0]; decide), if_neg (by rw [h0]; decide), if_neg (by rw [h0]; decide),
      if_pos (by rw [h0]; decide)] at h
    cases hc : cstrAt hd 1 with
    | none => rw [hc] at h; exact absurd h (by simp)
    | some s =>
      rw [hc, Option.some_bind] at h
      have := slotsInTable_venue gl s g h hs
      exact ⟨this.1, by rw [this.2]; exact hlen⟩
  · have hne : peek hd 0 ≠ -1 ∧ peek hd 0 ≠ (D_FLAGS : Int) ∧ peek hd 0 ≠ (D_DOWNBEAT : Int)
        ∧ peek hd 0 ≠ (D_VENUENAME : Int) := by
      rcases h0 with h0 | h0 | h0 <;> rw [h0] <;> decide
    rw [if_neg hne.1, if_neg hne.2.1, if_neg hne.2.2.1, if_neg hne.2.2.2] at h
    have := slotsInTable_poke gl _ _ g (by omega) h (fun _ => hv) hs
    exact ⟨this.1, by rw [this.2]; exact hlen⟩

theorem cliSwitch_slots (gl cd g c2 : List Int) (h : main_cliSwitch gl cd = some (g, c2))
    (hsafe : cliPayloadSafe cd) (hlen : gl.length = 256) (hcd : cd.length = 256)
    (hs : slotsInTable gl) :
    slotsInTable g ∧ g.length = 256 ∧ c2.length = 256 := by
  unfold main_cliSwitch at h
  dsimp only at h
  split at h
  · rename_i h99
    have hv := hsafe h99
    cases hp : pokeChecked gl (peek cd 1) (peek cd 2) with
    | none => rw [hp] at h; exact absurd h (by simp)
    | some g1 =>
      rw [hp, Option.map_some', Option.some.injEq, Prod.mk.injEq] at h
      have := slotsInTable_poke gl _ _ g1 (by omega) hp (fun _ => hv.2) hs
      rw [← h.1, ← h.2]
      exact ⟨this.1, by rw [this.2]; exact hlen, hcd⟩
  · split at h
    · rw [Option.some.injEq, Prod.mk.injEq] at h
      rw [← h.1, ← h.2]
      exact ⟨hs, hlen, by rw [length_copyPrefix]; exact hcd⟩
    · split at h
      · rw [Option.some.injEq, Prod.mk.injEq] at h
        rw [← h.1, ← h.2]
        exact ⟨slotsInTable_set gl _ _ (by omega) (fun hi => absurd hi (by decide)) hs,
          by rw [List.length_set]; exact hlen, hcd⟩
      · split at h
        · rw [Option.some.injEq, Prod.mk.injEq] at h
          rw [← h.1, ← h.2]
          refine ⟨slotsInTable_congr gl _ (fun j hj => ?_) hs,
            by rw [length_writeInt32]; exact hlen, hcd⟩
          exact peek_writeInt32_other _ _ _ _ (Or.inl (by unfold D_DOWNBEAT; omega))
        · split at h
          · cases hc : (cstrAt cd 1).bind formatNoArgs with
            | none => rw [hc] at h; exact absurd h (by simp)
            | some s =>
              rw [hc, Option.some_bind] at h
              cases hp : sprintf_s gl D_VENUENAME D_NAMESIZE s with
              | none => rw [hp] at h; exact absurd h (by simp)
              | some g1 =>
                rw [hp, Option.map_some', Option.some.injEq, Prod.mk.injEq] at h
                have := slotsInTable_venue gl s g1 hp hs
                rw [← h.1, ← h.2]
                exact ⟨this.1, by rw [this.2]; exact hlen, hcd⟩
          · split at h
            · rw [Option.some.injEq, Prod.mk.injEq] at h
              rw [← h.1, ← h.2]
              exact ⟨slotsInTable_set gl _ _ (by omega) (fun hi => absurd hi (by decide)) hs,
                by rw [List.length_set]; exact hlen, by rw [List.length_set]; exact hcd⟩
            · rw [Option.some.injEq, Prod.mk.injEq] at h
              rw [← h.1, ← h.2]
              exact ⟨hs, hlen, hcd⟩

theorem running_ne_waiting : T_RUNNING ≠ T_WAITING := by decide

theorem loopBody_inv (b b1 : Blocks) (h : main_loopBody b = some b1) (hinv : b.Inv) : b1.Inv := by
  obtain ⟨hgl, hhttp, hcli, hs, hws, hcs⟩ := hinv
  unfold main_loopBody at h
  -- the web block
  have hweb : ∃ g1 h1, (if b.http.status = T_WAITING then main_httpDispatch b.gl b.http
        else some (b.gl, b.http)) = some (g1, h1)
      ∧ slotsInTable g1.data ∧ g1.data.length = 256 ∧ h1.data.length = 256
      ∧ (h1.status = T_WAITING → webPayloadSafe h1.data) := by
    by_cases hw : b.http.status = T_WAITING
    · rw [if_pos hw] at h ⊢
      cases hd : main_httpDispatch b.gl b.http with
      | none => rw [hd] at h; exact absurd h (by simp)
      | some p =>
        obtain ⟨g1, h1⟩ := p
        obtain ⟨hst, hdat, _, hsw⟩ := httpDispatch_shape b.gl b.http g1 h1 hd
        have := httpSwitch_slots _ _ _ hsw (hws hw) hgl hs
        refine ⟨g1, h1, rfl, this.1, this.2, ?_, ?_⟩
        · rw [hdat, length_copyPrefix]; exact hhttp
        · intro hx; rw [hst] at hx; exact absurd hx running_ne_waiting
    · rw [if_neg hw]
      exact ⟨b.gl, b.http, rfl, hs, hgl, hhttp, fun hx => absurd hx hw⟩
  obtain ⟨g1, h1, he, hs1, hg1, hh1, hw1⟩ := hweb
  rw [he, Option.some_bind] at h
  dsimp only at h
  by_cases hc : b.cli.status = T_WAITING
  · rw [if_pos hc] at h
    unfold main_cliDispatch at h
    cases hsw : main_cliSwitch g1.data b.cli.data with
    | none => rw [hsw] at h; exact absurd h (by simp)
    | some p =>
      obtain ⟨g2, c2⟩ := p
      rw [hsw] at h
      simp only [Option.map_some', Option.some.injEq] at h
      have := cliSwitch_slots _ _ _ _ hsw (hcs hc) hg1 hcli hs1
      rw [← h]
      exact ⟨this.2.1, hh1, this.2.2, this.1, hw1,
        fun hx => absurd hx running_ne_waiting⟩
  · rw [if_neg hc] at h
    simp only [Option.map_some', Option.some.injEq] at h
    rw [← h]
    exact ⟨hg1, hh1, hcli, hs1, hw1, fun hx => absurd hx hc⟩

theorem colorChain_range (cmd : List Int) :
    ∀ (tests : List (List Int × Nat)) (i tg : Int), colorChain cmd tests i = some tg →
      tg = -1 ∨ (i ≤ tg ∧ tg < i + tests.length) := by
  intro tests
  induction tests with
  | nil =>
    intro i tg h
    left
    simp only [colorChain, Option.some.injEq] at h
    exact h.symm
  | cons p rest ih =>
    intro i tg h
    obtain ⟨name, stop⟩ := p
    unfold colorChain at h
    cases hs : streq cmd name 0 stop with
    | none => rw [hs] at h; exact absurd h (by simp)
    | some r =>
      rw [hs] at h
      dsimp only at h
      split at h
      · right
        have := Option.some.inj h
        simp only [List.length_cons]
        push_cast
        omega
      · rcases ih (i + 1) tg h with h1 | h1
        · left; exact h1
        · right
          simp only [List.length_cons]
          push_cast
          omega

theorem cliBlockOk_opcode (st : Int) (d : List Int) (hlen : d.length = 256)
    (h : peek d 0 ≠ 99) : cliBlockOk { status := st, data := d } :=
  ⟨hlen, fun _ h99 => absurd h99 h⟩

theorem cliBlockOk_set_opcode (st : Int) (d : List Int) (op : Int) (hlen : d.length = 256)
    (h : op ≠ 99) : cliBlockOk { status := st, data := d.set 0 op } := by
  apply cliBlockOk_opcode
  · rw [List.length_set]; exact hlen
  · rw [peek_set_self _ _ _ (by omega)]; exact h

theorem color_submit_ok (td td1 : TDATA) (id : Int) (name : List Int) (out : List Msg)
    (hlen : td.data.length = 256)
    (h : CLImain_color td id name = some (CliOutcome.submit td1 out)) : cliBlockOk td1 := by
  unfold CLImain_color at h
  split at h
  · rename_i hid
    dsimp only at h
    cases hc : colorChain name colorTests 0 with
    | none => rw [hc] at h; exact absurd h (by simp)
    | some tg =>
      rw [hc, Option.map_some', Option.some.injEq] at h
      have hr := colorChain_range name colorTests 0 tg hc
      split at h
      · rename_i htg
        have hr2 : 0 ≤ tg ∧ tg ≤ 7 := by
          rcases hr with hr | hr
          · exact absurd hr htg
          · have : (colorTests.length : Int) = 8 := by decide
            omega
        injection h with h1 _
        subst h1
        have hidr : toChar (id - 49) = id - 49 := toChar_of_range _ (by omega) (by omega)
        refine ⟨by simp only [List.length_set]; exact hlen, fun _ _ => ?_⟩
        rw [peek_set_ne _ _ _ _ (by decide), peek_set_self _ _ _ (by simp only [List.length_set]; omega),
          peek_set_self _ _ _ (by simp only [List.length_set]; omega), hidr]
        exact ⟨by omega, hr2⟩
      · exact absurd h (by simp)
  · exact absurd h (by simp)

theorem venue_submit_ok (td td1 : TDATA) (venue : List Int) (out : List Msg)
    (hlen : td.data.length = 256)
    (h : CLImain_venue td venue = some (CliOutcome.submit td1 out)) : cliBlockOk td1 := by
  unfold CLImain_venue at h
  split at h
  · exact absurd h (by simp)
  · cases hf : (formatNoArgs venue.tail).bind (fun text => sprintf_s td.data 1 D_NAMESIZE text) with
    | none => rw [hf] at h; exact absurd h (by simp)
    | some d =>
      rw [hf, Option.map_some', Option.some.injEq] at h
      injection h with h1 _
      subst h1
      cases hfm : formatNoArgs venue.tail with
      | none => rw [hfm] at hf; exact absurd hf (by simp)
      | some text =>
        rw [hfm, Option.some_bind] at hf
        have := sprintf_s_eq_some _ _ _ _ _ hf
        apply cliBlockOk_set_opcode _ _ _ _ (by decide)
        rw [this, length_writeBytes]
        exact hlen

theorem downbeat_submit_ok (td td1 : TDATA) (arg : List Int) (out : List Msg)
    (hlen : td.data.length = 256)
    (h : CLImain_downbeat td arg = CliOutcome.submit td1 out) : cliBlockOk td1 := by
  unfold CLImain_downbeat at h
  split at h
  · exact absurd h (by simp)
  · dsimp only at h
    split at h
    · exact absurd h (by simp)
    · injection h with h1 _
      subst h1
      apply cliBlockOk_set_opcode _ _ _ _ (by decide)
      rw [length_writeInt32]
      exact hlen

theorem stopped_ne_waiting : T_STOPPED ≠ T_WAITING := by decide

theorem CLImain_dispatch_ok (td td1 : TDATA) (t t1 : CliThread)
    (h : CLImain_dispatch td t = some (td1, t1)) (hok : cliBlockOk td) : cliBlockOk td1 := by
  have hlen := hok.1
  unfold CLImain_dispatch at h
  split at h
  · exact absurd h (by simp)
  · -- EXIT
    simp only [Option.some.injEq, Prod.mk.injEq] at h
    rw [← h.1]
    exact ⟨hlen, fun hx => absurd hx stopped_ne_waiting⟩
  · -- AUTOSTART
    simp only [Option.some.injEq, Prod.mk.injEq] at h
    rw [← h.1]
    exact cliBlockOk_set_opcode _ _ _ hlen (by decide)
  · -- VENUE
    split at h
    · simp only [Option.some.injEq, Prod.mk.injEq] at h
      rw [← h.1]; exact hok
    · split at h
      · rename_i hv
        simp only [Option.some.injEq, Prod.mk.injEq] at h
        rw [← h.1]
        exact venue_submit_ok td _ _ _ hlen hv
      · exact absurd h (by simp)
  · -- DOWNBEAT
    split at h
    · simp only [Option.some.injEq, Prod.mk.injEq] at h
      rw [← h.1]; exact hok
    · split at h
      · exact absurd h (by simp)
      · split at h
        · simp only [Option.some.injEq, Prod.mk.injEq] at h
          rw [← h.1]; exact hok
        · rename_i hd
          simp only [Option.some.injEq, Prod.mk.injEq] at h
          rw [← h.1]
          exact downbeat_submit_ok td _ _ _ hlen hd
        · simp only [Option.some.injEq, Prod.mk.injEq] at h
          rw [← h.1]; exact hok
  · -- COLORS
    simp only [Option.some.injEq, Prod.mk.injEq] at h
    rw [← h.1]
    exact cliBlockOk_set_opcode _ _ _ hlen (by decide)
  · -- COLOR
    split at h
    · simp only [Option.some.injEq, Prod.mk.injEq] at h
      rw [← h.1]; exact hok
    · split at h
      · split at h
        · simp only [Option.some.injEq, Prod.mk.injEq] at h
          rw [← h.1]; exact hok
        · split at h
          · exact absurd h (by simp)
          · split at h
            · rename_i hc
              simp only [Option.some.injEq, Prod.mk.injEq] at h
              rw [← h.1]
              exact color_submit_ok td _ _ _ _ hlen hc
            · simp only [Option.some.injEq, Prod.mk.injEq] at h
              rw [← h.1]; exact hok
            · exact absurd h (by simp)
      · simp only [Option.some.injEq, Prod.mk.injEq] at h
        rw [← h.1]; exact hok
  · -- SLIDESHOW
    simp only [Option.some.injEq, Prod.mk.injEq] at h
    rw [← h.1]
    refine cliBlockOk_opcode _ _ (by simp only [List.length_set]; exact hlen) ?_
    rw [peek_set_ne _ _ _ _ (by decide), peek_set_self _ _ _ (by omega)]
    decide
  · -- BANNER
    simp only [Option.some.injEq, Prod.mk.injEq] at h
    rw [← h.1]
    refine cliBlockOk_opcode _ _ (by simp only [List.length_set]; exact hlen) ?_
    rw [peek_set_ne _ _ _ _ (by decide), peek_set_self _ _ _ (by omega)]
    decide
  · -- HELP, ADDRESS, unknown command
    simp only [Option.some.injEq, Prod.mk.injEq] at h
    rw [← h.1]; exact hok

theorem CLImain_step_ok (td td1 : TDATA) (t t1 : CliThread)
    (h : CLImain_step td t = some (td1, t1)) (hok : cliBlockOk td) : cliBlockOk td1 := by
  unfold CLImain_step at h
  split at h
  · exact CLImain_dispatch_ok td td1 t t1 h hok
  · split at h
    · simp only [Option.some.injEq, Prod.mk.injEq] at h
      rw [← h.1]; exact hok
    · simp only [Option.some.injEq, Prod.mk.injEq] at h
      rw [← h.1]; exact hok
  · split at h
    · simp only [Option.some.injEq, Prod.mk.injEq] at h
      rw [← h.1]; exact hok
    · split at h
      · exact absurd h (by simp)
      · simp only [Option.some.injEq, Prod.mk.injEq] at h
        rw [← h.1]; exact hok
  · simp only [Option.some.injEq, Prod.mk.injEq] at h
    rw [← h.1]; exact hok

theorem venueLoop_length (q : List Nat) :
    ∀ (fuel c i : Nat) (data r : List Int), venueLoop q fuel c i data = some r →
      r.length = data.length := by
  intro fuel
  induction fuel with
  | zero => intro c i data r h; exact absurd h (by simp [venueLoop])
  | succ f ih =>
    intro c i data r h
    rw [venueLoop] at h
    cases hp : wget q (c - 1) with
    | none => rw [hp] at h; exact absurd h (by simp)
    | some prev =>
      rw [hp, Option.some_bind] at h
      split at h
      · cases hc : wget q c with
        | none => rw [hc] at h; exact absurd h (by simp)
        | some qc =>
          rw [hc, Option.some_bind] at h
          cases he : escapeAt q c qc with
          | none => rw [he] at h; exact absurd h (by simp)
          | some esc =>
            rw [he, Option.some_bind] at h
            cases esc with
            | none =>
              have := ih _ _ _ _ h
              rw [this, List.length_set]
            | some p =>
              obtain ⟨q1, q2⟩ := p
              have := ih _ _ _ _ h
              rw [this, List.length_set, List.length_set]
      · rw [← Option.some.inj h]

theorem webPayloadSafe_sentinel (d : List Int) (hlen : d.length = 256) :
    (d.set 0 (-1)).length = 256 ∧ webPayloadSafe (d.set 0 (-1)) :=
  ⟨by rw [List.length_set]; exact hlen, Or.inl (peek_set_self _ _ _ (by omega))⟩

theorem DoReceiveRequests_switch_ok (data d : List Int) (q : List Nat)
    (h : DoReceiveRequests_switch data q = some d) (hlen : data.length = 256) :
    d.length = 256 ∧ webPayloadSafe d := by
  unfold DoReceiveRequests_switch at h
  dsimp only at h
  split at h
  · -- 'v'
    cases hv : venueLoop q D_NAMESIZE 2 1 data with
    | none => rw [hv] at h; exact absurd h (by simp)
    | some r =>
      rw [hv, Option.map_some', Option.some.injEq] at h
      have hl := venueLoop_length q _ _ _ _ _ hv
      rw [← h]
      refine ⟨by rw [List.length_set, hl]; exact hlen, ?_⟩
      right; right; right; left
      exact peek_set_self _ _ _ (by omega)
  · split at h
    · -- 't'
      split at h
      · rw [← Option.some.inj h]; exact webPayloadSafe_sentinel data hlen
      · rw [← Option.some.inj h]
        refine ⟨by rw [length_writeInt32, List.length_set]; exact hlen, ?_⟩
        right; right; left
        rw [peek_writeInt32_other _ _ _ _ (Or.inl (by decide))]
        exact peek_set_self _ _ _ (by omega)
    · split at h
      · -- 'c'
        split at h
        · rw [← Option.some.inj h]; exact webPayloadSafe_sentinel data hlen
        · rename_i hc
          rw [← Option.some.inj h]
          refine ⟨by simp only [List.length_set]; exact hlen, ?_⟩
          right; right; right; right
          have h2 : 48 ≤ q.getD 2 0 ∧ q.getD 2 0 ≤ 50 := by omega
          have h3 : 48 ≤ q.getD 3 0 ∧ q.getD 3 0 ≤ 55 := by omega
          rw [peek_set_ne _ _ _ _ (by decide), peek_set_self _ _ _ (by omega),
            peek_set_self _ _ _ (by simp only [List.length_set]; omega),
            toChar_of_range _ (by omega) (by omega), toChar_of_range _ (by omega) (by omega)]
          omega
      · split at h
        · rw [← Option.some.inj h]; exact webPayloadSafe_sentinel data hlen
        · rw [← Option.some.inj h]
          refine ⟨by simp only [List.length_set]; exact hlen, ?_⟩
          right; left
          rw [peek_set_ne _ _ _ _ (by decide), peek_set_ne _ _ _ _ (by decide)]
          exact peek_set_self _ _ _ (by omega)

theorem DoReceiveRequests_query_ok (td td1 : TDATA) (query : Option (List Nat))
    (h : DoReceiveRequests_query td query = some td1) (hlen : td.data.length = 256) :
    td1.data.length = 256 ∧ webPayloadSafe td1.data := by
  unfold DoReceiveRequests_query at h
  split at h
  · split at h
    · cases hs : DoReceiveRequests_switch td.data _ with
      | none => rw [hs] at h; exact absurd h (by simp)
      | some d =>
        rw [hs, Option.map_some', Option.some.injEq] at h
        rw [← h]
        exact DoReceiveRequests_switch_ok td.data d _ hs hlen
    · rw [← Option.some.inj h]; exact webPayloadSafe_sentinel td.data hlen
  · rw [← Option.some.inj h]; exact webPayloadSafe_sentinel td.data hlen

theorem GLmain_frame_ok (data d : List Int) (h m : Int) (hf : GLmain_frame data h m = some d)
    (hlen : data.length = 256) (hs : slotsInTable data) :
    d.length = 256 ∧ slotsInTable d := by
  rcases GLmain_frame_cases data h m d hf with h1 | ⟨h1, _⟩
  · rw [h1]; exact ⟨hlen, hs⟩
  · rw [h1]
    exact ⟨by rw [List.length_set]; exact hlen,
      slotsInTable_set data _ _ (by omega) (fun hi => absurd hi (by decide)) hs⟩

set_option maxRecDepth 100000 in
theorem main_init_eq : main_init = some { status := 0, data := initData } := by decide

set_option maxRecDepth 100000 in
theorem initData_ok : initData.length = 256 ∧ slotsInTable initData := by
  refine ⟨by decide, ?_⟩
  rw [slotsInTable_iff]
  decide

/-- C30: one iteration of the coordinator loop leaves a peer block whose status is not
`T_WAITING` as it is, status and payload; when neither peer is waiting the iteration
completes and leaves the three blocks - render state and both control blocks - unchanged. -/
theorem C30_coordinator_respects_ownership (s : Blocks) :
    (s.http.status ≠ T_WAITING → s.cli.status ≠ T_WAITING → main_loopBody s = some s)
    ∧ ∀ s1 : Blocks, main_loopBody s = some s1 →
        (s.http.status ≠ T_WAITING → s1.http = s.http)
        ∧ (s.cli.status ≠ T_WAITING → s1.cli = s.cli) := by
  refine ⟨?_, ?_⟩
  · intro hh hc
    simp [main_loopBody, hh, hc]
  · intro s1 h
    unfold main_loopBody at h
    refine ⟨?_, ?_⟩
    · intro hh
      rw [if_neg hh] at h
      simp only [Option.some_bind] at h
      by_cases hc : s.cli.status = T_WAITING
      · rw [if_pos hc] at h
        cases hd : main_cliDispatch s.gl s.cli with
        | none => rw [hd] at h; simp at h
        | some r =>
          rw [hd] at h
          simp only [Option.map_some', Option.some.injEq] at h
          rw [← h]
      · rw [if_neg hc] at h
        simp only [Option.map_some', Option.some.injEq] at h
        rw [← h]
    · intro hc
      simp only [if_neg hc] at h
      cases hp : (if s.http.status = T_WAITING then main_httpDispatch s.gl s.http
          else some (s.gl, s.http)) with
      | none => rw [hp] at h; simp at h
      | some p =>
        rw [hp] at h
        simp only [Option.some_bind, Option.map_some', Option.some.injEq] at h
        rw [← h]

set_option maxRecDepth 100000 in
theorem C30_coordinator_respects_ownership_witness :
    main_loopBody
        { gl := zeroBlock,
          http := zeroBlock,
          cli := { status := T_WAITING, data := (zeroBlock.data.set 0 99).set 2 C_BLUE } }
      = some
        { gl := { status := 0, data := zeroBlock.data.set 0 C_BLUE },
          http := zeroBlock,
          cli := { status := T_RUNNING, data := (zeroBlock.data.set 0 99).set 2 C_BLUE } }
    ∧ ((zeroBlock.status ≠ T_WAITING → zeroBlock = zeroBlock)
        ∧ (T_WAITING ≠ T_WAITING →
            ({ status := T_RUNNING, data := (zeroBlock.data.set 0 99).set 2 C_BLUE } : TDATA)
              = { status := T_WAITING, data := (zeroBlock.data.set 0 99).set 2 C_BLUE })) :=
  ⟨by decide,
   (C30_coordinator_respects_ownership
        { gl := zeroBlock,
          http := zeroBlock,
          cli := { status := T_WAITING, data := (zeroBlock.data.set 0 99).set 2 C_BLUE } }).2
      { gl := { status := 0, data := zeroBlock.data.set 0 C_BLUE },
        http := zeroBlock,
        cli := { status := T_RUNNING, data := (zeroBlock.data.set 0 99).set 2 C_BLUE } }
      (by decide)⟩

/-! ## The order of the two dispatches in one iteration -/

theorem formatNoArgs_mem : ∀ (n : Nat) (fmt text : List Int), fmt.length ≤ n →
    formatNoArgs fmt = some text → ∀ x ∈ text, x ∈ fmt := by
  intro n
  induction n with
  | zero =>
    intro fmt text hl h x hx
    have : fmt = [] := List.length_eq_zero.mp (by omega)
    subst this
    simp only [formatNoArgs, Option.some.injEq] at h
    subst h
    exact hx
  | succ n ih =>
    intro fmt text hl h x hx
    match fmt, hl, h with
    | [], _, h =>
      simp only [formatNoArgs, Option.some.injEq] at h
      subst h
      exact hx
    | [c], _, h =>
      by_cases hc : c = 37
      · subst hc
        simp [formatNoArgs] at h
      · have : formatNoArgs [c] = some [c] :=
          formatNoArgs_of_no_percent [c] (by simpa using hc)
        rw [this] at h
        rw [← Option.some.inj h] at hx
        exact hx
    | c :: c2 :: rest, hl, h =>
      by_cases hc : c = 37
      · subst hc
        by_cases hc2 : c2 = 37
        · subst hc2
          rw [formatNoArgs] at h
          obtain ⟨t, ht, hte⟩ := Option.map_eq_some'.mp h
          subst hte
          rcases List.mem_cons.mp hx with hx1 | hx1
          · rw [hx1]; exact List.mem_cons_self _ _
          · have := ih rest t (by simp only [List.length_cons] at hl; omega) ht x hx1
            exact List.mem_cons_of_mem _ (List.mem_cons_of_mem _ this)
        · simp [formatNoArgs, hc2] at h
      · rw [formatNoArgs] at h
        · obtain ⟨t, ht, hte⟩ := Option.map_eq_some'.mp h
          subst hte
          rcases List.mem_cons.mp hx with hx1 | hx1
          · rw [hx1]; exact List.mem_cons_self _ _
          · have := ih (c2 :: rest) t (by simp only [List.length_cons] at hl ⊢; omega) ht x hx1
            exact List.mem_cons_of_mem _ this
        · intro r hr _; exact hc hr
        · intro hr; exact hc hr

theorem cliDispatch_data (gl cli : TDATA) :
    main_cliDispatch gl cli = main_cliDispatch gl { status := T_WAITING, data := cli.data } := rfl

theorem cliDispatch_venue_value (gl cli g2 c2 : TDATA) (hgl : gl.data.length = 256)
    (h0 : peek cli.data 0 = 118) (h : main_cliDispatch gl cli = some (g2, c2)) :
    ∃ text, (cstrAt cli.data 1).bind formatNoArgs = some text ∧ venueName g2.data = some text := by
  unfold main_cliDispatch main_cliSwitch at h
  dsimp only at h
  rw [if_neg (by rw [h0]; decide), if_neg (by rw [h0]; decide), if_neg (by rw [h0]; decide),
    if_neg (by rw [h0]; decide), if_pos h0] at h
  cases hf : (cstrAt cli.data 1).bind formatNoArgs with
  | none => rw [hf] at h; exact absurd h (by simp)
  | some text =>
    rw [hf, Option.some_bind] at h
    cases hp : sprintf_s gl.data D_VENUENAME D_NAMESIZE text with
    | none => rw [hp] at h; exact absurd h (by simp)
    | some g =>
      rw [hp] at h
      simp only [Option.map_some', Option.some.injEq, Prod.mk.injEq] at h
      refine ⟨text, rfl, ?_⟩
      have hlen : text.length ≤ 247 := by
        unfold sprintf_s at hp
        split at hp
        · rename_i hl; unfold D_NAMESIZE at hl; omega
        · exact absurd hp (by simp)
      have hnz : ∀ x ∈ text, x ≠ 0 := by
        cases hc : cstrAt cli.data 1 with
        | none => rw [hc] at hf; exact absurd hf (by simp)
        | some fmt =>
          rw [hc, Option.some_bind] at hf
          intro x hx
          exact cstrAt_nonzero _ _ _ hc x (formatNoArgs_mem fmt.length fmt text (le_refl _) hf x hx)
      obtain ⟨hw, hv, -⟩ := venue_write_frame gl.data text hgl hnz hlen
      rw [hw] at hp
      rw [← h.1]
      dsimp only
      rw [← Option.some.inj hp]
      exact hv

theorem cliDispatch_mode_value (gl cli g2 c2 : TDATA) (hgl : gl.data.length = 256)
    (h0 : peek cli.data 0 = 115) (h : main_cliDispatch gl cli = some (g2, c2)) :
    (readFlags (behaviorFlags g2.data) F_SLIDESHOW_MODE ≠ 0 ↔ peek cli.data 1 ≠ 0) := by
  by_cases hb : peek cli.data 1 ≠ 0
  · have hdisp := cli_mode_dispatch gl cli h0
    rw [if_pos hb, show toChar (-(1 : Int)) = -(((1 : Nat) : Int)) from by decide, h] at hdisp
    have hg := (Prod.mk.inj (Option.some.inj hdisp)).1
    rw [hg]
    dsimp only
    have hf : behaviorFlags (gl.data.set D_FLAGS
        (writeFlags (peek gl.data D_FLAGS) F_SLIDESHOW_MODE (-(((1 : Nat) : Int)))))
        = writeFlags (peek gl.data D_FLAGS) F_SLIDESHOW_MODE (-(((1 : Nat) : Int))) :=
      peek_set_self _ _ _ (by rw [hgl]; decide)
    have hbit := writeFlags_single_bit (peek gl.data D_FLAGS) 0 1 (by omega) (by omega) 0
    rw [hf, show F_SLIDESHOW_MODE = ((2 ^ 0 : Nat) : Int) from rfl,
      readFlags_ne_zero_iff _ 0 (by omega), hbit]
    simp [hb]
  · have hdisp := cli_mode_dispatch gl cli h0
    rw [if_neg hb, show toChar (-(0 : Int)) = -(((0 : Nat) : Int)) from by decide, h] at hdisp
    have hg := (Prod.mk.inj (Option.some.inj hdisp)).1
    rw [hg]
    dsimp only
    have hf : behaviorFlags (gl.data.set D_FLAGS
        (writeFlags (peek gl.data D_FLAGS) F_SLIDESHOW_MODE (-(((0 : Nat) : Int)))))
        = writeFlags (peek gl.data D_FLAGS) F_SLIDESHOW_MODE (-(((0 : Nat) : Int))) :=
      peek_set_self _ _ _ (by rw [hgl]; decide)
    have hbit := writeFlags_single_bit (peek gl.data D_FLAGS) 0 0 (by omega) (by omega) 0
    rw [hf, show F_SLIDESHOW_MODE = ((2 ^ 0 : Nat) : Int) from rfl,
      readFlags_ne_zero_iff _ 0 (by omega), hbit]
    simp [hb]

theorem cliDispatch_autostart_value (gl cli g2 c2 : TDATA) (hgl : gl.data.length = 256)
    (h0 : peek cli.data 0 = 97) (h : main_cliDispatch gl cli = some (g2, c2)) :
    (readFlags (behaviorFlags g2.data) F_AUTOSTART ≠ 0
      ↔ readFlags (behaviorFlags gl.data) F_AUTOSTART = 0) := by
  have hdisp := autostart_dispatch_spec gl cli hgl h0
  rw [h] at hdisp
  have hg := (Prod.mk.inj (Option.some.inj hdisp)).1
  rw [hg]
  dsimp only
  have hf : behaviorFlags (gl.data.set D_FLAGS (autostartToggled (peek gl.data D_FLAGS)))
      = autostartToggled (peek gl.data D_FLAGS) := peek_set_self _ _ _ (by rw [hgl]; decide)
  have hne : readFlags (behaviorFlags gl.data) F_AUTOSTART = 0
      ↔ ¬ (readFlags (behaviorFlags gl.data) F_AUTOSTART ≠ 0) := by
    constructor
    · intro h1 h2; exact h2 h1
    · intro h1; by_contra h2; exact h1 h2
  rw [hne, hf, show F_AUTOSTART = ((2 ^ 1 : Nat) : Int) from rfl,
    readFlags_ne_zero_iff _ 1 (by omega), readFlags_ne_zero_iff _ 1 (by omega),
    autostartToggled_bits, if_pos rfl]
  show (!(ubyte (peek gl.data D_FLAGS)).testBit 1) = true ↔ ¬ (ubyte (peek gl.data D_FLAGS)).testBit 1 = true
  simp

/-- C9, amended. In every iteration of the coordinator loop in which both peers are
Waiting, the web peer's command is applied to the render state before the console
peer's command. The iteration is the web dispatch on the state it finds, followed by the
console dispatch on the state the web dispatch left; it returns exactly when both do.
When it returns, both peers are Running, and the snapshot copied to the web peer (bytes
`0..254`) is the state between the two dispatches: it shows the web peer's command and
not the console peer's. Whatever the web command wrote, the field the console command
writes holds the console peer's value afterwards: the palette index for `'c'`, the minutes
for `'t'`, the printed name for `'v'`, the mode bit for `'s'`; for `'a'` AutoStart is the
negation of what the web command left. In particular, when both commands set the same
colour slot, the iteration returns, the snapshot holds the web peer's palette index and
the slot holds the console peer's. -/
theorem C9_web_before_console (s : Blocks)
    (hgl : s.gl.data.length = 256) (hhttp : s.http.data.length = 256)
    (hw : s.http.status = T_WAITING) (hc : s.cli.status = T_WAITING) :
    main_loopBody s
      = (main_httpDispatch s.gl s.http).bind (fun p =>
          (main_cliDispatch p.1 s.cli).map (fun r => { gl := r.1, http := p.2, cli := r.2 }))
    ∧ (∀ s1 : Blocks, main_loopBody s = some s1 →
        ∃ g1 : TDATA, main_httpDispatch s.gl s.http = some (g1, s1.http)
          ∧ main_cliDispatch g1 s.cli = some (s1.gl, s1.cli)
          ∧ s1.http.status = T_RUNNING ∧ s1.cli.status = T_RUNNING
          ∧ (∀ j : Nat, j < 255 → peek s1.http.data j = peek g1.data j)
          ∧ (∀ k : Nat, 1 ≤ k → k ≤ 3 → peek s.http.data 0 = (k : Int) - 1 →
              colorSlot s1.http.data k = peek s.http.data 1)
          ∧ (∀ k : Nat, 1 ≤ k → k ≤ 3 → peek s.cli.data 0 = 99 →
              peek s.cli.data 1 = (k : Int) - 1 → colorSlot s1.gl.data k = peek s.cli.data 2)
          ∧ (peek s.cli.data 0 = 116 → downbeatMinutes s1.gl.data = readInt32 s.cli.data 4)
          ∧ (peek s.cli.data 0 = 118 →
              ∃ text, (cstrAt s.cli.data 1).bind formatNoArgs = some text
                ∧ venueName s1.gl.data = some text)
          ∧ (peek s.cli.data 0 = 115 →
              (readFlags (behaviorFlags s1.gl.data) F_SLIDESHOW_MODE ≠ 0
                ↔ peek s.cli.data 1 ≠ 0))
          ∧ (peek s.cli.data 0 = 97 →
              (readFlags (behaviorFlags s1.gl.data) F_AUTOSTART ≠ 0
                ↔ readFlags (behaviorFlags g1.data) F_AUTOSTART = 0)))
    ∧ (∀ k : Nat, 1 ≤ k → k ≤ 3 → peek s.http.data 0 = (k : Int) - 1 →
        peek s.cli.data 0 = 99 → peek s.cli.data 1 = (k : Int) - 1 →
        ∃ s1, main_loopBody s = some s1
          ∧ colorSlot s1.http.data k = peek s.http.data 1
          ∧ colorSlot s1.gl.data k = peek s.cli.data 2
          ∧ s1.http.status = T_RUNNING ∧ s1.cli.status = T_RUNNING) := by
  have hloop : main_loopBody s
      = (main_httpDispatch s.gl s.http).bind (fun p =>
          (main_cliDispatch p.1 s.cli).map (fun r => { gl := r.1, http := p.2, cli := r.2 })) := by
    unfold main_loopBody
    rw [if_pos hw]
    simp only [if_pos hc]
  refine ⟨hloop, ?_, ?_⟩
  · intro s1 h1
    rw [hloop] at h1
    cases hweb : main_httpDispatch s.gl s.http with
    | none => rw [hweb] at h1; exact absurd h1 (by simp)
    | some p =>
      obtain ⟨g1, hb1⟩ := p
      rw [hweb, Option.some_bind] at h1
      dsimp only at h1
      cases hcli : main_cliDispatch g1 s.cli with
      | none => rw [hcli] at h1; exact absurd h1 (by simp)
      | some r =>
        obtain ⟨g2, c2⟩ := r
        rw [hcli, Option.map_some', Option.some.injEq] at h1
        subst h1
        dsimp only
        obtain ⟨hst, hdat, -, hsw⟩ := httpDispatch_shape s.gl s.http g1 hb1 hweb
        have hg1 : g1.data.length = 256 := by
          rw [httpSwitch_length _ _ _ hsw]; exact hgl
        have hcst := (dispatch_status_running s.gl s.http s.cli g1 hb1 g2 c2 hweb hcli).2
        have hsnap : ∀ j : Nat, j < 255 → peek hb1.data j = peek g1.data j := by
          intro j hj
          rw [hdat]
          exact snapshot_bytes s.http.data g1.data hhttp j hj
        refine ⟨g1, rfl, hcli, hst, hcst, hsnap, ?_, ?_, ?_, ?_, ?_, ?_⟩
        · intro k hk1 hk3 h0
          have hd := http_slot_dispatch s.gl s.http k hgl ⟨hk1, hk3⟩ h0
          rw [hweb] at hd
          have hg := (Prod.mk.inj (Option.some.inj hd)).1
          unfold colorSlot
          rw [hsnap (k - 1) (by omega), hg]
          dsimp only
          exact peek_set_self _ _ _ (by omega)
        · intro k hk1 hk3 h0 h1
          have hd := cli_slot_dispatch g1 s.cli k hg1 ⟨hk1, hk3⟩ h0 h1
          rw [hcli] at hd
          have hg := (Prod.mk.inj (Option.some.inj hd)).1
          unfold colorSlot
          rw [hg]
          dsimp only
          exact peek_set_self _ _ _ (by omega)
        · intro h0
          have hd := cli_downbeat_dispatch g1 s.cli.data h0
          rw [← cliDispatch_data, hcli] at hd
          have hg := (Prod.mk.inj (Option.some.inj hd)).1
          rw [hg]
          dsimp only
          have hr := readInt32_range s.cli.data 4
          exact (downbeat_write_frame g1.data _ hg1 hr.1 hr.2).1
        · intro h0
          exact cliDispatch_venue_value g1 s.cli g2 c2 hg1 h0 hcli
        · intro h0
          exact cliDispatch_mode_value g1 s.cli g2 c2 hg1 h0 hcli
        · intro h0
          exact cliDispatch_autostart_value g1 s.cli g2 c2 hg1 h0 hcli
  · intro k hk1 hk3 hw0 hc0 hc1
    have hweb := http_slot_dispatch s.gl s.http k hgl ⟨hk1, hk3⟩ hw0
    have hcli := cli_slot_dispatch { s.gl with data := s.gl.data.set (k - 1) (peek s.http.data 1) }
      s.cli k (by simp [hgl]) ⟨hk1, hk3⟩ hc0 hc1
    refine ⟨_, loopBody_both s _ _ _ _ hw hc hweb hcli, ?_, ?_, rfl, rfl⟩
    · unfold colorSlot
      dsimp only
      rw [peek_copyPrefix _ _ _ (by omega), if_pos (by omega)]
      exact peek_set_self _ _ _ (by omega)
    · unfold colorSlot
      dsimp only
      exact peek_set_self _ _ _ (by simp [hgl]; omega)

set_option maxRecDepth 100000 in
/-- C9 amended, at the blocks of the counterexample. -/
theorem C9_web_before_console_witness :
    zeroBlock.data.length = 256 ∧ (zeroBlock.data.set 1 2).length = 256
    ∧ ∃ s1, main_loopBody
        { gl := zeroBlock,
          http := { status := T_WAITING, data := zeroBlock.data.set 1 2 },
          cli := { status := T_WAITING, data := (zeroBlock.data.set 0 99).set 2 3 } } = some s1
      ∧ colorSlot s1.http.data 1 = 2 ∧ colorSlot s1.gl.data 1 = 3 := by
  obtain ⟨s1, h1, h2, h3, -⟩ := (C9_web_before_console
    { gl := zeroBlock,
      http := { status := T_WAITING, data := zeroBlock.data.set 1 2 },
      cli := { status := T_WAITING, data := (zeroBlock.data.set 0 99).set 2 3 } }
    zeroBlock_length ((List.length_set _ _ _).trans zeroBlock_length) rfl rfl).2.2 1
    (by decide) (by decide) (by decide) (by decide) (by decide)
  exact ⟨zeroBlock_length, (List.length_set _ _ _).trans zeroBlock_length,
    s1, h1, by rw [h2]; decide, by rw [h3]; decide⟩

/-- The branch `VENUE` is its first statements followed by the stores of the opcode and
of the status. -/
theorem CLImain_venue_split (td : TDATA) (venue : List Int) :
    CLImain_venue td venue
      = (CLImain_venue_name td venue).map (fun t =>
          CliOutcome.submit { status := T_WAITING, data := t.data.set 0 118 } []) := by
  unfold CLImain_venue CLImain_venue_name
  split
  · rfl
  · rw [Option.map_map]
    rfl

set_option maxRecDepth 100000 in
/-- C29: the console lines `COLOR 1 RED` and `VENUE`, space, the bytes 1 and 90 (`Z`),
entered before the coordinator's next poll, from the start state. After the first line
the block is `T_WAITING` with `'c'`, 0, 1 and the console thread reads on (the `COLOR`
branch has no wait loop). It reads the verb `VENUE`, the rest of the line, and its
`sprintf_s` stores the name at `data + 1`: the block, still `T_WAITING` with opcode `'c'`,
now holds slot id 1 and palette index 90. An iteration of the coordinator loop at this
point applies it: the colour slots are 1, 90, 3, and the next frame in banner mode looks
up `colors[90]`, outside the table of eight rows. -/
theorem C29_venue_after_color_breaks_slots :
    CLImain_run 2 { status := T_RUNNING, data := zeroBlock.data }
        { pc := CliPc.read, command := [],
          input := [67, 79, 76, 79, 82, 32, 49, 32, 82, 69, 68, 10,
                    86, 69, 78, 85, 69, 32, 1, 90, 10] }
      = some ({ status := T_WAITING, data := ((zeroBlock.data.set 0 99).set 1 0).set 2 1 },
          { pc := CliPc.read, command := [82, 69, 68],
            input := [10, 86, 69, 78, 85, 69, 32, 1, 90, 10] })
    ∧ CLImain_step { status := T_WAITING, data := ((zeroBlock.data.set 0 99).set 1 0).set 2 1 }
        { pc := CliPc.read, command := [82, 69, 68],
          input := [10, 86, 69, 78, 85, 69, 32, 1, 90, 10] }
      = some ({ status := T_WAITING, data := ((zeroBlock.data.set 0 99).set 1 0).set 2 1 },
          { pc := CliPc.test, command := [86, 69, 78, 85, 69], input := [32, 1, 90, 10] })
    ∧ verbChain [86, 69, 78, 85, 69] verbTests 0 = some 3
    ∧ readLine [32, 1, 90, 10] = some ([32, 1, 90], [])
    ∧ CLImain_venue_name
        { status := T_WAITING, data := ((zeroBlock.data.set 0 99).set 1 0).set 2 1 } [32, 1, 90]
      = some { status := T_WAITING,
               data := (((zeroBlock.data.set 0 99).set 1 1).set 2 90).set 3 0 }
    ∧ main_init = some { status := 0, data := initData }
    ∧ (colorSlot initData 1, colorSlot initData 2, colorSlot initData 3) = (1, 2, 3)
    ∧ main_loopBody
        { gl := { status := T_RUNNING, data := initData },
          http := { status := T_RUNNING, data := zeroBlock.data },
          cli := { status := T_WAITING,
                   data := (((zeroBlock.data.set 0 99).set 1 1).set 2 90).set 3 0 } }
      = some
        { gl := { status := T_RUNNING, data := initData.set 1 90 },
          http := { status := T_RUNNING, data := zeroBlock.data },
          cli := { status := T_RUNNING,
                   data := (((zeroBlock.data.set 0 99).set 1 1).set 2 90).set 3 0 } }
    ∧ (colorSlot (initData.set 1 90) 1, colorSlot (initData.set 1 90) 2,
        colorSlot (initData.set 1 90) 3) = (1, 90, 3)
    ∧ readFlags (behaviorFlags (initData.set 1 90)) F_SLIDESHOW_MODE = 0
    ∧ colorsRow (colorSlot (initData.set 1 90) 2) = none
    ∧ GLmain_frame (initData.set 1 90) 20 0 = none := by
  refine ⟨?_, ?_, ?_, ?_, ?_, ?_, ?_, ?_, ?_, ?_, ?_, ?_⟩ <;> decide

end DigitalBanner
